import Mathlib

/-!
# Verification of the merk `SparseTree` (AVL tree with Merkle links)

A shallow embedding of `src/rust/src/sparse_tree.rs`: an in-memory AVL tree
whose nodes carry Merkle `Link` snapshots `(key, hash, height)` of their
children.  The `Node`/`Link` data model lives in the repository's `node`
module, which is not part of the provided sources, so it is modelled from the
specification; every `SparseTree` operation below is translated directly from
the Rust source.  Keys and values are byte strings, modelled as `List Nat`;
byte slices compare lexicographically.  Rust panics (`unwrap`) are modelled by
`Option`: `none` means the operation panicked.  `put` is recursive through
lazily hydrated children fetched from a backing store, so its embedding takes
a fuel argument; `none` also results when fuel runs out (for fully hydrated
trees we prove fuel `realHeight + 1` always suffices).
-/

/-- Byte strings (keys and values). -/
abbrev Bytes := List Nat

/-- Lexicographic strict comparison of byte slices, as Rust's `<` on `&[u8]`:
a strict prefix is smaller, otherwise the first differing byte decides. -/
def bytesLt : Bytes → Bytes → Bool
  | [], [] => false
  | [], _ :: _ => true
  | _ :: _, [] => false
  | a :: as', b :: bs' => a < b || (a = b && bytesLt as' bs')

/-- Modelled from the spec: Merkle digests.  `Node::hash` is "a cryptographic
digest computed over key, value, and the hashes of left_link/right_link
(absent link ⇒ a fixed sentinel hash), deterministic and order-sensitive".
A free term model captures exactly a deterministic, injective digest. -/
inductive Hash where
  | sentinel : Hash
  | digest : Bytes → Bytes → Hash → Hash → Hash
  deriving DecidableEq

/-- Modelled from the spec: a `Link` is "a lightweight reference to a child:
the child's key, its Merkle hash, and its subtree height". -/
structure Link where
  key : Bytes
  hash : Hash
  height : Nat
  deriving DecidableEq

/-- Modelled from the spec: a `Node` is "the persistable unit: a key, a value,
an optional parent-key back-reference, and two optional child Links"
(`node` module, not in the provided sources). -/
structure Node where
  key : Bytes
  value : Bytes
  parent_key : Option Bytes
  left_link : Option Link
  right_link : Option Link
  deriving DecidableEq

/-- Modelled from the spec: `Node::new` builds a fresh node with no parent and
no children (a `put` of a new key attaches exactly such a node). -/
def Node.new (key value : Bytes) : Node :=
  ⟨key, value, none, none, none⟩

/-- Modelled from the spec: overwrite the node's value in place. -/
def Node.set_value (n : Node) (v : Bytes) : Node :=
  { n with value := v }

/-- Modelled from the spec: set the node's parent-key back-reference. -/
def Node.set_parent (n : Node) (pk : Option Bytes) : Node :=
  { n with parent_key := pk }

/-- Modelled from the spec: store a child `Link` on the given side. -/
def Node.set_child (n : Node) (left : Bool) (l : Option Link) : Node :=
  cond left { n with left_link := l } { n with right_link := l }

/-- Modelled from the spec: read the child `Link` on the given side. -/
def Node.child_link (n : Node) (left : Bool) : Option Link :=
  cond left n.left_link n.right_link

/-- Modelled from the spec: the height of the child on the given side as
recorded in its link; an absent link counts as 0, so a leaf has height 1
(the concrete scenario in the spec assigns the 20-node tree height 5). -/
def Node.child_height (n : Node) (left : Bool) : Nat :=
  (n.child_link left).elim 0 Link.height

/-- Modelled from the spec: a node's height, computed in O(1) from the child
heights recorded in its links. -/
def Node.height (n : Node) : Nat :=
  1 + max (n.child_height true) (n.child_height false)

/-- Modelled from the spec: "Balance factor = height(right_child) −
height(left_child)", computed from the stored links. -/
def Node.balance_factor (n : Node) : Int :=
  (n.child_height false : Int) - (n.child_height true : Int)

/-- Modelled from the spec: the hash committed for an absent child. -/
def linkHash : Option Link → Hash
  | none => Hash.sentinel
  | some l => l.hash

/-- Modelled from the spec: `Node::hash`, a digest over key, value and the
two child link hashes (left then right; absent link ⇒ sentinel). -/
def Node.hash (n : Node) : Hash :=
  Hash.digest n.key n.value (linkHash n.left_link) (linkHash n.right_link)

/-- Modelled from the spec: `as_link` "snapshots (key, hash(), height)". -/
def Node.as_link (n : Node) : Link :=
  ⟨n.key, n.hash, n.height⟩

/-- The backing-store fetch capability `get_node(link) -> Node`. -/
def GetNodeFn := Link → Node

mutual
/-- `SparseTree` from `sparse_tree.rs`: an in-memory node plus two optional
owned child subtrees.  The `get_node` function pointer field is threaded as an
explicit parameter to the operations that use it instead of being stored. -/
inductive SparseTree where
  | mk : Node → OptTree → OptTree → SparseTree
/-- `Option<Box<SparseTree>>`, the type of the `left`/`right` fields. -/
inductive OptTree where
  | none : OptTree
  | some : SparseTree → OptTree
end

/-- The root `Node` of a `SparseTree`. -/
def SparseTree.nodeOf : SparseTree → Node
  | .mk n _ _ => n

/-- `child_tree`: the hydrated child subtree on the given side, if any. -/
def SparseTree.childOf : SparseTree → Bool → OptTree
  | .mk _ l _, true => l
  | .mk _ _ r, false => r

/-- Writing the raw child field (`*child_field_mut(left) = ...`). -/
def SparseTree.setChildField : SparseTree → Bool → OptTree → SparseTree
  | .mk n _ r, true, c => .mk n c r
  | .mk n l _, false, c => .mk n l c

/-- `SparseTree::new`: a tree with the given root node and no children. -/
def SparseTree.new (n : Node) : SparseTree :=
  .mk n .none .none

/-- `SparseTree::get`: fetch a node from the backing store and wrap it. -/
def SparseTree.get (g : GetNodeFn) (l : Link) : SparseTree :=
  SparseTree.new (g l)

/-- `set_value` on the root node (via `DerefMut`). -/
def SparseTree.set_value : SparseTree → Bytes → SparseTree
  | .mk n l r, v => .mk (n.set_value v) l r

/-- `set_parent` on the root node (via `DerefMut`). -/
def SparseTree.set_parent : SparseTree → Option Bytes → SparseTree
  | .mk n l r, pk => .mk (n.set_parent pk) l r

/-- The `Link` snapshot of an optional child, as stored by `update_link`. -/
def OptTree.linkOf : OptTree → Option Link
  | .none => Option.none
  | .some t => Option.some t.nodeOf.as_link

/-- `set_parent` mapped over an optional child. -/
def OptTree.setParentO : OptTree → Option Bytes → OptTree
  | .none, _ => .none
  | .some t, pk => .some (t.set_parent pk)

/-- `SparseTree::update_link`: recompute the child's link from the hydrated
child field and store it on this tree's node. -/
def SparseTree.update_link : SparseTree → Bool → SparseTree
  | .mk n l r, left =>
    .mk (n.set_child left (cond left l r).linkOf) l r

/-- `SparseTree::set_child`: set the child field, refresh the link, and point
the child's `parent_key` at this node. -/
def SparseTree.set_child (t : SparseTree) (left : Bool) (c : OptTree) : SparseTree :=
  match (t.setChildField left c).update_link left with
  | .mk n l r =>
    cond left (SparseTree.mk n (l.setParentO (Option.some n.key)) r)
      (SparseTree.mk n l (r.setParentO (Option.some n.key)))

/-- `SparseTree::maybe_get_child`: if the node has a link on that side, return
the hydrated child (fetching it from the store and caching it in the child
field on first access); if there is no link, return nothing.  Returns the
child together with the (possibly updated) tree. -/
def SparseTree.maybe_get_child (g : GetNodeFn) (t : SparseTree) (left : Bool) :
    OptTree × SparseTree :=
  match t.nodeOf.child_link left with
  | Option.some link =>
    match t.childOf left with
    | .some c => (.some c, t)
    | .none =>
      let c := SparseTree.get g link
      (.some c, t.setChildField left (.some c))
  | Option.none => (.none, t)

/-- `SparseTree::swap`: exchange the node payloads and child fields of two
trees, with each tree keeping its own `parent_key`. -/
def SparseTree.swap : SparseTree → SparseTree → SparseTree × SparseTree
  | .mk n l r, .mk n₂ l₂ r₂ =>
    (.mk { n₂ with parent_key := n.parent_key } l₂ r₂,
     .mk { n with parent_key := n₂.parent_key } l r)

/-- `SparseTree::rotate`: the swap-based AVL rotation.  `none` models the
panic of `child_field_mut(left).take().unwrap()` when there is no child on
the rotation side. -/
def SparseTree.rotate (g : GetNodeFn) (t : SparseTree) (left : Bool) :
    Option SparseTree :=
  let t₁ := (t.maybe_get_child g left).2
  match t₁.childOf left with
  | .none => Option.none
  | .some child =>
    let t₂ := t₁.setChildField left .none
    let child₁ := (child.maybe_get_child g (!left)).2
    let grandchild := child₁.childOf (!left)
    let child₂ := child₁.setChildField (!left) .none
    let t₃ := t₂.set_child left grandchild
    let p := t₃.swap child₂
    let t₄ := p.1.update_link left
    let child₃ := p.2.update_link (!left)
    Option.some (t₄.set_child (!left) (.some child₃))

/-- `SparseTree::maybe_rebalance`: if the stored balance factor exceeds 1 in
absolute value, perform a single or double AVL rotation.  `none` models the
panic of `maybe_get_child(left).unwrap()` when the heavy side has no link. -/
def SparseTree.maybe_rebalance (g : GetNodeFn) (t : SparseTree) :
    Option SparseTree :=
  let bf := t.nodeOf.balance_factor
  if bf.natAbs ≤ 1 then Option.some t
  else
    let left := decide (bf < 0)
    match t.maybe_get_child g left with
    | (.none, _) => Option.none
    | (.some child, t₁) =>
      let double := cond left (decide (child.nodeOf.balance_factor > 0))
        (decide (child.nodeOf.balance_factor < 0))
      if double then
        match child.rotate g (!left) with
        | Option.none => Option.none
        | Option.some child₂ =>
          ((t₁.setChildField left (.some child₂)).update_link left).rotate g left
      else
        t₁.rotate g left

/-- `SparseTree::put`, with explicit fuel bounding the recursion depth (the
Rust recursion descends through children hydrated from the backing store, so
it is not structurally decreasing).  `none` means the fuel ran out or a
rotation panicked. -/
def SparseTree.putF (g : GetNodeFn) : Nat → SparseTree → Bytes → Bytes →
    Option SparseTree
  | 0, _, _, _ => Option.none
  | fuel + 1, t, key, value =>
    if t.nodeOf.key = key then
      Option.some (t.set_value value)
    else
      let left := bytesLt key t.nodeOf.key
      let next : Option SparseTree :=
        match t.maybe_get_child g left with
        | (.some child, t₁) =>
          (SparseTree.putF g fuel child key value).map fun child₂ =>
            (t₁.setChildField left (.some child₂)).update_link left
        | (.none, t₁) =>
          Option.some (t₁.set_child left
            (.some (SparseTree.new (Node.new key value))))
      next.bind fun t₂ => t₂.maybe_rebalance g

mutual
/-- The number of hydrated nodes in a tree. -/
def SparseTree.size : SparseTree → Nat
  | .mk _ l r => 1 + l.size + r.size
/-- The number of hydrated nodes below an optional child. -/
def OptTree.size : OptTree → Nat
  | .none => 0
  | .some t => t.size
end

mutual
/-- The actual height of the hydrated tree (a leaf has height 1), as opposed
to the height recorded in the node's links. -/
def SparseTree.realHeight : SparseTree → Nat
  | .mk _ l r => 1 + max l.realHeight r.realHeight
/-- The actual height of an optional child (0 when absent). -/
def OptTree.realHeight : OptTree → Nat
  | .none => 0
  | .some t => t.realHeight
end

/-- The actual balance factor: real right height minus real left height. -/
def SparseTree.realBF : SparseTree → Int
  | .mk _ l r => (r.realHeight : Int) - (l.realHeight : Int)

/-- `SparseTree::put` at the fuel that suffices for every fully hydrated
tree: one unit per level of the hydrated tree plus one. -/
def SparseTree.put (g : GetNodeFn) (t : SparseTree) (key value : Bytes) :
    Option SparseTree :=
  t.putF g (t.realHeight + 1) key value

mutual
/-- `SparseTree::entries`: the in-order list of (key, value) pairs of the
hydrated portion of the tree (left subtree, own pair, right subtree). -/
def SparseTree.entries : SparseTree → List (Bytes × Bytes)
  | .mk n l r => l.entries ++ (n.key, n.value) :: r.entries
/-- In-order entries below an optional child. -/
def OptTree.entries : OptTree → List (Bytes × Bytes)
  | .none => []
  | .some t => t.entries
end

/-- Apply a sequence of `put` calls in order; `none` if any call panics. -/
def SparseTree.putList (g : GetNodeFn) : SparseTree → List (Bytes × Bytes) →
    Option SparseTree
  | t, [] => Option.some t
  | t, (k, v) :: rest =>
    match t.put g k v with
    | Option.some t' => t'.putList g rest
    | Option.none => Option.none

/-- A one-node tree on key `"1"`, used to exercise the claims concretely. -/
def leaf49 : SparseTree := SparseTree.new (Node.new [49] [120])

/-- A two-node left chain: key `"2"` with `"1"` as left child. -/
def chain50 : SparseTree :=
  (SparseTree.new (Node.new [50] [120])).set_child true (OptTree.some leaf49)

/-- A three-node left chain: key `"3"` above `"2"` above `"1"`.  Its links are
maintained by `set_child`, and it is left-heavy with balance factor −2. -/
def chain51 : SparseTree :=
  (SparseTree.new (Node.new [51] [120])).set_child true (OptTree.some chain50)

/-- On the side the balance factor points to, the hydrated child (if any)
itself has a nonzero balance factor.  During the bottom-up unwind of `put`
this always holds when rebalancing triggers: the heavy child just grew. -/
def heavyChildSharp (t : SparseTree) : Bool :=
  match t.childOf (decide (t.realBF < 0)) with
  | OptTree.none => true
  | OptTree.some hc => decide (hc.realBF ≠ 0)

mutual
/-- Link consistency: at every node, the stored link on each side is exactly
the `as_link` snapshot (key, hash, height) of the hydrated child there, and
there is a link exactly when there is a hydrated child. -/
def SparseTree.hydOk : SparseTree → Bool
  | .mk n l r =>
    n.left_link == l.linkOf && n.right_link == r.linkOf && l.hydOk && r.hydOk
/-- Link consistency below an optional child. -/
def OptTree.hydOk : OptTree → Bool
  | .none => true
  | .some t => t.hydOk
end

mutual
/-- AVL balance: at every node the real balance factor (real right height
minus real left height) has absolute value at most 1. -/
def SparseTree.balancedOk : SparseTree → Bool
  | .mk _ l r =>
    ((r.realHeight : Int) - (l.realHeight : Int)).natAbs ≤ 1 &&
      l.balancedOk && r.balancedOk
/-- AVL balance below an optional child. -/
def OptTree.balancedOk : OptTree → Bool
  | .none => true
  | .some t => t.balancedOk
end

/-- `k` lies strictly inside the open interval `(lo, hi)` (an absent bound is
infinite), under byte-lexicographic comparison. -/
def btwnB (lo hi : Option Bytes) (k : Bytes) : Bool :=
  (lo.elim true fun a => bytesLt a k) && (hi.elim true fun b => bytesLt k b)

mutual
/-- Binary-search-tree ordering with open bounds: every key lies in
`(lo, hi)`, keys in the left subtree are below the node's key and keys in the
right subtree above it. -/
def SparseTree.bstOk : Option Bytes → Option Bytes → SparseTree → Bool
  | lo, hi, .mk n l r =>
    btwnB lo hi n.key && l.bstOk lo (Option.some n.key) &&
      r.bstOk (Option.some n.key) hi
/-- BST ordering below an optional child. -/
def OptTree.bstOk : Option Bytes → Option Bytes → OptTree → Bool
  | _, _, .none => true
  | lo, hi, .some t => t.bstOk lo hi
end

mutual
/-- Parent consistency: the root's `parent_key` is `pk` and every hydrated
child's `parent_key` is its parent's key. -/
def SparseTree.parentOk : Option Bytes → SparseTree → Bool
  | pk, .mk n l r =>
    n.parent_key == pk && l.parentOk (Option.some n.key) &&
      r.parentOk (Option.some n.key)
/-- Parent consistency below an optional child. -/
def OptTree.parentOk : Option Bytes → OptTree → Bool
  | _, .none => true
  | pk, .some t => t.parentOk pk
end

/-- All invariants together: link consistency, AVL balance, BST ordering in
`(lo, hi)` and parent consistency with parent key `pk`. -/
def SparseTree.goodB (lo hi pk : Option Bytes) (t : SparseTree) : Bool :=
  t.hydOk && t.balancedOk && t.bstOk lo hi && t.parentOk pk

/-- Insertion into an association list ordered by `bytesLt`: place the new
pair before the first strictly larger key, replacing an equal key. -/
def insertAssoc (k v : Bytes) : List (Bytes × Bytes) → List (Bytes × Bytes)
  | [] => [(k, v)]
  | (k', v') :: rest =>
    if bytesLt k k' then (k, v) :: (k', v') :: rest
    else if k = k' then (k, v) :: rest
    else (k', v') :: insertAssoc k v rest

/-- The keys of an association list are strictly increasing under
byte-lexicographic comparison. -/
def strictSorted : List (Bytes × Bytes) → Bool
  | [] => true
  | [_] => true
  | a :: b :: rest => bytesLt a.1 b.1 && strictSorted ((b :: rest))

/-- Association-list lookup by key. -/
def lookupA (k : Bytes) : List (Bytes × Bytes) → Option Bytes
  | [] => Option.none
  | (k', v') :: rest => if k = k' then Option.some v' else lookupA k rest

/-- Erase a link's hash, keeping its key and height. -/
def Link.scrub (l : Link) : Link :=
  { l with hash := Hash.sentinel }

/-- Erase from a node everything that never influences the shape produced by
`put`: the value and the hash components of the links. -/
def Node.scrub (n : Node) : Node :=
  { n with
    value := ([] : Bytes)
    left_link := Option.map Link.scrub n.left_link
    right_link := Option.map Link.scrub n.right_link }

mutual
/-- The "shape" of a tree: every node with its value and link hashes erased.
Two trees with the same scrub have the same nodes (keys) in the same
positions. -/
def SparseTree.scrub : SparseTree → SparseTree
  | .mk n l r => .mk n.scrub l.scrub r.scrub
/-- Shape of an optional child. -/
def OptTree.scrub : OptTree → OptTree
  | .none => .none
  | .some t => .some t.scrub
end

/-! ## Order facts for byte-lexicographic comparison -/

theorem bytesLt_irrefl (a : Bytes) : bytesLt a a = false := by
  induction a with
  | nil => rfl
  | cons x xs ih => simp [bytesLt, ih]

theorem bytesLt_trans : ∀ {a b c : Bytes}, bytesLt a b = true →
    bytesLt b c = true → bytesLt a c = true
  | [], [], _, h₁, _ => by simp [bytesLt] at h₁
  | [], _ :: _, [], _, h₂ => by simp [bytesLt] at h₂
  | [], _ :: _, _ :: _, _, _ => rfl
  | _ :: _, [], _, h₁, _ => by simp [bytesLt] at h₁
  | _ :: _, _ :: _, [], _, h₂ => by simp [bytesLt] at h₂
  | a :: as', b :: bs', c :: cs', h₁, h₂ => by
    simp only [bytesLt, Bool.or_eq_true, decide_eq_true_eq, Bool.and_eq_true] at h₁ h₂ ⊢
    rcases h₁ with h₁ | ⟨rfl, h₁⟩
    · rcases h₂ with h₂ | ⟨rfl, _⟩
      · exact Or.inl (Nat.lt_trans h₁ h₂)
      · exact Or.inl h₁
    · rcases h₂ with h₂ | ⟨rfl, h₂⟩
      · exact Or.inl h₂
      · exact Or.inr ⟨rfl, bytesLt_trans h₁ h₂⟩

theorem bytesLt_total : ∀ {a b : Bytes}, bytesLt a b = false → a ≠ b →
    bytesLt b a = true
  | [], [], _, h₂ => absurd rfl h₂
  | [], _ :: _, h₁, _ => by simp [bytesLt] at h₁
  | _ :: _, [], _, _ => rfl
  | a :: as', b :: bs', h₁, h₂ => by
    simp only [bytesLt, Bool.or_eq_false_iff, decide_eq_false_iff_not,
      Bool.and_eq_false_iff, Bool.or_eq_true, decide_eq_true_eq,
      Bool.and_eq_true] at h₁ ⊢
    rcases h₁ with ⟨hab, hrest⟩
    rcases Nat.lt_or_ge b a with hba | hba
    · exact Or.inl hba
    · have hba' : a = b := Nat.le_antisymm hba (Nat.le_of_not_lt hab)
      subst hba'
      have hr : bytesLt as' bs' = false := by
        rcases hrest with h | h
        · exact absurd rfl h
        · simpa using h
      refine Or.inr ⟨rfl, bytesLt_total hr ?_⟩
      intro e; exact h₂ (by rw [e])

theorem bytesLt_ne {a b : Bytes} (h : bytesLt a b = true) : a ≠ b := by
  intro e; subst e; rw [bytesLt_irrefl] at h; exact Bool.false_ne_true h

theorem bytesLt_asymm {a b : Bytes} (h : bytesLt a b = true) :
    bytesLt b a = false := by
  by_contra hc
  have h' : bytesLt b a = true := by
    cases hba : bytesLt b a with
    | false => exact absurd hba hc
    | true => rfl
  have := bytesLt_trans h h'
  rw [bytesLt_irrefl] at this
  exact Bool.false_ne_true this

/-! ## Basic facts about the operations -/

theorem as_link_set_parent (n : Node) (pk : Option Bytes) :
    (n.set_parent pk).as_link = n.as_link := by
  simp [Node.set_parent, Node.as_link, Node.hash, Node.height,
    Node.child_height, Node.child_link]

theorem linkOf_setParentO (c : OptTree) (pk : Option Bytes) :
    (c.setParentO pk).linkOf = c.linkOf := by
  cases c with
  | none => rfl
  | some t =>
    cases t with
    | mk n l r =>
      simp [OptTree.setParentO, OptTree.linkOf, SparseTree.set_parent,
        SparseTree.nodeOf, as_link_set_parent]

theorem realHeight_setParentO (c : OptTree) (pk : Option Bytes) :
    (c.setParentO pk).realHeight = c.realHeight := by
  cases c with
  | none => rfl
  | some t =>
    cases t with
    | mk n l r =>
      simp [OptTree.setParentO, SparseTree.set_parent, OptTree.realHeight,
        SparseTree.realHeight]

theorem entries_setParentO (c : OptTree) (pk : Option Bytes) :
    (c.setParentO pk).entries = c.entries := by
  cases c with
  | none => rfl
  | some t =>
    cases t with
    | mk n l r =>
      simp [OptTree.setParentO, SparseTree.set_parent, OptTree.entries,
        SparseTree.entries, Node.set_parent]

theorem hydOk_setParentO (c : OptTree) (pk : Option Bytes) :
    (c.setParentO pk).hydOk = c.hydOk := by
  cases c with
  | none => rfl
  | some t =>
    cases t with
    | mk n l r =>
      simp [OptTree.setParentO, SparseTree.set_parent, OptTree.hydOk,
        SparseTree.hydOk, Node.set_parent]

theorem balancedOk_setParentO (c : OptTree) (pk : Option Bytes) :
    (c.setParentO pk).balancedOk = c.balancedOk := by
  cases c with
  | none => rfl
  | some t =>
    cases t with
    | mk n l r =>
      simp [OptTree.setParentO, SparseTree.set_parent, OptTree.balancedOk,
        SparseTree.balancedOk, realHeight_setParentO, OptTree.realHeight,
        SparseTree.realHeight]

theorem bstOk_setParentO (c : OptTree) (lo hi : Option Bytes) (pk : Option Bytes) :
    (c.setParentO pk).bstOk lo hi = c.bstOk lo hi := by
  cases c with
  | none => rfl
  | some t =>
    cases t with
    | mk n l r =>
      simp [OptTree.setParentO, SparseTree.set_parent, OptTree.bstOk,
        SparseTree.bstOk, Node.set_parent]

theorem parentOk_setParentO (c : OptTree) (pk pk₀ : Option Bytes)
    (h : c.parentOk pk₀ = true) : (c.setParentO pk).parentOk pk = true := by
  cases c with
  | none => rfl
  | some t =>
    cases t with
    | mk n l r =>
      simp only [OptTree.setParentO, SparseTree.set_parent, OptTree.parentOk,
        SparseTree.parentOk, Node.set_parent, Bool.and_eq_true, beq_iff_eq] at h ⊢
      exact ⟨⟨trivial, h.1.2⟩, h.2⟩

/-! ## Stored heights agree with real heights on link-consistent trees -/

mutual
theorem hydOk_height : ∀ t : SparseTree, t.hydOk = true →
    t.nodeOf.height = t.realHeight
  | .mk n l r, h => by
    simp only [SparseTree.hydOk, Bool.and_eq_true, beq_iff_eq] at h
    obtain ⟨⟨⟨hl, hr⟩, hlok⟩, hrok⟩ := h
    simp only [SparseTree.nodeOf, Node.height, Node.child_height,
      Node.child_link, cond_true, cond_false, hl, hr, SparseTree.realHeight]
    rw [hydOk_heightO l hlok, hydOk_heightO r hrok]
theorem hydOk_heightO : ∀ c : OptTree, c.hydOk = true →
    (c.linkOf).elim 0 Link.height = c.realHeight
  | .none, _ => rfl
  | .some t, h => by
    simp only [OptTree.hydOk] at h
    simp only [OptTree.linkOf, Option.elim, OptTree.realHeight, Node.as_link]
    exact hydOk_height t h
end

theorem hydOk_child_height (n : Node) (l r : OptTree)
    (h : (SparseTree.mk n l r).hydOk = true) :
    n.child_height true = l.realHeight ∧ n.child_height false = r.realHeight := by
  simp only [SparseTree.hydOk, Bool.and_eq_true, beq_iff_eq] at h
  obtain ⟨⟨⟨hl, hr⟩, hlok⟩, hrok⟩ := h
  constructor
  · simp only [Node.child_height, Node.child_link, cond_true, hl]
    exact hydOk_heightO l hlok
  · simp only [Node.child_height, Node.child_link, cond_false, hr]
    exact hydOk_heightO r hrok

theorem hydOk_bf (t : SparseTree) (h : t.hydOk = true) :
    t.nodeOf.balance_factor = t.realBF := by
  cases t with
  | mk n l r =>
    obtain ⟨h₁, h₂⟩ := hydOk_child_height n l r h
    simp only [SparseTree.nodeOf, Node.balance_factor, h₁, h₂, SparseTree.realBF]

/-! ## Explicit forms of the two rotations -/

theorem as_link_parent_irrel (k v : Bytes) (p q : Option Bytes)
    (a b : Option Link) :
    Node.as_link ⟨k, v, p, a, b⟩ = Node.as_link ⟨k, v, q, a, b⟩ := rfl

theorem rotate_true_eq (g : GetNodeFn) (n ln : Node) (ll lr r : OptTree)
    (h : ln.right_link = lr.linkOf) :
    SparseTree.rotate g (.mk n (.some (.mk ln ll lr)) r) true =
      Option.some (SparseTree.mk
        { ln with
          parent_key := n.parent_key
          left_link := ll.linkOf
          right_link := Option.some (Node.as_link { n with
            parent_key := Option.some ln.key
            left_link := lr.linkOf
            right_link := r.linkOf }) }
        ll
        (.some (SparseTree.mk
          { n with
            parent_key := Option.some ln.key
            left_link := lr.linkOf
            right_link := r.linkOf }
          (lr.setParentO (Option.some n.key))
          r))) := by
  cases n with
  | mk nk nv np nll nrl =>
    cases ln with
    | mk lk lv lp lll lrl =>
      cases lr with
      | none =>
        simp only [OptTree.linkOf] at h
        subst h
        cases nll <;> rfl
      | some c =>
        simp only [OptTree.linkOf] at h
        subst h
        cases nll <;> rfl

theorem rotate_false_eq (g : GetNodeFn) (n rn : Node) (l rl rr : OptTree)
    (h : rn.left_link = rl.linkOf) :
    SparseTree.rotate g (.mk n l (.some (.mk rn rl rr))) false =
      Option.some (SparseTree.mk
        { rn with
          parent_key := n.parent_key
          left_link := Option.some (Node.as_link { n with
            parent_key := Option.some rn.key
            left_link := l.linkOf
            right_link := rl.linkOf })
          right_link := rr.linkOf }
        (.some (SparseTree.mk
          { n with
            parent_key := Option.some rn.key
            left_link := l.linkOf
            right_link := rl.linkOf }
          l
          (rl.setParentO (Option.some n.key))))
        rr) := by
  cases n with
  | mk nk nv np nll nrl =>
    cases rn with
    | mk rk rv rp rll rrl =>
      cases rl with
      | none =>
        simp only [OptTree.linkOf] at h
        subst h
        cases nrl <;> rfl
      | some c =>
        simp only [OptTree.linkOf] at h
        subst h
        cases nrl <;> rfl

/-! ## Destructuring the invariants at a node -/

theorem hydOk_parts (n : Node) (l r : OptTree) :
    (SparseTree.mk n l r).hydOk = true ↔
      n.left_link = l.linkOf ∧ n.right_link = r.linkOf ∧
        l.hydOk = true ∧ r.hydOk = true := by
  simp [SparseTree.hydOk, and_assoc]

theorem balancedOk_parts (n : Node) (l r : OptTree) :
    (SparseTree.mk n l r).balancedOk = true ↔
      ((r.realHeight : Int) - (l.realHeight : Int)).natAbs ≤ 1 ∧
        l.balancedOk = true ∧ r.balancedOk = true := by
  simp [SparseTree.balancedOk, and_assoc]

theorem bstOk_parts (lo hi : Option Bytes) (n : Node) (l r : OptTree) :
    (SparseTree.mk n l r).bstOk lo hi = true ↔
      btwnB lo hi n.key = true ∧ l.bstOk lo (Option.some n.key) = true ∧
        r.bstOk (Option.some n.key) hi = true := by
  simp [SparseTree.bstOk, and_assoc]

theorem parentOk_parts (pk : Option Bytes) (n : Node) (l r : OptTree) :
    (SparseTree.mk n l r).parentOk pk = true ↔
      n.parent_key = pk ∧ l.parentOk (Option.some n.key) = true ∧
        r.parentOk (Option.some n.key) = true := by
  simp [SparseTree.parentOk, and_assoc]

theorem realHeight_mk (n : Node) (l r : OptTree) :
    (SparseTree.mk n l r).realHeight = 1 + max l.realHeight r.realHeight := rfl

theorem realHeight_some (t : SparseTree) :
    (OptTree.some t).realHeight = t.realHeight := rfl

theorem entries_mk (n : Node) (l r : OptTree) :
    (SparseTree.mk n l r).entries =
      l.entries ++ (n.key, n.value) :: r.entries := rfl

theorem goodB_parts (lo hi pk : Option Bytes) (t : SparseTree) :
    t.goodB lo hi pk = true ↔
      t.hydOk = true ∧ t.balancedOk = true ∧ t.bstOk lo hi = true ∧
        t.parentOk pk = true := by
  simp [SparseTree.goodB, and_assoc]

/-! ## Facts about open intervals of keys -/

theorem btwnB_lo {lo hi : Option Bytes} {k a : Bytes}
    (h : btwnB lo hi k = true) (e : lo = Option.some a) : bytesLt a k = true := by
  subst e
  simp only [btwnB, Option.elim, Bool.and_eq_true] at h
  exact h.1

theorem btwnB_hi {lo hi : Option Bytes} {k b : Bytes}
    (h : btwnB lo hi k = true) (e : hi = Option.some b) : bytesLt k b = true := by
  subst e
  simp only [btwnB, Option.elim, Bool.and_eq_true] at h
  exact h.2

theorem btwnB_intro (lo hi : Option Bytes) (k : Bytes)
    (h₁ : ∀ a, lo = Option.some a → bytesLt a k = true)
    (h₂ : ∀ b, hi = Option.some b → bytesLt k b = true) :
    btwnB lo hi k = true := by
  cases lo with
  | none =>
    cases hi with
    | none => rfl
    | some b => simpa [btwnB] using h₂ b rfl
  | some a =>
    cases hi with
    | none => simpa [btwnB] using h₁ a rfl
    | some b => simp [btwnB, h₁ a rfl, h₂ b rfl]

theorem btwnB_none_none (k : Bytes) : btwnB Option.none Option.none k = true := rfl

/-- Shrink the upper bound of an interval to a key known to be larger. -/
theorem btwnB_shrink_hi {lo hi : Option Bytes} {k m : Bytes}
    (h : btwnB lo hi k = true) (hm : bytesLt k m = true) :
    btwnB lo (Option.some m) k = true := by
  refine btwnB_intro _ _ _ (fun a ha => btwnB_lo h ha) (fun b hb => ?_)
  cases hb; exact hm

/-- Shrink the lower bound of an interval to a key known to be smaller. -/
theorem btwnB_shrink_lo {lo hi : Option Bytes} {k m : Bytes}
    (h : btwnB lo hi k = true) (hm : bytesLt m k = true) :
    btwnB (Option.some m) hi k = true := by
  refine btwnB_intro _ _ _ (fun a ha => ?_) (fun b hb => btwnB_hi h hb)
  cases ha; exact hm

/-- A key inside `(lo, m)` is inside `(lo, hi)` when `m` itself is. -/
theorem btwnB_widen_hi {lo hi : Option Bytes} {k m : Bytes}
    (h : btwnB lo (Option.some m) k = true) (hm : btwnB lo hi m = true) :
    btwnB lo hi k = true := by
  refine btwnB_intro _ _ _ (fun a ha => btwnB_lo h ha) (fun b hb => ?_)
  exact bytesLt_trans (btwnB_hi h rfl) (btwnB_hi hm hb)

/-- A key inside `(m, hi)` is inside `(lo, hi)` when `m` itself is. -/
theorem btwnB_widen_lo {lo hi : Option Bytes} {k m : Bytes}
    (h : btwnB (Option.some m) hi k = true) (hm : btwnB lo hi m = true) :
    btwnB lo hi k = true := by
  refine btwnB_intro _ _ _ (fun a ha => ?_) (fun b hb => btwnB_hi h hb)
  exact bytesLt_trans (btwnB_lo hm ha) (btwnB_lo h rfl)

/-! ## Reduction lemmas for hydration and rebalancing -/

theorem mgc_some (g : GetNodeFn) (t : SparseTree) (left : Bool) (c : SparseTree)
    (lk : Link) (hlink : t.nodeOf.child_link left = Option.some lk)
    (hfield : t.childOf left = .some c) :
    t.maybe_get_child g left = (.some c, t) := by
  simp only [SparseTree.maybe_get_child, hlink, hfield]

theorem mgc_none (g : GetNodeFn) (t : SparseTree) (left : Bool)
    (hlink : t.nodeOf.child_link left = Option.none) :
    t.maybe_get_child g left = (.none, t) := by
  simp only [SparseTree.maybe_get_child, hlink]

theorem rebalance_reduce_left_single (g : GetNodeFn) (t t₁ child : SparseTree)
    (hbf : t.nodeOf.balance_factor = -2)
    (hmgc : t.maybe_get_child g true = (.some child, t₁))
    (hcbf : ¬ child.nodeOf.balance_factor > 0) :
    t.maybe_rebalance g = t₁.rotate g true := by
  simp only [SparseTree.maybe_rebalance, hbf]
  norm_num
  rw [hmgc]
  simp only [if_neg hcbf]

theorem rebalance_reduce_left_double (g : GetNodeFn) (t t₁ child child₂ : SparseTree)
    (hbf : t.nodeOf.balance_factor = -2)
    (hmgc : t.maybe_get_child g true = (.some child, t₁))
    (hcbf : child.nodeOf.balance_factor > 0)
    (hrot : child.rotate g false = Option.some child₂) :
    t.maybe_rebalance g =
      ((t₁.setChildField true (.some child₂)).update_link true).rotate g true := by
  simp only [SparseTree.maybe_rebalance, hbf]
  norm_num
  rw [hmgc]
  simp only [if_pos hcbf, hrot]

theorem rebalance_reduce_right_single (g : GetNodeFn) (t t₁ child : SparseTree)
    (hbf : t.nodeOf.balance_factor = 2)
    (hmgc : t.maybe_get_child g false = (.some child, t₁))
    (hcbf : ¬ child.nodeOf.balance_factor < 0) :
    t.maybe_rebalance g = t₁.rotate g false := by
  simp only [SparseTree.maybe_rebalance, hbf]
  norm_num
  rw [hmgc]
  simp only [if_neg hcbf]

theorem rebalance_reduce_right_double (g : GetNodeFn) (t t₁ child child₂ : SparseTree)
    (hbf : t.nodeOf.balance_factor = 2)
    (hmgc : t.maybe_get_child g false = (.some child, t₁))
    (hcbf : child.nodeOf.balance_factor < 0)
    (hrot : child.rotate g true = Option.some child₂) :
    t.maybe_rebalance g =
      ((t₁.setChildField false (.some child₂)).update_link false).rotate g false := by
  simp only [SparseTree.maybe_rebalance, hbf]
  norm_num
  rw [hmgc]
  simp only [if_pos hcbf, hrot]

theorem rebalance_noop (g : GetNodeFn) (t : SparseTree)
    (hbf : t.nodeOf.balance_factor.natAbs ≤ 1) :
    t.maybe_rebalance g = Option.some t := by
  simp only [SparseTree.maybe_rebalance, if_pos hbf]

/-! ## The rebalancing step restores balance and shrinks the height by one -/

theorem rebalance_left_spec (g : GetNodeFn) (n ln : Node) (ll lr r : OptTree)
    (lo hi pk : Option Bytes)
    (hhyd : (SparseTree.mk n (.some (.mk ln ll lr)) r).hydOk = true)
    (hbalc : (SparseTree.mk ln ll lr).balancedOk = true)
    (hbalr : r.balancedOk = true)
    (hbst : (SparseTree.mk n (.some (.mk ln ll lr)) r).bstOk lo hi = true)
    (hpar : (SparseTree.mk n (.some (.mk ln ll lr)) r).parentOk pk = true)
    (hh : (SparseTree.mk ln ll lr).realHeight = r.realHeight + 2)
    (hcbf : (SparseTree.mk ln ll lr).realBF ≠ 0) :
    ∃ t', (SparseTree.mk n (.some (.mk ln ll lr)) r).maybe_rebalance g = Option.some t' ∧
      t'.hydOk = true ∧ t'.balancedOk = true ∧ t'.bstOk lo hi = true ∧
      t'.parentOk pk = true ∧
      t'.realHeight + 1 = (SparseTree.mk n (.some (.mk ln ll lr)) r).realHeight ∧
      t'.entries = (SparseTree.mk n (.some (.mk ln ll lr)) r).entries := by
  obtain ⟨hl, hr, hchyd, hrhyd⟩ :=
    (hydOk_parts n (.some (.mk ln ll lr)) r).mp hhyd
  simp only [OptTree.linkOf, SparseTree.nodeOf] at hl
  simp only [OptTree.hydOk] at hchyd hrhyd
  obtain ⟨lnl, lnr, llhyd, lrhyd⟩ := (hydOk_parts ln ll lr).mp hchyd
  obtain ⟨hbfc_le, hbll, hblr⟩ := (balancedOk_parts ln ll lr).mp hbalc
  obtain ⟨hbtw, hbstc, hbstr⟩ := (bstOk_parts lo hi n _ r).mp hbst
  simp only [OptTree.bstOk] at hbstc
  obtain ⟨hbtwc, hbstll, hbstlr⟩ :=
    (bstOk_parts lo (Option.some n.key) ln ll lr).mp hbstc
  obtain ⟨hpk, hparc, hparr⟩ := (parentOk_parts pk n _ r).mp hpar
  simp only [OptTree.parentOk] at hparc
  obtain ⟨hlnpk, hparll, hparlr⟩ :=
    (parentOk_parts (Option.some n.key) ln ll lr).mp hparc
  have hsbf : n.balance_factor = -2 := by
    have h1 := hydOk_bf (SparseTree.mk n (.some (.mk ln ll lr)) r) hhyd
    simp only [SparseTree.realBF, SparseTree.nodeOf, realHeight_some] at h1
    rw [hh] at h1
    omega
  have hbfc_val : ln.balance_factor = (lr.realHeight : Int) - ll.realHeight := by
    have h1 := hydOk_bf (SparseTree.mk ln ll lr) hchyd
    simpa [SparseTree.realBF, SparseTree.nodeOf] using h1
  have hrhc : (SparseTree.mk ln ll lr).realHeight
      = 1 + max ll.realHeight lr.realHeight := rfl
  have hbfc_cases : lr.realHeight = ll.realHeight + 1 ∨
      ll.realHeight = lr.realHeight + 1 := by
    have h1 : (SparseTree.mk ln ll lr).realBF
        = (lr.realHeight : Int) - ll.realHeight := rfl
    rw [h1] at hcbf
    omega
  have hmgc : (SparseTree.mk n (.some (.mk ln ll lr)) r).maybe_get_child g true
      = (.some (.mk ln ll lr), SparseTree.mk n (.some (.mk ln ll lr)) r) := by
    refine mgc_some g _ true _ ln.as_link ?_ rfl
    simp only [SparseTree.nodeOf, Node.child_link, cond_true, hl]
  rcases hbfc_cases with hdouble | hsingle
  · -- double rotation: the left child is right-heavy
    cases lr with
    | none => simp only [OptTree.realHeight] at hdouble; omega
    | some clr =>
      cases clr with
      | mk lrn lrl lrr =>
        simp only [OptTree.hydOk] at lrhyd
        obtain ⟨lrnl, lrnr, lrlhyd, lrrhyd⟩ := (hydOk_parts lrn lrl lrr).mp lrhyd
        simp only [OptTree.balancedOk] at hblr
        obtain ⟨hlrbf, hblrl, hblrr⟩ := (balancedOk_parts lrn lrl lrr).mp hblr
        simp only [OptTree.bstOk] at hbstlr
        obtain ⟨hbtwlr, hbstlrl, hbstlrr⟩ :=
          (bstOk_parts (Option.some ln.key) (Option.some n.key) lrn lrl lrr).mp hbstlr
        simp only [OptTree.parentOk] at hparlr
        obtain ⟨hlrnpk, hparlrl, hparlrr⟩ :=
          (parentOk_parts (Option.some ln.key) lrn lrl lrr).mp hparlr
        have hmax : max lrl.realHeight lrr.realHeight = ll.realHeight := by
          simp only [realHeight_some, realHeight_mk] at hdouble
          omega
        have hr2 : r.realHeight = ll.realHeight := by
          rw [hrhc] at hh
          simp only [realHeight_some, realHeight_mk] at hh
          omega
        have hpos : ln.balance_factor > 0 := by
          rw [hbfc_val]
          simp only [realHeight_some, realHeight_mk]
          omega
        have hstep := rebalance_reduce_left_double g
          (SparseTree.mk n (.some (.mk ln ll (.some (.mk lrn lrl lrr)))) r)
          _ _ _ hsbf hmgc hpos (rotate_false_eq g ln lrn ll lrl lrr lrnl)
        rw [show ((SparseTree.mk n (.some (.mk ln ll (.some (.mk lrn lrl lrr)))) r).setChildField
              true (.some (SparseTree.mk
                { lrn with
                  parent_key := ln.parent_key
                  left_link := Option.some (Node.as_link { ln with
                    parent_key := Option.some lrn.key
                    left_link := ll.linkOf
                    right_link := lrl.linkOf })
                  right_link := lrr.linkOf }
                (.some (SparseTree.mk
                  { ln with
                    parent_key := Option.some lrn.key
                    left_link := ll.linkOf
                    right_link := lrl.linkOf }
                  ll
                  (lrl.setParentO (Option.some ln.key))))
                lrr))).update_link true
            = SparseTree.mk
                { n with left_link := Option.some (Node.as_link { lrn with
                    parent_key := ln.parent_key
                    left_link := Option.some (Node.as_link { ln with
                      parent_key := Option.some lrn.key
                      left_link := ll.linkOf
                      right_link := lrl.linkOf })
                    right_link := lrr.linkOf }) }
                (.some (SparseTree.mk
                  { lrn with
                    parent_key := ln.parent_key
                    left_link := Option.some (Node.as_link { ln with
                      parent_key := Option.some lrn.key
                      left_link := ll.linkOf
                      right_link := lrl.linkOf })
                    right_link := lrr.linkOf }
                  (.some (SparseTree.mk
                    { ln with
                      parent_key := Option.some lrn.key
                      left_link := ll.linkOf
                      right_link := lrl.linkOf }
                    ll
                    (lrl.setParentO (Option.some ln.key))))
                  lrr))
                r from rfl] at hstep
        rw [rotate_true_eq g
          { n with left_link := Option.some (Node.as_link { lrn with
              parent_key := ln.parent_key
              left_link := Option.some (Node.as_link { ln with
                parent_key := Option.some lrn.key
                left_link := ll.linkOf
                right_link := lrl.linkOf })
              right_link := lrr.linkOf }) }
          { lrn with
            parent_key := ln.parent_key
            left_link := Option.some (Node.as_link { ln with
              parent_key := Option.some lrn.key
              left_link := ll.linkOf
              right_link := lrl.linkOf })
            right_link := lrr.linkOf }
          (.some (SparseTree.mk
            { ln with
              parent_key := Option.some lrn.key
              left_link := ll.linkOf
              right_link := lrl.linkOf }
            ll
            (lrl.setParentO (Option.some ln.key))))
          lrr r rfl] at hstep
        refine ⟨_, hstep, ?_, ?_, ?_, ?_, ?_, ?_⟩
        · -- hydOk
          rw [hydOk_parts]
          refine ⟨rfl, rfl, ?_, ?_⟩
          · simp only [OptTree.hydOk]
            rw [hydOk_parts]
            exact ⟨rfl, by simp [linkOf_setParentO],
              by simpa [OptTree.hydOk] using llhyd,
              by simpa [hydOk_setParentO] using lrlhyd⟩
          · simp only [OptTree.hydOk]
            rw [hydOk_parts]
            exact ⟨by simp [linkOf_setParentO], rfl,
              by simpa [hydOk_setParentO] using lrrhyd, hrhyd⟩
        · -- balancedOk
          rw [balancedOk_parts]
          refine ⟨?_, ?_, ?_⟩
          · simp only [realHeight_some, realHeight_mk, realHeight_setParentO, hr2]
            omega
          · simp only [OptTree.balancedOk]
            rw [balancedOk_parts]
            refine ⟨?_, by simpa [OptTree.balancedOk] using hbll,
              by simpa [balancedOk_setParentO] using hblrl⟩
            simp only [realHeight_setParentO]
            omega
          · simp only [OptTree.balancedOk]
            rw [balancedOk_parts]
            refine ⟨?_, by simpa [balancedOk_setParentO] using hblrr, hbalr⟩
            simp only [realHeight_setParentO, hr2]
            omega
        · -- bstOk
          rw [bstOk_parts]
          have hlnkey : btwnB lo hi ln.key = true := btwnB_widen_hi hbtwc hbtw
          have hlrnkey : btwnB lo hi lrn.key = true :=
            btwnB_widen_hi (btwnB_widen_lo hbtwlr hbtwc) hbtw
          refine ⟨by simpa using hlrnkey, ?_, ?_⟩
          · simp only [OptTree.bstOk]
            rw [bstOk_parts]
            refine ⟨?_, by simpa [OptTree.bstOk] using hbstll,
              by simpa [bstOk_setParentO] using hbstlrl⟩
            simp only []
            exact btwnB_shrink_hi hbtwc (btwnB_lo hbtwlr rfl)
          · simp only [OptTree.bstOk]
            rw [bstOk_parts]
            refine ⟨?_, by simpa [bstOk_setParentO] using hbstlrr, by simpa using hbstr⟩
            simp only []
            exact btwnB_shrink_lo hbtw (btwnB_hi hbtwlr rfl)
        · -- parentOk
          rw [parentOk_parts]
          refine ⟨by simpa using hpk, ?_, ?_⟩
          · simp only [OptTree.parentOk]
            rw [parentOk_parts]
            exact ⟨by simp, by simpa [OptTree.parentOk] using hparll,
              parentOk_setParentO lrl _ _ hparlrl⟩
          · simp only [OptTree.parentOk]
            rw [parentOk_parts]
            exact ⟨by simp, parentOk_setParentO lrr _ _ hparlrr,
              by simpa using hparr⟩
        · -- height drop
          simp only [realHeight_mk, realHeight_some, realHeight_setParentO, hr2]
          omega
        · -- entries preserved
          simp only [entries_mk, OptTree.entries, entries_setParentO]
          simp [List.append_assoc]
  · -- single rotation: the left child is left-heavy
    have hnotpos : ¬ ln.balance_factor > 0 := by
      rw [hbfc_val]; omega
    have hstep := rebalance_reduce_left_single g
      (SparseTree.mk n (.some (.mk ln ll lr)) r) _ _ hsbf hmgc hnotpos
    rw [rotate_true_eq g n ln ll lr r lnr] at hstep
    refine ⟨_, hstep, ?_, ?_, ?_, ?_, ?_, ?_⟩
    · -- hydOk
      rw [hydOk_parts]
      refine ⟨rfl, rfl, ?_, ?_⟩
      · simpa [OptTree.hydOk] using llhyd
      · simp only [OptTree.hydOk]
        rw [hydOk_parts]
        exact ⟨by simp [linkOf_setParentO], rfl,
          by simpa [hydOk_setParentO] using lrhyd, hrhyd⟩
    · -- balancedOk
      rw [balancedOk_parts]
      have h1 : ll.realHeight = lr.realHeight + 1 := hsingle
      have h2 : r.realHeight = lr.realHeight := by
        rw [hrhc] at hh; omega
      refine ⟨?_, by simpa [OptTree.balancedOk] using hbll, ?_⟩
      · simp only [realHeight_some, realHeight_mk, realHeight_setParentO, h2, h1]
        omega
      · simp only [OptTree.balancedOk]
        rw [balancedOk_parts]
        refine ⟨?_, by simpa [balancedOk_setParentO] using hblr, hbalr⟩
        simp only [realHeight_setParentO, h2]
        omega
    · -- bstOk
      rw [bstOk_parts]
      refine ⟨btwnB_widen_hi hbtwc hbtw, by simpa [OptTree.bstOk] using hbstll, ?_⟩
      simp only [OptTree.bstOk]
      rw [bstOk_parts]
      refine ⟨?_, ?_, ?_⟩
      · exact btwnB_shrink_lo hbtw (btwnB_hi hbtwc rfl)
      · simpa [bstOk_setParentO] using hbstlr
      · exact hbstr
    · -- parentOk
      rw [parentOk_parts]
      refine ⟨hpk, by simpa [OptTree.parentOk] using hparll, ?_⟩
      simp only [OptTree.parentOk]
      rw [parentOk_parts]
      refine ⟨rfl, ?_, ?_⟩
      · exact parentOk_setParentO lr _ _ hparlr
      · exact hparr
    · -- height drop
      have h1 : ll.realHeight = lr.realHeight + 1 := hsingle
      have h2 : r.realHeight = lr.realHeight := by rw [hrhc] at hh; omega
      simp only [realHeight_mk, realHeight_some, realHeight_setParentO, h1, h2]
      omega
    · -- entries preserved
      simp only [entries_mk, OptTree.entries, entries_setParentO]
      simp [List.append_assoc]

theorem rebalance_right_spec (g : GetNodeFn) (n rn : Node) (l rl rr : OptTree)
    (lo hi pk : Option Bytes)
    (hhyd : (SparseTree.mk n l (.some (.mk rn rl rr))).hydOk = true)
    (hbalc : (SparseTree.mk rn rl rr).balancedOk = true)
    (hball : l.balancedOk = true)
    (hbst : (SparseTree.mk n l (.some (.mk rn rl rr))).bstOk lo hi = true)
    (hpar : (SparseTree.mk n l (.some (.mk rn rl rr))).parentOk pk = true)
    (hh : (SparseTree.mk rn rl rr).realHeight = l.realHeight + 2)
    (hcbf : (SparseTree.mk rn rl rr).realBF ≠ 0) :
    ∃ t', (SparseTree.mk n l (.some (.mk rn rl rr))).maybe_rebalance g = Option.some t' ∧
      t'.hydOk = true ∧ t'.balancedOk = true ∧ t'.bstOk lo hi = true ∧
      t'.parentOk pk = true ∧
      t'.realHeight + 1 = (SparseTree.mk n l (.some (.mk rn rl rr))).realHeight ∧
      t'.entries = (SparseTree.mk n l (.some (.mk rn rl rr))).entries := by
  obtain ⟨hl, hr, hlhyd, hchyd⟩ :=
    (hydOk_parts n l (.some (.mk rn rl rr))).mp hhyd
  simp only [OptTree.linkOf, SparseTree.nodeOf] at hr
  simp only [OptTree.hydOk] at hchyd hlhyd
  obtain ⟨rnl, rnr, rlhyd, rrhyd⟩ := (hydOk_parts rn rl rr).mp hchyd
  obtain ⟨hbfc_le, hbrl, hbrr⟩ := (balancedOk_parts rn rl rr).mp hbalc
  obtain ⟨hbtw, hbstl, hbstc⟩ := (bstOk_parts lo hi n l _).mp hbst
  simp only [OptTree.bstOk] at hbstc
  obtain ⟨hbtwc, hbstrl, hbstrr⟩ :=
    (bstOk_parts (Option.some n.key) hi rn rl rr).mp hbstc
  obtain ⟨hpk, hparl, hparc⟩ := (parentOk_parts pk n l _).mp hpar
  simp only [OptTree.parentOk] at hparc
  obtain ⟨hrnpk, hparrl, hparrr⟩ :=
    (parentOk_parts (Option.some n.key) rn rl rr).mp hparc
  have hsbf : n.balance_factor = 2 := by
    have h1 := hydOk_bf (SparseTree.mk n l (.some (.mk rn rl rr))) hhyd
    simp only [SparseTree.realBF, SparseTree.nodeOf, realHeight_some] at h1
    rw [hh] at h1
    omega
  have hbfc_val : rn.balance_factor = (rr.realHeight : Int) - rl.realHeight := by
    have h1 := hydOk_bf (SparseTree.mk rn rl rr) hchyd
    simpa [SparseTree.realBF, SparseTree.nodeOf] using h1
  have hrhc : (SparseTree.mk rn rl rr).realHeight
      = 1 + max rl.realHeight rr.realHeight := rfl
  have hbfc_cases : rl.realHeight = rr.realHeight + 1 ∨
      rr.realHeight = rl.realHeight + 1 := by
    have h1 : (SparseTree.mk rn rl rr).realBF
        = (rr.realHeight : Int) - rl.realHeight := rfl
    rw [h1] at hcbf
    omega
  have hmgc : (SparseTree.mk n l (.some (.mk rn rl rr))).maybe_get_child g false
      = (.some (.mk rn rl rr), SparseTree.mk n l (.some (.mk rn rl rr))) := by
    refine mgc_some g _ false _ rn.as_link ?_ rfl
    simp only [SparseTree.nodeOf, Node.child_link, cond_false, hr]
  rcases hbfc_cases with hdouble | hsingle
  · -- double rotation: the right child is left-heavy
    cases rl with
    | none => simp only [OptTree.realHeight] at hdouble; omega
    | some crl =>
      cases crl with
      | mk rln rll rlr =>
        simp only [OptTree.hydOk] at rlhyd
        obtain ⟨rlnl, rlnr, rllhyd, rlrhyd⟩ := (hydOk_parts rln rll rlr).mp rlhyd
        simp only [OptTree.balancedOk] at hbrl
        obtain ⟨hrlbf, hbrll, hbrlr⟩ := (balancedOk_parts rln rll rlr).mp hbrl
        simp only [OptTree.bstOk] at hbstrl
        obtain ⟨hbtwrl, hbstrll, hbstrlr⟩ :=
          (bstOk_parts (Option.some n.key) (Option.some rn.key) rln rll rlr).mp hbstrl
        simp only [OptTree.parentOk] at hparrl
        obtain ⟨hrlnpk, hparrll, hparrlr⟩ :=
          (parentOk_parts (Option.some rn.key) rln rll rlr).mp hparrl
        have hmax : max rll.realHeight rlr.realHeight = rr.realHeight := by
          simp only [realHeight_some, realHeight_mk] at hdouble
          omega
        have hl2 : l.realHeight = rr.realHeight := by
          rw [hrhc] at hh
          simp only [realHeight_some, realHeight_mk] at hh
          omega
        have hneg : rn.balance_factor < 0 := by
          rw [hbfc_val]
          simp only [realHeight_some, realHeight_mk]
          omega
        have hstep := rebalance_reduce_right_double g
          (SparseTree.mk n l (.some (.mk rn (.some (.mk rln rll rlr)) rr)))
          _ _ _ hsbf hmgc hneg (rotate_true_eq g rn rln rll rlr rr rlnr)
        rw [show ((SparseTree.mk n l (.some (.mk rn (.some (.mk rln rll rlr)) rr))).setChildField
              false (.some (SparseTree.mk
                { rln with
                  parent_key := rn.parent_key
                  left_link := rll.linkOf
                  right_link := Option.some (Node.as_link { rn with
                    parent_key := Option.some rln.key
                    left_link := rlr.linkOf
                    right_link := rr.linkOf }) }
                rll
                (.some (SparseTree.mk
                  { rn with
                    parent_key := Option.some rln.key
                    left_link := rlr.linkOf
                    right_link := rr.linkOf }
                  (rlr.setParentO (Option.some rn.key))
                  rr))))).update_link false
            = SparseTree.mk
                { n with right_link := Option.some (Node.as_link { rln with
                    parent_key := rn.parent_key
                    left_link := rll.linkOf
                    right_link := Option.some (Node.as_link { rn with
                      parent_key := Option.some rln.key
                      left_link := rlr.linkOf
                      right_link := rr.linkOf }) }) }
                l
                (.some (SparseTree.mk
                  { rln with
                    parent_key := rn.parent_key
                    left_link := rll.linkOf
                    right_link := Option.some (Node.as_link { rn with
                      parent_key := Option.some rln.key
                      left_link := rlr.linkOf
                      right_link := rr.linkOf }) }
                  rll
                  (.some (SparseTree.mk
                    { rn with
                      parent_key := Option.some rln.key
                      left_link := rlr.linkOf
                      right_link := rr.linkOf }
                    (rlr.setParentO (Option.some rn.key))
                    rr))))
              from rfl] at hstep
        rw [rotate_false_eq g
          { n with right_link := Option.some (Node.as_link { rln with
              parent_key := rn.parent_key
              left_link := rll.linkOf
              right_link := Option.some (Node.as_link { rn with
                parent_key := Option.some rln.key
                left_link := rlr.linkOf
                right_link := rr.linkOf }) }) }
          { rln with
            parent_key := rn.parent_key
            left_link := rll.linkOf
            right_link := Option.some (Node.as_link { rn with
              parent_key := Option.some rln.key
              left_link := rlr.linkOf
              right_link := rr.linkOf }) }
          l rll
          (.some (SparseTree.mk
            { rn with
              parent_key := Option.some rln.key
              left_link := rlr.linkOf
              right_link := rr.linkOf }
            (rlr.setParentO (Option.some rn.key))
            rr))
          rfl] at hstep
        refine ⟨_, hstep, ?_, ?_, ?_, ?_, ?_, ?_⟩
        · -- hydOk
          rw [hydOk_parts]
          refine ⟨rfl, rfl, ?_, ?_⟩
          · simp only [OptTree.hydOk]
            rw [hydOk_parts]
            exact ⟨rfl, by simp [linkOf_setParentO],
              by simpa [OptTree.hydOk] using hlhyd,
              by simpa [hydOk_setParentO] using rllhyd⟩
          · simp only [OptTree.hydOk]
            rw [hydOk_parts]
            exact ⟨by simp [linkOf_setParentO], rfl,
              by simpa [hydOk_setParentO] using rlrhyd, rrhyd⟩
        · -- balancedOk
          rw [balancedOk_parts]
          refine ⟨?_, ?_, ?_⟩
          · simp only [realHeight_some, realHeight_mk, realHeight_setParentO, hl2]
            omega
          · simp only [OptTree.balancedOk]
            rw [balancedOk_parts]
            refine ⟨?_, by simpa [OptTree.balancedOk] using hball,
              by simpa [balancedOk_setParentO] using hbrll⟩
            simp only [realHeight_setParentO, hl2]
            omega
          · simp only [OptTree.balancedOk]
            rw [balancedOk_parts]
            refine ⟨?_, by simpa [balancedOk_setParentO] using hbrlr, hbrr⟩
            simp only [realHeight_setParentO]
            omega
        · -- bstOk
          rw [bstOk_parts]
          have hrnkey : btwnB lo hi rn.key = true := btwnB_widen_lo hbtwc hbtw
          have hrlnkey : btwnB lo hi rln.key = true :=
            btwnB_widen_lo (btwnB_widen_hi hbtwrl hbtwc) hbtw
          refine ⟨by simpa using hrlnkey, ?_, ?_⟩
          · simp only [OptTree.bstOk]
            rw [bstOk_parts]
            refine ⟨?_, by simpa [OptTree.bstOk] using hbstl,
              by simpa [bstOk_setParentO] using hbstrll⟩
            simp only []
            exact btwnB_shrink_hi hbtw (btwnB_lo hbtwrl rfl)
          · simp only [OptTree.bstOk]
            rw [bstOk_parts]
            refine ⟨?_, by simpa [bstOk_setParentO] using hbstrlr, by simpa using hbstrr⟩
            simp only []
            exact btwnB_shrink_lo hbtwc (btwnB_hi hbtwrl rfl)
        · -- parentOk
          rw [parentOk_parts]
          refine ⟨by simpa using hpk, ?_, ?_⟩
          · simp only [OptTree.parentOk]
            rw [parentOk_parts]
            exact ⟨by simp, by simpa [OptTree.parentOk] using hparl,
              parentOk_setParentO rll _ _ hparrll⟩
          · simp only [OptTree.parentOk]
            rw [parentOk_parts]
            exact ⟨by simp, parentOk_setParentO rlr _ _ hparrlr,
              by simpa using hparrr⟩
        · -- height drop
          simp only [realHeight_mk, realHeight_some, realHeight_setParentO, hl2]
          omega
        · -- entries preserved
          simp only [entries_mk, OptTree.entries, entries_setParentO]
          simp [List.append_assoc]
  · -- single rotation: the right child is right-heavy
    have hnotneg : ¬ rn.balance_factor < 0 := by
      rw [hbfc_val]; omega
    have hstep := rebalance_reduce_right_single g
      (SparseTree.mk n l (.some (.mk rn rl rr))) _ _ hsbf hmgc hnotneg
    rw [rotate_false_eq g n rn l rl rr rnl] at hstep
    refine ⟨_, hstep, ?_, ?_, ?_, ?_, ?_, ?_⟩
    · -- hydOk
      rw [hydOk_parts]
      refine ⟨?_, rfl, ?_, ?_⟩
      · rfl
      · simp only [OptTree.hydOk]
        rw [hydOk_parts]
        exact ⟨rfl, by simp [linkOf_setParentO],
          by simpa [OptTree.hydOk] using hlhyd,
          by simpa [hydOk_setParentO] using rlhyd⟩
      · simpa [OptTree.hydOk] using rrhyd
    · -- balancedOk
      rw [balancedOk_parts]
      have h1 : rr.realHeight = rl.realHeight + 1 := hsingle
      have h2 : l.realHeight = rl.realHeight := by
        rw [hrhc] at hh; omega
      refine ⟨?_, ?_, by simpa [OptTree.balancedOk] using hbrr⟩
      · simp only [realHeight_some, realHeight_mk, realHeight_setParentO, h2, h1]
        omega
      · simp only [OptTree.balancedOk]
        rw [balancedOk_parts]
        refine ⟨?_, by simpa [balancedOk_setParentO] using hball, ?_⟩
        · simp only [realHeight_setParentO, h2]
          omega
        · simpa [balancedOk_setParentO] using hbrl
    · -- bstOk
      rw [bstOk_parts]
      refine ⟨btwnB_widen_lo hbtwc hbtw, ?_, by simpa [OptTree.bstOk] using hbstrr⟩
      simp only [OptTree.bstOk]
      rw [bstOk_parts]
      refine ⟨?_, ?_, ?_⟩
      · exact btwnB_shrink_hi hbtw (btwnB_lo hbtwc rfl)
      · simpa [OptTree.bstOk] using hbstl
      · simpa [bstOk_setParentO] using hbstrl
    · -- parentOk
      rw [parentOk_parts]
      refine ⟨hpk, ?_, by simpa [OptTree.parentOk] using hparrr⟩
      simp only [OptTree.parentOk]
      rw [parentOk_parts]
      refine ⟨rfl, ?_, ?_⟩
      · simpa [OptTree.parentOk] using hparl
      · exact parentOk_setParentO rl _ _ hparrl
    · -- height drop
      have h1 : rr.realHeight = rl.realHeight + 1 := hsingle
      have h2 : l.realHeight = rl.realHeight := by rw [hrhc] at hh; omega
      simp only [realHeight_mk, realHeight_some, realHeight_setParentO, h1, h2]
      omega
    · -- entries preserved
      simp only [entries_mk, OptTree.entries, entries_setParentO]
      simp [List.append_assoc]

/-! ## Entries of a BST are strictly sorted -/

mutual
theorem bst_entries_bound : ∀ (t : SparseTree) (lo hi : Option Bytes),
    t.bstOk lo hi = true → ∀ p ∈ t.entries, btwnB lo hi p.1 = true
  | .mk n l r, lo, hi, h, p, hp => by
    obtain ⟨hbtw, hbl, hbr⟩ := (bstOk_parts lo hi n l r).mp h
    rw [entries_mk] at hp
    rcases List.mem_append.mp hp with hp | hp
    · exact btwnB_widen_hi (bst_entries_boundO l lo (Option.some n.key) hbl p hp) hbtw
    · rcases List.mem_cons.mp hp with hp | hp
      · rw [hp]; exact hbtw
      · exact btwnB_widen_lo (bst_entries_boundO r (Option.some n.key) hi hbr p hp) hbtw
theorem bst_entries_boundO : ∀ (c : OptTree) (lo hi : Option Bytes),
    c.bstOk lo hi = true → ∀ p ∈ c.entries, btwnB lo hi p.1 = true
  | .none, _, _, _, p, hp => by simp [OptTree.entries] at hp
  | .some t, lo, hi, h, p, hp => bst_entries_bound t lo hi h p hp
end

theorem strictSorted_cons_cons (a b : Bytes × Bytes) (L : List (Bytes × Bytes)) :
    strictSorted (a :: b :: L) = true ↔
      bytesLt a.1 b.1 = true ∧ strictSorted (b :: L) = true := by
  simp [strictSorted]

theorem strictSorted_append : ∀ (A : List (Bytes × Bytes)) (x : Bytes × Bytes)
    (B : List (Bytes × Bytes)), strictSorted A = true → strictSorted B = true →
    (∀ p ∈ A, bytesLt p.1 x.1 = true) → (∀ p ∈ B, bytesLt x.1 p.1 = true) →
    strictSorted (A ++ x :: B) = true
  | [], x, B, _, hB, _, hb => by
    cases B with
    | nil => rfl
    | cons b B' =>
      rw [List.nil_append, strictSorted_cons_cons]
      exact ⟨hb b (List.mem_cons_self b B'), hB⟩
  | a :: A', x, B, hA, hB, ha, hb => by
    have tail : strictSorted (A' ++ x :: B) = true := by
      refine strictSorted_append A' x B ?_ hB (fun p hp => ha p (List.mem_cons_of_mem a hp)) hb
      cases A' with
      | nil => rfl
      | cons a' A'' => exact ((strictSorted_cons_cons a a' A'').mp hA).2
    cases A' with
    | nil =>
      rw [List.cons_append, List.nil_append, strictSorted_cons_cons]
      exact ⟨ha a (List.mem_cons_self a []), tail⟩
    | cons a' A'' =>
      rw [List.cons_append, List.cons_append, strictSorted_cons_cons]
      refine ⟨((strictSorted_cons_cons a a' A'').mp hA).1, ?_⟩
      rw [← List.cons_append]
      exact tail

mutual
theorem bst_sorted : ∀ (t : SparseTree) (lo hi : Option Bytes),
    t.bstOk lo hi = true → strictSorted t.entries = true
  | .mk n l r, lo, hi, h => by
    obtain ⟨hbtw, hbl, hbr⟩ := (bstOk_parts lo hi n l r).mp h
    rw [entries_mk]
    refine strictSorted_append l.entries (n.key, n.value) r.entries
      (bst_sortedO l lo (Option.some n.key) hbl)
      (bst_sortedO r (Option.some n.key) hi hbr) ?_ ?_
    · exact fun p hp =>
        btwnB_hi (bst_entries_boundO l lo (Option.some n.key) hbl p hp) rfl
    · exact fun p hp =>
        btwnB_lo (bst_entries_boundO r (Option.some n.key) hi hbr p hp) rfl
theorem bst_sortedO : ∀ (c : OptTree) (lo hi : Option Bytes),
    c.bstOk lo hi = true → strictSorted c.entries = true
  | .none, _, _, _ => rfl
  | .some t, lo, hi, h => bst_sorted t lo hi h
end

/-! ## Ordered insertion into the entries list -/

theorem insertAssoc_head_eq (k v w : Bytes) (R : List (Bytes × Bytes)) :
    insertAssoc k v ((k, w) :: R) = (k, v) :: R := by
  simp [insertAssoc, bytesLt_irrefl]

theorem insertAssoc_head_lt (k v m w : Bytes) (R : List (Bytes × Bytes))
    (h : bytesLt k m = true) :
    insertAssoc k v ((m, w) :: R) = (k, v) :: (m, w) :: R := by
  simp [insertAssoc, h]

theorem insertAssoc_head_gt (k v m w : Bytes) (R : List (Bytes × Bytes))
    (h₁ : bytesLt k m = false) (h₂ : k ≠ m) :
    insertAssoc k v ((m, w) :: R) = (m, w) :: insertAssoc k v R := by
  simp [insertAssoc, h₁, h₂]

theorem insertAssoc_append_left (k v : Bytes) (m : Bytes) (w : Bytes) :
    ∀ (L R : List (Bytes × Bytes)), bytesLt k m = true →
    insertAssoc k v (L ++ (m, w) :: R) = insertAssoc k v L ++ (m, w) :: R
  | [], R, hk => by simp [insertAssoc, hk]
  | (k', v') :: L', R, hk => by
    rw [List.cons_append]
    by_cases h₁ : bytesLt k k' = true
    · rw [insertAssoc_head_lt _ _ _ _ _ h₁, insertAssoc_head_lt _ _ _ _ _ h₁,
        List.cons_append, List.cons_append]
    · have h₁' : bytesLt k k' = false := by simpa using h₁
      by_cases h₂ : k = k'
      · subst h₂
        rw [insertAssoc_head_eq, insertAssoc_head_eq, List.cons_append]
      · rw [insertAssoc_head_gt _ _ _ _ _ h₁' h₂,
          insertAssoc_head_gt _ _ _ _ _ h₁' h₂,
          insertAssoc_append_left k v m w L' R hk, List.cons_append]

theorem insertAssoc_append_right (k v : Bytes) :
    ∀ (L rest : List (Bytes × Bytes)),
    (∀ p ∈ L, bytesLt p.1 k = true) →
    insertAssoc k v (L ++ rest) = L ++ insertAssoc k v rest
  | [], rest, _ => by simp
  | (k', v') :: L', rest, hL => by
    have hk' : bytesLt k' k = true := hL (k', v') (List.mem_cons_self _ _)
    have h₁ : bytesLt k k' = false := bytesLt_asymm hk'
    have h₂ : k ≠ k' := fun e => (bytesLt_ne hk') e.symm
    rw [List.cons_append, insertAssoc_head_gt _ _ _ _ _ h₁ h₂,
      insertAssoc_append_right k v L' rest
        (fun p hp => hL p (List.mem_cons_of_mem _ hp)),
      List.cons_append]

theorem lookupA_insertAssoc (k v : Bytes) :
    ∀ L : List (Bytes × Bytes), lookupA k (insertAssoc k v L) = Option.some v
  | [] => by simp [insertAssoc, lookupA]
  | (k', v') :: L' => by
    by_cases h₁ : bytesLt k k' = true
    · rw [insertAssoc_head_lt _ _ _ _ _ h₁]
      simp [lookupA]
    · have h₁' : bytesLt k k' = false := by simpa using h₁
      by_cases h₂ : k = k'
      · subst h₂
        rw [insertAssoc_head_eq]
        simp [lookupA]
      · rw [insertAssoc_head_gt _ _ _ _ _ h₁' h₂]
        simp only [lookupA, if_neg h₂]
        exact lookupA_insertAssoc k v L'

/-! ## Entries count the hydrated nodes -/

mutual
theorem entries_length : ∀ t : SparseTree, t.entries.length = t.size
  | .mk n l r => by
    rw [entries_mk, SparseTree.size]
    simp only [List.length_append, List.length_cons]
    rw [entries_lengthO l, entries_lengthO r]
    omega
theorem entries_lengthO : ∀ c : OptTree, c.entries.length = c.size
  | .none => rfl
  | .some t => entries_length t
end

/-! ## Reduction lemmas for `putF` -/

theorem putF_eq_key (g : GetNodeFn) (fuel : Nat) (t : SparseTree) (k v : Bytes)
    (h : t.nodeOf.key = k) :
    t.putF g (fuel + 1) k v = Option.some (t.set_value v) := by
  simp [SparseTree.putF, h]

theorem putF_descend (g : GetNodeFn) (fuel : Nat) (t t₁ c : SparseTree)
    (k v : Bytes) (h : ¬ t.nodeOf.key = k)
    (hmgc : t.maybe_get_child g (bytesLt k t.nodeOf.key) = (.some c, t₁)) :
    t.putF g (fuel + 1) k v = (c.putF g fuel k v).bind fun c₂ =>
      ((t₁.setChildField (bytesLt k t.nodeOf.key)
        (.some c₂)).update_link (bytesLt k t.nodeOf.key)).maybe_rebalance g := by
  simp only [SparseTree.putF, if_neg h, hmgc]
  cases c.putF g fuel k v with
  | none => rfl
  | some c₂ => rfl

theorem putF_attach (g : GetNodeFn) (fuel : Nat) (t t₁ : SparseTree)
    (k v : Bytes) (h : ¬ t.nodeOf.key = k)
    (hmgc : t.maybe_get_child g (bytesLt k t.nodeOf.key) = (.none, t₁)) :
    t.putF g (fuel + 1) k v =
      (t₁.set_child (bytesLt k t.nodeOf.key)
        (.some (SparseTree.new (Node.new k v)))).maybe_rebalance g := by
  simp only [SparseTree.putF, if_neg h, hmgc]
  rfl

/-! ## The master theorem: `put` succeeds and preserves every invariant -/

set_option maxHeartbeats 1000000

theorem putF_spec (g : GetNodeFn) : ∀ (fuel : Nat) (t : SparseTree) (k v : Bytes)
    (lo hi pk : Option Bytes),
    t.hydOk = true → t.balancedOk = true → t.bstOk lo hi = true →
    t.parentOk pk = true → btwnB lo hi k = true → t.realHeight < fuel →
    ∃ t', t.putF g fuel k v = Option.some t' ∧
      t'.hydOk = true ∧ t'.balancedOk = true ∧ t'.bstOk lo hi = true ∧
      t'.parentOk pk = true ∧
      (t'.realHeight = t.realHeight ∨
        (t'.realHeight = t.realHeight + 1 ∧ t'.realBF ≠ 0)) ∧
      t'.entries = insertAssoc k v t.entries := by
  intro fuel
  induction fuel with
  | zero => intro t k v lo hi pk _ _ _ _ _ hfuel; omega
  | succ fuel ih =>
    intro t k v lo hi pk hhyd hbal hbst hpar hbtw hfuel
    cases t with
    | mk n l r =>
      obtain ⟨hl, hr, hlhyd, hrhyd⟩ := (hydOk_parts n l r).mp hhyd
      obtain ⟨hbf_le, hball, hbalr⟩ := (balancedOk_parts n l r).mp hbal
      obtain ⟨hbtw_n, hbstl, hbstr⟩ := (bstOk_parts lo hi n l r).mp hbst
      obtain ⟨hpk, hparl, hparr⟩ := (parentOk_parts pk n l r).mp hpar
      by_cases hk : n.key = k
      · -- the key is already at this node: overwrite the value in place
        subst hk
        rw [putF_eq_key g fuel (SparseTree.mk n l r) n.key v rfl]
        refine ⟨_, rfl, ?_, ?_, ?_, ?_, Or.inl rfl, ?_⟩
        · rw [show (SparseTree.mk n l r).set_value v
              = SparseTree.mk (n.set_value v) l r from rfl, hydOk_parts]
          exact ⟨by simpa [Node.set_value] using hl,
            by simpa [Node.set_value] using hr, hlhyd, hrhyd⟩
        · rw [show (SparseTree.mk n l r).set_value v
              = SparseTree.mk (n.set_value v) l r from rfl, balancedOk_parts]
          exact ⟨hbf_le, hball, hbalr⟩
        · rw [show (SparseTree.mk n l r).set_value v
              = SparseTree.mk (n.set_value v) l r from rfl, bstOk_parts]
          exact ⟨by simpa [Node.set_value] using hbtw_n,
            by simpa [Node.set_value] using hbstl,
            by simpa [Node.set_value] using hbstr⟩
        · rw [show (SparseTree.mk n l r).set_value v
              = SparseTree.mk (n.set_value v) l r from rfl, parentOk_parts]
          exact ⟨by simpa [Node.set_value] using hpk,
            by simpa [Node.set_value] using hparl,
            by simpa [Node.set_value] using hparr⟩
        · rw [entries_mk,
            insertAssoc_append_right n.key v l.entries _
              (fun p hp => btwnB_hi
                (bst_entries_boundO l lo (Option.some n.key) hbstl p hp) rfl),
            insertAssoc_head_eq]
          simp [SparseTree.set_value, entries_mk, Node.set_value]
      · -- different key: descend on the comparison side
        cases hL : bytesLt k n.key with
        | true =>
          cases l with
          | none =>
            simp only [OptTree.linkOf] at hl
            have hmgc : (SparseTree.mk n OptTree.none r).maybe_get_child g
                (bytesLt k (SparseTree.mk n OptTree.none r).nodeOf.key)
                = (.none, SparseTree.mk n OptTree.none r) := by
              rw [show (SparseTree.mk n OptTree.none r).nodeOf = n from rfl, hL]
              exact mgc_none g _ true
                (by simp [SparseTree.nodeOf, Node.child_link, hl])
            have hred := putF_attach g fuel (SparseTree.mk n OptTree.none r)
              (SparseTree.mk n OptTree.none r) k v hk hmgc
            rw [show bytesLt k (SparseTree.mk n OptTree.none r).nodeOf.key = true
              from hL] at hred
            rw [show (SparseTree.mk n OptTree.none r).set_child true
                (.some (SparseTree.new (Node.new k v)))
                = SparseTree.mk { n with left_link := Option.some (Node.new k v).as_link }
                    (.some (SparseTree.mk
                      ((Node.new k v).set_parent (Option.some n.key))
                      OptTree.none OptTree.none)) r from rfl] at hred
            have hrle : r.realHeight ≤ 1 := by
              simp only [OptTree.realHeight] at hbf_le
              omega
            have hhyd₁ : (SparseTree.mk
                { n with left_link := Option.some (Node.new k v).as_link }
                (.some (SparseTree.mk ((Node.new k v).set_parent (Option.some n.key))
                  OptTree.none OptTree.none)) r).hydOk = true := by
              rw [hydOk_parts]
              refine ⟨rfl, by simpa using hr, ?_, hrhyd⟩
              simp only [OptTree.hydOk]
              rw [hydOk_parts]
              exact ⟨rfl, rfl, rfl, rfl⟩
            have hbfabs : (SparseTree.mk
                { n with left_link := Option.some (Node.new k v).as_link }
                (.some (SparseTree.mk ((Node.new k v).set_parent (Option.some n.key))
                  OptTree.none OptTree.none)) r).nodeOf.balance_factor.natAbs ≤ 1 := by
              rw [hydOk_bf _ hhyd₁]
              simp only [SparseTree.realBF, realHeight_some, realHeight_mk,
                OptTree.realHeight]
              omega
            rw [rebalance_noop g _ hbfabs] at hred
            refine ⟨_, hred, hhyd₁, ?_, ?_, ?_, ?_, ?_⟩
            · rw [balancedOk_parts]
              refine ⟨?_, rfl, hbalr⟩
              simp only [realHeight_some, realHeight_mk, OptTree.realHeight]
              omega
            · rw [bstOk_parts]
              refine ⟨by simpa using hbtw_n, ?_, by simpa using hbstr⟩
              simp only [OptTree.bstOk]
              rw [bstOk_parts]
              refine ⟨?_, rfl, rfl⟩
              simpa [Node.new, Node.set_parent] using btwnB_shrink_hi hbtw hL
            · rw [parentOk_parts]
              refine ⟨by simpa using hpk, ?_, by simpa using hparr⟩
              simp only [OptTree.parentOk]
              rw [parentOk_parts]
              exact ⟨by simp [Node.new, Node.set_parent], rfl, rfl⟩
            · rcases (by omega : r.realHeight = 0 ∨ r.realHeight = 1) with h0 | h1
              · refine Or.inr ⟨?_, ?_⟩
                · simp only [realHeight_mk, realHeight_some, OptTree.realHeight, h0]
                  omega
                · simp only [SparseTree.realBF, realHeight_some, realHeight_mk,
                    OptTree.realHeight, h0]
                  omega
              · refine Or.inl ?_
                simp only [realHeight_mk, realHeight_some, OptTree.realHeight, h1]
                omega
            · rw [entries_mk, entries_mk]
              simp only [OptTree.entries, List.nil_append]
              rw [insertAssoc_head_lt _ _ _ _ _ hL]
              simp [Node.new, Node.set_parent, entries_mk, OptTree.entries]
          | some c =>
            simp only [OptTree.linkOf, SparseTree.nodeOf] at hl
            simp only [OptTree.hydOk] at hlhyd
            simp only [OptTree.balancedOk] at hball
            simp only [OptTree.bstOk] at hbstl
            simp only [OptTree.parentOk] at hparl
            have hmgc : (SparseTree.mk n (.some c) r).maybe_get_child g
                (bytesLt k (SparseTree.mk n (.some c) r).nodeOf.key)
                = (.some c, SparseTree.mk n (.some c) r) := by
              rw [show (SparseTree.mk n (.some c) r).nodeOf = n from rfl, hL]
              exact mgc_some g _ true c c.nodeOf.as_link
                (by simp [SparseTree.nodeOf, Node.child_link, hl]) rfl
            have hred := putF_descend g fuel (SparseTree.mk n (.some c) r)
              (SparseTree.mk n (.some c) r) c k v hk hmgc
            rw [show bytesLt k (SparseTree.mk n (.some c) r).nodeOf.key = true
              from hL] at hred
            have hcfuel : c.realHeight < fuel := by
              have e1 : (SparseTree.mk n (.some c) r).realHeight
                  = 1 + max c.realHeight r.realHeight := by
                rw [realHeight_mk, realHeight_some]
              omega
            obtain ⟨c₂, hputc, hc₂hyd, hc₂bal, hc₂bst, hc₂par, hc₂grow, hc₂ent⟩ :=
              ih c k v lo (Option.some n.key) (Option.some n.key) hlhyd hball
                hbstl hparl (btwnB_shrink_hi hbtw hL) hcfuel
            rw [hputc] at hred
            simp only [Option.some_bind] at hred
            rw [show ((SparseTree.mk n (.some c) r).setChildField true
                (.some c₂)).update_link true
                = SparseTree.mk { n with left_link := Option.some c₂.nodeOf.as_link }
                    (.some c₂) r from rfl] at hred
            have hhyd₂ : (SparseTree.mk
                { n with left_link := Option.some c₂.nodeOf.as_link }
                (.some c₂) r).hydOk = true := by
              rw [hydOk_parts]
              exact ⟨rfl, by simpa using hr,
                by simpa [OptTree.hydOk] using hc₂hyd, hrhyd⟩
            have hbst₂ : (SparseTree.mk
                { n with left_link := Option.some c₂.nodeOf.as_link }
                (.some c₂) r).bstOk lo hi = true := by
              rw [bstOk_parts]
              exact ⟨by simpa using hbtw_n,
                by simpa [OptTree.bstOk] using hc₂bst, by simpa using hbstr⟩
            have hpar₂ : (SparseTree.mk
                { n with left_link := Option.some c₂.nodeOf.as_link }
                (.some c₂) r).parentOk pk = true := by
              rw [parentOk_parts]
              exact ⟨by simpa using hpk,
                by simpa [OptTree.parentOk] using hc₂par, by simpa using hparr⟩
            rcases hc₂grow with hsame | ⟨hgrow, hbfnz⟩
            · -- the subtree kept its height: no rebalancing
              have hbfabs : (SparseTree.mk
                  { n with left_link := Option.some c₂.nodeOf.as_link }
                  (.some c₂) r).nodeOf.balance_factor.natAbs ≤ 1 := by
                rw [hydOk_bf _ hhyd₂]
                simp only [SparseTree.realBF, realHeight_some, hsame]
                simp only [realHeight_some] at hbf_le
                omega
              rw [rebalance_noop g _ hbfabs] at hred
              refine ⟨_, hred, hhyd₂, ?_, hbst₂, hpar₂, Or.inl ?_, ?_⟩
              · rw [balancedOk_parts]
                refine ⟨?_, by simpa [OptTree.balancedOk] using hc₂bal, hbalr⟩
                simp only [realHeight_some, hsame]
                simpa only [realHeight_some] using hbf_le
              · simp only [realHeight_mk, realHeight_some, hsame]
              · simp only [entries_mk, OptTree.entries]
                rw [hc₂ent, insertAssoc_append_left k v n.key n.value
                  c.entries r.entries hL]
            · -- the subtree grew by one
              by_cases hreb : c.realHeight = r.realHeight + 1
              · -- the node is now left-heavy by two: rotate
                cases c₂ with
                | mk cn cl cr =>
                  have hh2 : (SparseTree.mk cn cl cr).realHeight
                      = r.realHeight + 2 := by
                    omega
                  obtain ⟨t₃, hreb3, hh3, hb3, hbst3, hpar3, hht3, hent3⟩ :=
                    rebalance_left_spec g
                      { n with left_link :=
                          Option.some (SparseTree.mk cn cl cr).nodeOf.as_link }
                      cn cl cr r lo hi pk hhyd₂
                      (by simpa [OptTree.balancedOk] using hc₂bal) hbalr
                      hbst₂ hpar₂ hh2 hbfnz
                  rw [hreb3] at hred
                  refine ⟨t₃, hred, hh3, hb3, hbst3, hpar3, Or.inl ?_, ?_⟩
                  · have e2 : (SparseTree.mk
                        { n with left_link :=
                            Option.some (SparseTree.mk cn cl cr).nodeOf.as_link }
                        (.some (SparseTree.mk cn cl cr)) r).realHeight
                        = 1 + max (SparseTree.mk cn cl cr).realHeight r.realHeight := by
                      rw [realHeight_mk, realHeight_some]
                    have e1 : (SparseTree.mk n (.some c) r).realHeight
                        = 1 + max c.realHeight r.realHeight := by
                      rw [realHeight_mk, realHeight_some]
                    omega
                  · rw [hent3]
                    show (SparseTree.mk cn cl cr).entries ++ (n.key, n.value) :: r.entries
                        = insertAssoc k v (c.entries ++ (n.key, n.value) :: r.entries)
                    rw [hc₂ent, insertAssoc_append_left k v n.key n.value
                      c.entries r.entries hL]
              · -- still balanced here: no rotation
                have hbfabs : (SparseTree.mk
                    { n with left_link := Option.some c₂.nodeOf.as_link }
                    (.some c₂) r).nodeOf.balance_factor.natAbs ≤ 1 := by
                  rw [hydOk_bf _ hhyd₂]
                  simp only [SparseTree.realBF, realHeight_some, hgrow]
                  simp only [realHeight_some] at hbf_le
                  omega
                rw [rebalance_noop g _ hbfabs] at hred
                refine ⟨_, hred, hhyd₂, ?_, hbst₂, hpar₂, ?_, ?_⟩
                · rw [balancedOk_parts]
                  refine ⟨?_, by simpa [OptTree.balancedOk] using hc₂bal, hbalr⟩
                  simp only [realHeight_some, hgrow]
                  simp only [realHeight_some] at hbf_le
                  omega
                · rcases Nat.lt_or_ge c.realHeight r.realHeight with hlt | hge
                  · refine Or.inl ?_
                    simp only [realHeight_mk, realHeight_some, hgrow]
                    omega
                  · refine Or.inr ⟨?_, ?_⟩
                    · simp only [realHeight_mk, realHeight_some, hgrow]
                      simp only [realHeight_some] at hbf_le
                      omega
                    · simp only [SparseTree.realBF, realHeight_some, hgrow]
                      simp only [realHeight_some] at hbf_le
                      omega
                · simp only [entries_mk, OptTree.entries]
                  rw [hc₂ent, insertAssoc_append_left k v n.key n.value
                    c.entries r.entries hL]
        | false =>
          have hknk : k ≠ n.key := fun e => hk e.symm
          have hgt : bytesLt n.key k = true := bytesLt_total hL hknk
          have hlkey : ∀ p ∈ l.entries, bytesLt p.1 k = true := fun p hp =>
            bytesLt_trans
              (btwnB_hi (bst_entries_boundO l lo (Option.some n.key) hbstl p hp) rfl)
              hgt
          cases r with
          | none =>
            simp only [OptTree.linkOf] at hr
            have hmgc : (SparseTree.mk n l OptTree.none).maybe_get_child g
                (bytesLt k (SparseTree.mk n l OptTree.none).nodeOf.key)
                = (.none, SparseTree.mk n l OptTree.none) := by
              rw [show (SparseTree.mk n l OptTree.none).nodeOf = n from rfl, hL]
              exact mgc_none g _ false
                (by simp [SparseTree.nodeOf, Node.child_link, hr])
            have hred := putF_attach g fuel (SparseTree.mk n l OptTree.none)
              (SparseTree.mk n l OptTree.none) k v hk hmgc
            rw [show bytesLt k (SparseTree.mk n l OptTree.none).nodeOf.key = false
              from hL] at hred
            rw [show (SparseTree.mk n l OptTree.none).set_child false
                (.some (SparseTree.new (Node.new k v)))
                = SparseTree.mk { n with right_link := Option.some (Node.new k v).as_link }
                    l (.some (SparseTree.mk
                      ((Node.new k v).set_parent (Option.some n.key))
                      OptTree.none OptTree.none)) from rfl] at hred
            have hlle : l.realHeight ≤ 1 := by
              simp only [OptTree.realHeight] at hbf_le
              omega
            have hhyd₁ : (SparseTree.mk
                { n with right_link := Option.some (Node.new k v).as_link }
                l (.some (SparseTree.mk ((Node.new k v).set_parent (Option.some n.key))
                  OptTree.none OptTree.none))).hydOk = true := by
              rw [hydOk_parts]
              refine ⟨by simpa using hl, rfl, hlhyd, ?_⟩
              simp only [OptTree.hydOk]
              rw [hydOk_parts]
              exact ⟨rfl, rfl, rfl, rfl⟩
            have hbfabs : (SparseTree.mk
                { n with right_link := Option.some (Node.new k v).as_link }
                l (.some (SparseTree.mk ((Node.new k v).set_parent (Option.some n.key))
                  OptTree.none OptTree.none))).nodeOf.balance_factor.natAbs ≤ 1 := by
              rw [hydOk_bf _ hhyd₁]
              simp only [SparseTree.realBF, realHeight_some, realHeight_mk,
                OptTree.realHeight]
              omega
            rw [rebalance_noop g _ hbfabs] at hred
            refine ⟨_, hred, hhyd₁, ?_, ?_, ?_, ?_, ?_⟩
            · rw [balancedOk_parts]
              refine ⟨?_, hball, rfl⟩
              simp only [realHeight_some, realHeight_mk, OptTree.realHeight]
              omega
            · rw [bstOk_parts]
              refine ⟨by simpa using hbtw_n, by simpa using hbstl, ?_⟩
              simp only [OptTree.bstOk]
              rw [bstOk_parts]
              refine ⟨?_, rfl, rfl⟩
              simpa [Node.new, Node.set_parent] using btwnB_shrink_lo hbtw hgt
            · rw [parentOk_parts]
              refine ⟨by simpa using hpk, by simpa using hparl, ?_⟩
              simp only [OptTree.parentOk]
              rw [parentOk_parts]
              exact ⟨by simp [Node.new, Node.set_parent], rfl, rfl⟩
            · rcases (by omega : l.realHeight = 0 ∨ l.realHeight = 1) with h0 | h1
              · refine Or.inr ⟨?_, ?_⟩
                · simp only [realHeight_mk, realHeight_some, OptTree.realHeight, h0]
                  omega
                · simp only [SparseTree.realBF, realHeight_some, realHeight_mk,
                    OptTree.realHeight, h0]
                  omega
              · refine Or.inl ?_
                simp only [realHeight_mk, realHeight_some, OptTree.realHeight, h1]
                omega
            · rw [entries_mk, entries_mk]
              simp only [OptTree.entries]
              rw [insertAssoc_append_right k v l.entries _ hlkey,
                insertAssoc_head_gt _ _ _ _ _ hL hknk]
              simp [Node.new, Node.set_parent, entries_mk, OptTree.entries,
                insertAssoc]
          | some c =>
            simp only [OptTree.linkOf, SparseTree.nodeOf] at hr
            simp only [OptTree.hydOk] at hrhyd
            simp only [OptTree.balancedOk] at hbalr
            simp only [OptTree.bstOk] at hbstr
            simp only [OptTree.parentOk] at hparr
            have hmgc : (SparseTree.mk n l (.some c)).maybe_get_child g
                (bytesLt k (SparseTree.mk n l (.some c)).nodeOf.key)
                = (.some c, SparseTree.mk n l (.some c)) := by
              rw [show (SparseTree.mk n l (.some c)).nodeOf = n from rfl, hL]
              exact mgc_some g _ false c c.nodeOf.as_link
                (by simp [SparseTree.nodeOf, Node.child_link, hr]) rfl
            have hred := putF_descend g fuel (SparseTree.mk n l (.some c))
              (SparseTree.mk n l (.some c)) c k v hk hmgc
            rw [show bytesLt k (SparseTree.mk n l (.some c)).nodeOf.key = false
              from hL] at hred
            have hcfuel : c.realHeight < fuel := by
              have e1 : (SparseTree.mk n l (.some c)).realHeight
                  = 1 + max l.realHeight c.realHeight := by
                rw [realHeight_mk, realHeight_some]
              omega
            obtain ⟨c₂, hputc, hc₂hyd, hc₂bal, hc₂bst, hc₂par, hc₂grow, hc₂ent⟩ :=
              ih c k v (Option.some n.key) hi (Option.some n.key) hrhyd hbalr
                hbstr hparr (btwnB_shrink_lo hbtw hgt) hcfuel
            rw [hputc] at hred
            simp only [Option.some_bind] at hred
            rw [show ((SparseTree.mk n l (.some c)).setChildField false
                (.some c₂)).update_link false
                = SparseTree.mk { n with right_link := Option.some c₂.nodeOf.as_link }
                    l (.some c₂) from rfl] at hred
            have hhyd₂ : (SparseTree.mk
                { n with right_link := Option.some c₂.nodeOf.as_link }
                l (.some c₂)).hydOk = true := by
              rw [hydOk_parts]
              exact ⟨by simpa using hl, rfl, hlhyd,
                by simpa [OptTree.hydOk] using hc₂hyd⟩
            have hbst₂ : (SparseTree.mk
                { n with right_link := Option.some c₂.nodeOf.as_link }
                l (.some c₂)).bstOk lo hi = true := by
              rw [bstOk_parts]
              exact ⟨by simpa using hbtw_n, by simpa using hbstl,
                by simpa [OptTree.bstOk] using hc₂bst⟩
            have hpar₂ : (SparseTree.mk
                { n with right_link := Option.some c₂.nodeOf.as_link }
                l (.some c₂)).parentOk pk = true := by
              rw [parentOk_parts]
              exact ⟨by simpa using hpk, by simpa using hparl,
                by simpa [OptTree.parentOk] using hc₂par⟩
            rcases hc₂grow with hsame | ⟨hgrow, hbfnz⟩
            · -- the subtree kept its height: no rebalancing
              have hbfabs : (SparseTree.mk
                  { n with right_link := Option.some c₂.nodeOf.as_link }
                  l (.some c₂)).nodeOf.balance_factor.natAbs ≤ 1 := by
                rw [hydOk_bf _ hhyd₂]
                simp only [SparseTree.realBF, realHeight_some, hsame]
                simp only [realHeight_some] at hbf_le
                omega
              rw [rebalance_noop g _ hbfabs] at hred
              refine ⟨_, hred, hhyd₂, ?_, hbst₂, hpar₂, Or.inl ?_, ?_⟩
              · rw [balancedOk_parts]
                refine ⟨?_, hball, by simpa [OptTree.balancedOk] using hc₂bal⟩
                simp only [realHeight_some, hsame]
                simpa only [realHeight_some] using hbf_le
              · simp only [realHeight_mk, realHeight_some, hsame]
              · simp only [entries_mk, OptTree.entries]
                rw [hc₂ent, insertAssoc_append_right k v l.entries _ hlkey,
                  insertAssoc_head_gt _ _ _ _ _ hL hknk]
            · -- the subtree grew by one
              by_cases hreb : c.realHeight = l.realHeight + 1
              · -- the node is now right-heavy by two: rotate
                cases c₂ with
                | mk cn cl cr =>
                  have hh2 : (SparseTree.mk cn cl cr).realHeight
                      = l.realHeight + 2 := by
                    omega
                  obtain ⟨t₃, hreb3, hh3, hb3, hbst3, hpar3, hht3, hent3⟩ :=
                    rebalance_right_spec g
                      { n with right_link :=
                          Option.some (SparseTree.mk cn cl cr).nodeOf.as_link }
                      cn l cl cr lo hi pk hhyd₂
                      (by simpa [OptTree.balancedOk] using hc₂bal) hball
                      hbst₂ hpar₂ hh2 hbfnz
                  rw [hreb3] at hred
                  refine ⟨t₃, hred, hh3, hb3, hbst3, hpar3, Or.inl ?_, ?_⟩
                  · have e2 : (SparseTree.mk
                        { n with right_link :=
                            Option.some (SparseTree.mk cn cl cr).nodeOf.as_link }
                        l (.some (SparseTree.mk cn cl cr))).realHeight
                        = 1 + max l.realHeight (SparseTree.mk cn cl cr).realHeight := by
                      rw [realHeight_mk, realHeight_some]
                    have e1 : (SparseTree.mk n l (.some c)).realHeight
                        = 1 + max l.realHeight c.realHeight := by
                      rw [realHeight_mk, realHeight_some]
                    omega
                  · rw [hent3]
                    show l.entries ++ (n.key, n.value) :: (SparseTree.mk cn cl cr).entries
                        = insertAssoc k v (l.entries ++ (n.key, n.value) :: c.entries)
                    rw [hc₂ent, insertAssoc_append_right k v l.entries _ hlkey,
                      insertAssoc_head_gt _ _ _ _ _ hL hknk]
              · -- still balanced here: no rotation
                have hbfabs : (SparseTree.mk
                    { n with right_link := Option.some c₂.nodeOf.as_link }
                    l (.some c₂)).nodeOf.balance_factor.natAbs ≤ 1 := by
                  rw [hydOk_bf _ hhyd₂]
                  simp only [SparseTree.realBF, realHeight_some, hgrow]
                  simp only [realHeight_some] at hbf_le
                  omega
                rw [rebalance_noop g _ hbfabs] at hred
                refine ⟨_, hred, hhyd₂, ?_, hbst₂, hpar₂, ?_, ?_⟩
                · rw [balancedOk_parts]
                  refine ⟨?_, hball, by simpa [OptTree.balancedOk] using hc₂bal⟩
                  simp only [realHeight_some, hgrow]
                  simp only [realHeight_some] at hbf_le
                  omega
                · rcases Nat.lt_or_ge c.realHeight l.realHeight with hlt | hge
                  · refine Or.inl ?_
                    simp only [realHeight_mk, realHeight_some, hgrow]
                    omega
                  · refine Or.inr ⟨?_, ?_⟩
                    · simp only [realHeight_mk, realHeight_some, hgrow]
                      simp only [realHeight_some] at hbf_le
                      omega
                    · simp only [SparseTree.realBF, realHeight_some, hgrow]
                      simp only [realHeight_some] at hbf_le
                      omega
                · simp only [entries_mk, OptTree.entries]
                  rw [hc₂ent, insertAssoc_append_right k v l.entries _ hlkey,
                    insertAssoc_head_gt _ _ _ _ _ hL hknk]

theorem balancedOk_realBF (t : SparseTree) (h : t.balancedOk = true) :
    t.realBF.natAbs ≤ 1 := by
  cases t with
  | mk n l r =>
    exact ((balancedOk_parts n l r).mp h).1

theorem put_spec (g : GetNodeFn) (t : SparseTree) (k v : Bytes)
    (lo hi pk : Option Bytes)
    (hg : t.goodB lo hi pk = true) (hk : btwnB lo hi k = true) :
    ∃ t', t.put g k v = Option.some t' ∧ t'.goodB lo hi pk = true ∧
      t'.entries = insertAssoc k v t.entries := by
  obtain ⟨h1, h2, h3, h4⟩ := (goodB_parts lo hi pk t).mp hg
  obtain ⟨t', he, a, b, c, d, _, f⟩ :=
    putF_spec g (t.realHeight + 1) t k v lo hi pk h1 h2 h3 h4 hk
      (Nat.lt_succ_self _)
  exact ⟨t', he, (goodB_parts lo hi pk t').mpr ⟨a, b, c, d⟩, f⟩

theorem putList_good (g : GetNodeFn) : ∀ (ops : List (Bytes × Bytes))
    (t t' : SparseTree),
    t.goodB Option.none Option.none Option.none = true →
    t.putList g ops = Option.some t' →
    t'.goodB Option.none Option.none Option.none = true
  | [], t, t', hg, h => by
    simp only [SparseTree.putList, Option.some.injEq] at h
    rw [← h]
    exact hg
  | (k, v) :: rest, t, t', hg, h => by
    obtain ⟨t₁, he, hgood, _⟩ := put_spec g t k v Option.none Option.none
      Option.none hg rfl
    rw [SparseTree.putList, he] at h
    exact putList_good g rest t₁ t' hgood h

theorem goodB_new (k v : Bytes) :
    (SparseTree.new (Node.new k v)).goodB Option.none Option.none
      Option.none = true := rfl

/-! ## The claims -/

/-- C1: For every tree obtained by applying any finite sequence of
`put(key, value)` calls to a `SparseTree` (starting from a fresh singleton),
the in-order traversal produced by `entries()` yields a sequence of keys that
is strictly increasing under byte-lexicographic comparison, with no duplicate
keys. -/
theorem c1_entries_strictly_sorted (g : GetNodeFn) (k₀ v₀ : Bytes)
    (ops : List (Bytes × Bytes)) (t : SparseTree)
    (h : (SparseTree.new (Node.new k₀ v₀)).putList g ops = Option.some t) :
    strictSorted t.entries = true := by
  have hg := putList_good g ops _ t (goodB_new k₀ v₀) h
  exact bst_sorted t Option.none Option.none
    ((goodB_parts _ _ _ t).mp hg).2.2.1

theorem c1_witness :
    strictSorted (((SparseTree.new (Node.new [50] [121])).putList
        (fun _ => Node.new [] [])
        [([49], [120]), ([51], [122]), ([48], [123])]).getD
      (SparseTree.new (Node.new [] []))).entries = true :=
  c1_entries_strictly_sorted (fun _ => Node.new [] []) [50] [121]
    [([49], [120]), ([51], [122]), ([48], [123])] _ (by rfl)

/-- C2: After any completed `put` on a `SparseTree` (built by a sequence of
`put` calls from a fresh singleton), every node in the tree has balance
factor — height of right child minus height of left child, where both heights
are measured with the same convention for an absent child — of absolute value
at most 1.  `balancedOk` checks `|realHeight right − realHeight left| ≤ 1` at
every node, which is the same number as the claim's convention (absent child
of height −1): both child heights are shifted by one. -/
theorem c2_avl_balance (g : GetNodeFn) (k₀ v₀ : Bytes)
    (ops : List (Bytes × Bytes)) (t : SparseTree)
    (h : (SparseTree.new (Node.new k₀ v₀)).putList g ops = Option.some t) :
    t.balancedOk = true := by
  have hg := putList_good g ops _ t (goodB_new k₀ v₀) h
  exact ((goodB_parts _ _ _ t).mp hg).2.1

theorem c2_witness :
    (((SparseTree.new (Node.new [50] [121])).putList
        (fun _ => Node.new [] [])
        [([49], [120]), ([51], [122]), ([48], [123])]).getD
      (SparseTree.new (Node.new [] []))).balancedOk = true :=
  c2_avl_balance (fun _ => Node.new [] []) [50] [121]
    [([49], [120]), ([51], [122]), ([48], [123])] _ (by rfl)

/-- C3: After any completed `put` on a `SparseTree` (built by a sequence of
`put` calls from a fresh singleton), for every hydrated child in the tree,
the `Link` stored on the parent's `Node` for that side exactly equals the
triple (child's key, child's current `hash()`, child's current height):
`hydOk` demands `link = child.as_link` with `as_link = ⟨key, hash, height⟩`
at every node. -/
theorem c3_link_consistency (g : GetNodeFn) (k₀ v₀ : Bytes)
    (ops : List (Bytes × Bytes)) (t : SparseTree)
    (h : (SparseTree.new (Node.new k₀ v₀)).putList g ops = Option.some t) :
    t.hydOk = true := by
  have hg := putList_good g ops _ t (goodB_new k₀ v₀) h
  exact ((goodB_parts _ _ _ t).mp hg).1

theorem c3_witness :
    (((SparseTree.new (Node.new [50] [121])).putList
        (fun _ => Node.new [] [])
        [([49], [120]), ([51], [122]), ([48], [123])]).getD
      (SparseTree.new (Node.new [] []))).hydOk = true :=
  c3_link_consistency (fun _ => Node.new [] []) [50] [121]
    [([49], [120]), ([51], [122]), ([48], [123])] _ (by rfl)

/-- C9: After any completed `put` on a `SparseTree` (built by a sequence of
`put` calls from a fresh singleton), every hydrated child node's `parent_key`
equals its actual parent's key (and the root keeps `parent_key = none`),
across all rotations. -/
theorem c9_parent_consistency (g : GetNodeFn) (k₀ v₀ : Bytes)
    (ops : List (Bytes × Bytes)) (t : SparseTree)
    (h : (SparseTree.new (Node.new k₀ v₀)).putList g ops = Option.some t) :
    t.parentOk Option.none = true := by
  have hg := putList_good g ops _ t (goodB_new k₀ v₀) h
  exact ((goodB_parts _ _ _ t).mp hg).2.2.2

theorem c9_witness :
    (((SparseTree.new (Node.new [50] [121])).putList
        (fun _ => Node.new [] [])
        [([49], [120]), ([51], [122]), ([48], [123])]).getD
      (SparseTree.new (Node.new [] []))).parentOk Option.none = true :=
  c9_parent_consistency (fun _ => Node.new [] []) [50] [121]
    [([49], [120]), ([51], [122]), ([48], [123])] _ (by rfl)

/-- C5: For every `SparseTree` whose root node already holds key `k`,
`put(k, v)` overwrites that node's value with `v` and returns without
descending into children: the result is exactly the same tree with the same
two child subtrees (hence every other node's key and value unchanged) and
only the root node's value replaced. -/
theorem c5_put_existing_root (g : GetNodeFn) (t : SparseTree) (k v : Bytes)
    (h : t.nodeOf.key = k) :
    t.put g k v = Option.some (SparseTree.mk (t.nodeOf.set_value v)
      (t.childOf true) (t.childOf false)) := by
  cases t with
  | mk n l r =>
    rw [show (SparseTree.mk n l r).put g k v
        = (SparseTree.mk n l r).putF g
            ((SparseTree.mk n l r).realHeight + 1) k v from rfl,
      putF_eq_key g _ _ k v h]
    rfl

theorem c5_witness :
    (SparseTree.new (Node.new [50] [121])).put (fun _ => Node.new [] [])
        [50] [99]
      = Option.some (SparseTree.mk
          ((SparseTree.new (Node.new [50] [121])).nodeOf.set_value [99])
          ((SparseTree.new (Node.new [50] [121])).childOf true)
          ((SparseTree.new (Node.new [50] [121])).childOf false)) :=
  c5_put_existing_root (fun _ => Node.new [] [])
    (SparseTree.new (Node.new [50] [121])) [50] [99] rfl

/-- C8: In every tree with correctly maintained Links (`hydOk`), whenever
`maybe_rebalance` finds a balance factor of absolute value greater than 1,
the child on the heavy side exists — its Link is present — so the unwrap of
`maybe_get_child` on that side never fails: `maybe_get_child` returns a
child, and the no-child error branch is unreachable. -/
theorem c8_heavy_child_exists (g : GetNodeFn) (t : SparseTree)
    (hhyd : t.hydOk = true) (hbf : 1 < t.nodeOf.balance_factor.natAbs) :
    t.nodeOf.child_link (decide (t.nodeOf.balance_factor < 0)) ≠ Option.none ∧
      (t.maybe_get_child g
        (decide (t.nodeOf.balance_factor < 0))).1 ≠ OptTree.none := by
  cases t with
  | mk n l r =>
    obtain ⟨hl, hr, hlhyd, hrhyd⟩ := (hydOk_parts n l r).mp hhyd
    rw [hydOk_bf _ hhyd] at hbf ⊢
    by_cases hneg : (SparseTree.mk n l r).realBF < 0
    · have hlh : 1 ≤ l.realHeight := by
        simp only [SparseTree.realBF] at hbf hneg
        omega
      cases l with
      | none => simp [OptTree.realHeight] at hlh
      | some c =>
        simp only [OptTree.linkOf, SparseTree.nodeOf] at hl
        rw [decide_eq_true hneg]
        constructor
        · simp [SparseTree.nodeOf, Node.child_link, hl]
        · rw [mgc_some g (SparseTree.mk n (OptTree.some c) r) true c
            c.nodeOf.as_link
            (by simp [SparseTree.nodeOf, Node.child_link, hl]) rfl]
          simp
    · have hrh : 1 ≤ r.realHeight := by
        simp only [SparseTree.realBF] at hbf hneg
        omega
      cases r with
      | none => simp [OptTree.realHeight] at hrh
      | some c =>
        simp only [OptTree.linkOf, SparseTree.nodeOf] at hr
        rw [decide_eq_false hneg]
        constructor
        · simp [SparseTree.nodeOf, Node.child_link, hr]
        · rw [mgc_some g (SparseTree.mk n l (OptTree.some c)) false c
            c.nodeOf.as_link
            (by simp [SparseTree.nodeOf, Node.child_link, hr]) rfl]
          simp

/-- C7 -/
theorem c7_rebalance_restores (g : GetNodeFn) (n : Node) (l r : OptTree)
    (lo hi pk : Option Bytes)
    (hhyd : (SparseTree.mk n l r).hydOk = true)
    (hbl : l.balancedOk = true) (hbr : r.balancedOk = true)
    (hbst : (SparseTree.mk n l r).bstOk lo hi = true)
    (hpar : (SparseTree.mk n l r).parentOk pk = true)
    (hbf : (SparseTree.mk n l r).realBF.natAbs = 2)
    (hheavy : heavyChildSharp (SparseTree.mk n l r) = true) :
    ∃ t', (SparseTree.mk n l r).maybe_rebalance g = Option.some t' ∧
      t'.realBF.natAbs ≤ 1 ∧
      t'.realHeight + 1 = (SparseTree.mk n l r).realHeight := by
  rcases (by omega : (SparseTree.mk n l r).realBF = 2 ∨
      (SparseTree.mk n l r).realBF = -2) with h2 | h2
  · have hneg : ¬ (SparseTree.mk n l r).realBF < 0 := by omega
    have hrh : r.realHeight = l.realHeight + 2 := by
      simp only [SparseTree.realBF] at h2
      omega
    cases r with
    | none =>
      simp only [OptTree.realHeight] at hrh
      omega
    | some c =>
      cases c with
      | mk rn rl rr =>
        have hc : (SparseTree.mk rn rl rr).realBF ≠ 0 := by
          simp only [heavyChildSharp] at hheavy
          rw [decide_eq_false hneg] at hheavy
          simp only [SparseTree.childOf] at hheavy
          simpa using hheavy
        obtain ⟨t', he, _, hb, _, _, hht, _⟩ :=
          rebalance_right_spec g n rn l rl rr lo hi pk hhyd
            (by simpa [OptTree.balancedOk] using hbr) hbl hbst hpar
            (by simpa only [realHeight_some] using hrh) hc
        exact ⟨t', he, balancedOk_realBF t' hb, hht⟩
  · have hneg : (SparseTree.mk n l r).realBF < 0 := by omega
    have hlh : l.realHeight = r.realHeight + 2 := by
      simp only [SparseTree.realBF] at h2
      omega
    cases l with
    | none =>
      simp only [OptTree.realHeight] at hlh
      omega
    | some c =>
      cases c with
      | mk ln ll lr =>
        have hc : (SparseTree.mk ln ll lr).realBF ≠ 0 := by
          simp only [heavyChildSharp] at hheavy
          rw [decide_eq_true hneg] at hheavy
          simp only [SparseTree.childOf] at hheavy
          simpa using hheavy
        obtain ⟨t', he, _, hb, _, _, hht, _⟩ :=
          rebalance_left_spec g n ln ll lr r lo hi pk hhyd
            (by simpa [OptTree.balancedOk] using hbl) hbr hbst hpar
            (by simpa only [realHeight_some] using hlh) hc
        exact ⟨t', he, balancedOk_realBF t' hb, hht⟩

theorem c7_witness :
    ∃ t', chain51.maybe_rebalance (fun _ => Node.new [] []) = Option.some t' ∧
      t'.realBF.natAbs ≤ 1 ∧ t'.realHeight + 1 = chain51.realHeight :=
  c7_rebalance_restores (fun _ => Node.new [] [])
    chain51.nodeOf (chain51.childOf true) (chain51.childOf false)
    Option.none Option.none Option.none
    (by decide) (by decide) (by decide) (by decide) (by decide) (by decide)
    (by decide)

theorem c8_witness :
    chain51.nodeOf.child_link
        (decide (chain51.nodeOf.balance_factor < 0)) ≠ Option.none ∧
      (chain51.maybe_get_child (fun _ => Node.new [] [])
        (decide (chain51.nodeOf.balance_factor < 0))).1 ≠ OptTree.none :=
  c8_heavy_child_exists (fun _ => Node.new [] []) chain51 (by decide) (by decide)

/-- C10 -/
theorem c10_entries_nonempty (t : SparseTree) :
    t.entries ≠ [] ∧ t.entries.length = t.size := by
  constructor
  · cases t with
    | mk n l r => simp [entries_mk]
  · exact entries_length t

theorem putList_cons_some (g : GetNodeFn) (t t₁ : SparseTree) (k v : Bytes)
    (rest : List (Bytes × Bytes)) (h : t.put g k v = Option.some t₁) :
    t.putList g ((k, v) :: rest) = t₁.putList g rest := by
  rw [SparseTree.putList, h]

theorem c4_step1 :
    (SparseTree.mk (Node.mk [48] [120] Option.none Option.none Option.none) OptTree.none OptTree.none).put (fun _ => Node.new [] []) [49] [120]
      = Option.some (SparseTree.mk (Node.mk [48] [120] Option.none Option.none (Option.some (Link.mk [49] (Hash.digest [49] [120] Hash.sentinel Hash.sentinel) 1))) OptTree.none (OptTree.some (SparseTree.mk (Node.mk [49] [120] (Option.some [48]) Option.none Option.none) OptTree.none OptTree.none))) := by
  rfl

theorem c4_step2 :
    (SparseTree.mk (Node.mk [48] [120] Option.none Option.none (Option.some (Link.mk [49] (Hash.digest [49] [120] Hash.sentinel Hash.sentinel) 1))) OptTree.none (OptTree.some (SparseTree.mk (Node.mk [49] [120] (Option.some [48]) Option.none Option.none) OptTree.none OptTree.none))).put (fun _ => Node.new [] []) [50] [120]
      = Option.some (SparseTree.mk (Node.mk [49] [120] Option.none (Option.some (Link.mk [48] (Hash.digest [48] [120] Hash.sentinel Hash.sentinel) 1)) (Option.some (Link.mk [50] (Hash.digest [50] [120] Hash.sentinel Hash.sentinel) 1))) (OptTree.some (SparseTree.mk (Node.mk [48] [120] (Option.some [49]) Option.none Option.none) OptTree.none OptTree.none)) (OptTree.some (SparseTree.mk (Node.mk [50] [120] (Option.some [49]) Option.none Option.none) OptTree.none OptTree.none))) := by
  rfl

theorem c4_step3 :
    (SparseTree.mk (Node.mk [49] [120] Option.none (Option.some (Link.mk [48] (Hash.digest [48] [120] Hash.sentinel Hash.sentinel) 1)) (Option.some (Link.mk [50] (Hash.digest [50] [120] Hash.sentinel Hash.sentinel) 1))) (OptTree.some (SparseTree.mk (Node.mk [48] [120] (Option.some [49]) Option.none Option.none) OptTree.none OptTree.none)) (OptTree.some (SparseTree.mk (Node.mk [50] [120] (Option.some [49]) Option.none Option.none) OptTree.none OptTree.none))).put (fun _ => Node.new [] []) [51] [120]
      = Option.some (SparseTree.mk (Node.mk [49] [120] Option.none (Option.some (Link.mk [48] (Hash.digest [48] [120] Hash.sentinel Hash.sentinel) 1)) (Option.some (Link.mk [50] (Hash.digest [50] [120] Hash.sentinel (Hash.digest [51] [120] Hash.sentinel Hash.sentinel)) 2))) (OptTree.some (SparseTree.mk (Node.mk [48] [120] (Option.some [49]) Option.none Option.none) OptTree.none OptTree.none)) (OptTree.some (SparseTree.mk (Node.mk [50] [120] (Option.some [49]) Option.none (Option.some (Link.mk [51] (Hash.digest [51] [120] Hash.sentinel Hash.sentinel) 1))) OptTree.none (OptTree.some (SparseTree.mk (Node.mk [51] [120] (Option.some [50]) Option.none Option.none) OptTree.none OptTree.none))))) := by
  rfl

theorem c4_step4 :
    (SparseTree.mk (Node.mk [49] [120] Option.none (Option.some (Link.mk [48] (Hash.digest [48] [120] Hash.sentinel Hash.sentinel) 1)) (Option.some (Link.mk [50] (Hash.digest [50] [120] Hash.sentinel (Hash.digest [51] [120] Hash.sentinel Hash.sentinel)) 2))) (OptTree.some (SparseTree.mk (Node.mk [48] [120] (Option.some [49]) Option.none Option.none) OptTree.none OptTree.none)) (OptTree.some (SparseTree.mk (Node.mk [50] [120] (Option.some [49]) Option.none (Option.some (Link.mk [51] (Hash.digest [51] [120] Hash.sentinel Hash.sentinel) 1))) OptTree.none (OptTree.some (SparseTree.mk (Node.mk [51] [120] (Option.some [50]) Option.none Option.none) OptTree.none OptTree.none))))).put (fun _ => Node.new [] []) [52] [120]
      = Option.some (SparseTree.mk (Node.mk [49] [120] Option.none (Option.some (Link.mk [48] (Hash.digest [48] [120] Hash.sentinel Hash.sentinel) 1)) (Option.some (Link.mk [51] (Hash.digest [51] [120] (Hash.digest [50] [120] Hash.sentinel Hash.sentinel) (Hash.digest [52] [120] Hash.sentinel Hash.sentinel)) 2))) (OptTree.some (SparseTree.mk (Node.mk [48] [120] (Option.some [49]) Option.none Option.none) OptTree.none OptTree.none)) (OptTree.some (SparseTree.mk (Node.mk [51] [120] (Option.some [49]) (Option.some (Link.mk [50] (Hash.digest [50] [120] Hash.sentinel Hash.sentinel) 1)) (Option.some (Link.mk [52] (Hash.digest [52] [120] Hash.sentinel Hash.sentinel) 1))) (OptTree.some (SparseTree.mk (Node.mk [50] [120] (Option.some [51]) Option.none Option.none) OptTree.none OptTree.none)) (OptTree.some (SparseTree.mk (Node.mk [52] [120] (Option.some [51]) Option.none Option.none) OptTree.none OptTree.none))))) := by
  rfl

theorem c4_step5 :
    (SparseTree.mk (Node.mk [49] [120] Option.none (Option.some (Link.mk [48] (Hash.digest [48] [120] Hash.sentinel Hash.sentinel) 1)) (Option.some (Link.mk [51] (Hash.digest [51] [120] (Hash.digest [50] [120] Hash.sentinel Hash.sentinel) (Hash.digest [52] [120] Hash.sentinel Hash.sentinel)) 2))) (OptTree.some (SparseTree.mk (Node.mk [48] [120] (Option.some [49]) Option.none Option.none) OptTree.none OptTree.none)) (OptTree.some (SparseTree.mk (Node.mk [51] [120] (Option.some [49]) (Option.some (Link.mk [50] (Hash.digest [50] [120] Hash.sentinel Hash.sentinel) 1)) (Option.some (Link.mk [52] (Hash.digest [52] [120] Hash.sentinel Hash.sentinel) 1))) (OptTree.some (SparseTree.mk (Node.mk [50] [120] (Option.some [51]) Option.none Option.none) OptTree.none OptTree.none)) (OptTree.some (SparseTree.mk (Node.mk [52] [120] (Option.some [51]) Option.none Option.none) OptTree.none OptTree.none))))).put (fun _ => Node.new [] []) [53] [120]
      = Option.some (SparseTree.mk (Node.mk [51] [120] Option.none (Option.some (Link.mk [49] (Hash.digest [49] [120] (Hash.digest [48] [120] Hash.sentinel Hash.sentinel) (Hash.digest [50] [120] Hash.sentinel Hash.sentinel)) 2)) (Option.some (Link.mk [52] (Hash.digest [52] [120] Hash.sentinel (Hash.digest [53] [120] Hash.sentinel Hash.sentinel)) 2))) (OptTree.some (SparseTree.mk (Node.mk [49] [120] (Option.some [51]) (Option.some (Link.mk [48] (Hash.digest [48] [120] Hash.sentinel Hash.sentinel) 1)) (Option.some (Link.mk [50] (Hash.digest [50] [120] Hash.sentinel Hash.sentinel) 1))) (OptTree.some (SparseTree.mk (Node.mk [48] [120] (Option.some [49]) Option.none Option.none) OptTree.none OptTree.none)) (OptTree.some (SparseTree.mk (Node.mk [50] [120] (Option.some [49]) Option.none Option.none) OptTree.none OptTree.none)))) (OptTree.some (SparseTree.mk (Node.mk [52] [120] (Option.some [51]) Option.none (Option.some (Link.mk [53] (Hash.digest [53] [120] Hash.sentinel Hash.sentinel) 1))) OptTree.none (OptTree.some (SparseTree.mk (Node.mk [53] [120] (Option.some [52]) Option.none Option.none) OptTree.none OptTree.none))))) := by
  rfl

theorem c4_step6 :
    (SparseTree.mk (Node.mk [51] [120] Option.none (Option.some (Link.mk [49] (Hash.digest [49] [120] (Hash.digest [48] [120] Hash.sentinel Hash.sentinel) (Hash.digest [50] [120] Hash.sentinel Hash.sentinel)) 2)) (Option.some (Link.mk [52] (Hash.digest [52] [120] Hash.sentinel (Hash.digest [53] [120] Hash.sentinel Hash.sentinel)) 2))) (OptTree.some (SparseTree.mk (Node.mk [49] [120] (Option.some [51]) (Option.some (Link.mk [48] (Hash.digest [48] [120] Hash.sentinel Hash.sentinel) 1)) (Option.some (Link.mk [50] (Hash.digest [50] [120] Hash.sentinel Hash.sentinel) 1))) (OptTree.some (SparseTree.mk (Node.mk [48] [120] (Option.some [49]) Option.none Option.none) OptTree.none OptTree.none)) (OptTree.some (SparseTree.mk (Node.mk [50] [120] (Option.some [49]) Option.none Option.none) OptTree.none OptTree.none)))) (OptTree.some (SparseTree.mk (Node.mk [52] [120] (Option.some [51]) Option.none (Option.some (Link.mk [53] (Hash.digest [53] [120] Hash.sentinel Hash.sentinel) 1))) OptTree.none (OptTree.some (SparseTree.mk (Node.mk [53] [120] (Option.some [52]) Option.none Option.none) OptTree.none OptTree.none))))).put (fun _ => Node.new [] []) [54] [120]
      = Option.some (SparseTree.mk (Node.mk [51] [120] Option.none (Option.some (Link.mk [49] (Hash.digest [49] [120] (Hash.digest [48] [120] Hash.sentinel Hash.sentinel) (Hash.digest [50] [120] Hash.sentinel Hash.sentinel)) 2)) (Option.some (Link.mk [53] (Hash.digest [53] [120] (Hash.digest [52] [120] Hash.sentinel Hash.sentinel) (Hash.digest [54] [120] Hash.sentinel Hash.sentinel)) 2))) (OptTree.some (SparseTree.mk (Node.mk [49] [120] (Option.some [51]) (Option.some (Link.mk [48] (Hash.digest [48] [120] Hash.sentinel Hash.sentinel) 1)) (Option.some (Link.mk [50] (Hash.digest [50] [120] Hash.sentinel Hash.sentinel) 1))) (OptTree.some (SparseTree.mk (Node.mk [48] [120] (Option.some [49]) Option.none Option.none) OptTree.none OptTree.none)) (OptTree.some (SparseTree.mk (Node.mk [50] [120] (Option.some [49]) Option.none Option.none) OptTree.none OptTree.none)))) (OptTree.some (SparseTree.mk (Node.mk [53] [120] (Option.some [51]) (Option.some (Link.mk [52] (Hash.digest [52] [120] Hash.sentinel Hash.sentinel) 1)) (Option.some (Link.mk [54] (Hash.digest [54] [120] Hash.sentinel Hash.sentinel) 1))) (OptTree.some (SparseTree.mk (Node.mk [52] [120] (Option.some [53]) Option.none Option.none) OptTree.none OptTree.none)) (OptTree.some (SparseTree.mk (Node.mk [54] [120] (Option.some [53]) Option.none Option.none) OptTree.none OptTree.none))))) := by
  rfl

theorem c4_step7 :
    (SparseTree.mk (Node.mk [51] [120] Option.none (Option.some (Link.mk [49] (Hash.digest [49] [120] (Hash.digest [48] [120] Hash.sentinel Hash.sentinel) (Hash.digest [50] [120] Hash.sentinel Hash.sentinel)) 2)) (Option.some (Link.mk [53] (Hash.digest [53] [120] (Hash.digest [52] [120] Hash.sentinel Hash.sentinel) (Hash.digest [54] [120] Hash.sentinel Hash.sentinel)) 2))) (OptTree.some (SparseTree.mk (Node.mk [49] [120] (Option.some [51]) (Option.some (Link.mk [48] (Hash.digest [48] [120] Hash.sentinel Hash.sentinel) 1)) (Option.some (Link.mk [50] (Hash.digest [50] [120] Hash.sentinel Hash.sentinel) 1))) (OptTree.some (SparseTree.mk (Node.mk [48] [120] (Option.some [49]) Option.none Option.none) OptTree.none OptTree.none)) (OptTree.some (SparseTree.mk (Node.mk [50] [120] (Option.some [49]) Option.none Option.none) OptTree.none OptTree.none)))) (OptTree.some (SparseTree.mk (Node.mk [53] [120] (Option.some [51]) (Option.some (Link.mk [52] (Hash.digest [52] [120] Hash.sentinel Hash.sentinel) 1)) (Option.some (Link.mk [54] (Hash.digest [54] [120] Hash.sentinel Hash.sentinel) 1))) (OptTree.some (SparseTree.mk (Node.mk [52] [120] (Option.some [53]) Option.none Option.none) OptTree.none OptTree.none)) (OptTree.some (SparseTree.mk (Node.mk [54] [120] (Option.some [53]) Option.none Option.none) OptTree.none OptTree.none))))).put (fun _ => Node.new [] []) [55] [120]
      = Option.some (SparseTree.mk (Node.mk [51] [120] Option.none (Option.some (Link.mk [49] (Hash.digest [49] [120] (Hash.digest [48] [120] Hash.sentinel Hash.sentinel) (Hash.digest [50] [120] Hash.sentinel Hash.sentinel)) 2)) (Option.some (Link.mk [53] (Hash.digest [53] [120] (Hash.digest [52] [120] Hash.sentinel Hash.sentinel) (Hash.digest [54] [120] Hash.sentinel (Hash.digest [55] [120] Hash.sentinel Hash.sentinel))) 3))) (OptTree.some (SparseTree.mk (Node.mk [49] [120] (Option.some [51]) (Option.some (Link.mk [48] (Hash.digest [48] [120] Hash.sentinel Hash.sentinel) 1)) (Option.some (Link.mk [50] (Hash.digest [50] [120] Hash.sentinel Hash.sentinel) 1))) (OptTree.some (SparseTree.mk (Node.mk [48] [120] (Option.some [49]) Option.none Option.none) OptTree.none OptTree.none)) (OptTree.some (SparseTree.mk (Node.mk [50] [120] (Option.some [49]) Option.none Option.none) OptTree.none OptTree.none)))) (OptTree.some (SparseTree.mk (Node.mk [53] [120] (Option.some [51]) (Option.some (Link.mk [52] (Hash.digest [52] [120] Hash.sentinel Hash.sentinel) 1)) (Option.some (Link.mk [54] (Hash.digest [54] [120] Hash.sentinel (Hash.digest [55] [120] Hash.sentinel Hash.sentinel)) 2))) (OptTree.some (SparseTree.mk (Node.mk [52] [120] (Option.some [53]) Option.none Option.none) OptTree.none OptTree.none)) (OptTree.some (SparseTree.mk (Node.mk [54] [120] (Option.some [53]) Option.none (Option.some (Link.mk [55] (Hash.digest [55] [120] Hash.sentinel Hash.sentinel) 1))) OptTree.none (OptTree.some (SparseTree.mk (Node.mk [55] [120] (Option.some [54]) Option.none Option.none) OptTree.none OptTree.none))))))) := by
  rfl

theorem c4_step8 :
    (SparseTree.mk (Node.mk [51] [120] Option.none (Option.some (Link.mk [49] (Hash.digest [49] [120] (Hash.digest [48] [120] Hash.sentinel Hash.sentinel) (Hash.digest [50] [120] Hash.sentinel Hash.sentinel)) 2)) (Option.some (Link.mk [53] (Hash.digest [53] [120] (Hash.digest [52] [120] Hash.sentinel Hash.sentinel) (Hash.digest [54] [120] Hash.sentinel (Hash.digest [55] [120] Hash.sentinel Hash.sentinel))) 3))) (OptTree.some (SparseTree.mk (Node.mk [49] [120] (Option.some [51]) (Option.some (Link.mk [48] (Hash.digest [48] [120] Hash.sentinel Hash.sentinel) 1)) (Option.some (Link.mk [50] (Hash.digest [50] [120] Hash.sentinel Hash.sentinel) 1))) (OptTree.some (SparseTree.mk (Node.mk [48] [120] (Option.some [49]) Option.none Option.none) OptTree.none OptTree.none)) (OptTree.some (SparseTree.mk (Node.mk [50] [120] (Option.some [49]) Option.none Option.none) OptTree.none OptTree.none)))) (OptTree.some (SparseTree.mk (Node.mk [53] [120] (Option.some [51]) (Option.some (Link.mk [52] (Hash.digest [52] [120] Hash.sentinel Hash.sentinel) 1)) (Option.some (Link.mk [54] (Hash.digest [54] [120] Hash.sentinel (Hash.digest [55] [120] Hash.sentinel Hash.sentinel)) 2))) (OptTree.some (SparseTree.mk (Node.mk [52] [120] (Option.some [53]) Option.none Option.none) OptTree.none OptTree.none)) (OptTree.some (SparseTree.mk (Node.mk [54] [120] (Option.some [53]) Option.none (Option.some (Link.mk [55] (Hash.digest [55] [120] Hash.sentinel Hash.sentinel) 1))) OptTree.none (OptTree.some (SparseTree.mk (Node.mk [55] [120] (Option.some [54]) Option.none Option.none) OptTree.none OptTree.none))))))).put (fun _ => Node.new [] []) [56] [120]
      = Option.some (SparseTree.mk (Node.mk [51] [120] Option.none (Option.some (Link.mk [49] (Hash.digest [49] [120] (Hash.digest [48] [120] Hash.sentinel Hash.sentinel) (Hash.digest [50] [120] Hash.sentinel Hash.sentinel)) 2)) (Option.some (Link.mk [53] (Hash.digest [53] [120] (Hash.digest [52] [120] Hash.sentinel Hash.sentinel) (Hash.digest [55] [120] (Hash.digest [54] [120] Hash.sentinel Hash.sentinel) (Hash.digest [56] [120] Hash.sentinel Hash.sentinel))) 3))) (OptTree.some (SparseTree.mk (Node.mk [49] [120] (Option.some [51]) (Option.some (Link.mk [48] (Hash.digest [48] [120] Hash.sentinel Hash.sentinel) 1)) (Option.some (Link.mk [50] (Hash.digest [50] [120] Hash.sentinel Hash.sentinel) 1))) (OptTree.some (SparseTree.mk (Node.mk [48] [120] (Option.some [49]) Option.none Option.none) OptTree.none OptTree.none)) (OptTree.some (SparseTree.mk (Node.mk [50] [120] (Option.some [49]) Option.none Option.none) OptTree.none OptTree.none)))) (OptTree.some (SparseTree.mk (Node.mk [53] [120] (Option.some [51]) (Option.some (Link.mk [52] (Hash.digest [52] [120] Hash.sentinel Hash.sentinel) 1)) (Option.some (Link.mk [55] (Hash.digest [55] [120] (Hash.digest [54] [120] Hash.sentinel Hash.sentinel) (Hash.digest [56] [120] Hash.sentinel Hash.sentinel)) 2))) (OptTree.some (SparseTree.mk (Node.mk [52] [120] (Option.some [53]) Option.none Option.none) OptTree.none OptTree.none)) (OptTree.some (SparseTree.mk (Node.mk [55] [120] (Option.some [53]) (Option.some (Link.mk [54] (Hash.digest [54] [120] Hash.sentinel Hash.sentinel) 1)) (Option.some (Link.mk [56] (Hash.digest [56] [120] Hash.sentinel Hash.sentinel) 1))) (OptTree.some (SparseTree.mk (Node.mk [54] [120] (Option.some [55]) Option.none Option.none) OptTree.none OptTree.none)) (OptTree.some (SparseTree.mk (Node.mk [56] [120] (Option.some [55]) Option.none Option.none) OptTree.none OptTree.none))))))) := by
  rfl

theorem c4_step9 :
    (SparseTree.mk (Node.mk [51] [120] Option.none (Option.some (Link.mk [49] (Hash.digest [49] [120] (Hash.digest [48] [120] Hash.sentinel Hash.sentinel) (Hash.digest [50] [120] Hash.sentinel Hash.sentinel)) 2)) (Option.some (Link.mk [53] (Hash.digest [53] [120] (Hash.digest [52] [120] Hash.sentinel Hash.sentinel) (Hash.digest [55] [120] (Hash.digest [54] [120] Hash.sentinel Hash.sentinel) (Hash.digest [56] [120] Hash.sentinel Hash.sentinel))) 3))) (OptTree.some (SparseTree.mk (Node.mk [49] [120] (Option.some [51]) (Option.some (Link.mk [48] (Hash.digest [48] [120] Hash.sentinel Hash.sentinel) 1)) (Option.some (Link.mk [50] (Hash.digest [50] [120] Hash.sentinel Hash.sentinel) 1))) (OptTree.some (SparseTree.mk (Node.mk [48] [120] (Option.some [49]) Option.none Option.none) OptTree.none OptTree.none)) (OptTree.some (SparseTree.mk (Node.mk [50] [120] (Option.some [49]) Option.none Option.none) OptTree.none OptTree.none)))) (OptTree.some (SparseTree.mk (Node.mk [53] [120] (Option.some [51]) (Option.some (Link.mk [52] (Hash.digest [52] [120] Hash.sentinel Hash.sentinel) 1)) (Option.some (Link.mk [55] (Hash.digest [55] [120] (Hash.digest [54] [120] Hash.sentinel Hash.sentinel) (Hash.digest [56] [120] Hash.sentinel Hash.sentinel)) 2))) (OptTree.some (SparseTree.mk (Node.mk [52] [120] (Option.some [53]) Option.none Option.none) OptTree.none OptTree.none)) (OptTree.some (SparseTree.mk (Node.mk [55] [120] (Option.some [53]) (Option.some (Link.mk [54] (Hash.digest [54] [120] Hash.sentinel Hash.sentinel) 1)) (Option.some (Link.mk [56] (Hash.digest [56] [120] Hash.sentinel Hash.sentinel) 1))) (OptTree.some (SparseTree.mk (Node.mk [54] [120] (Option.some [55]) Option.none Option.none) OptTree.none OptTree.none)) (OptTree.some (SparseTree.mk (Node.mk [56] [120] (Option.some [55]) Option.none Option.none) OptTree.none OptTree.none))))))).put (fun _ => Node.new [] []) [57] [120]
      = Option.some (SparseTree.mk (Node.mk [51] [120] Option.none (Option.some (Link.mk [49] (Hash.digest [49] [120] (Hash.digest [48] [120] Hash.sentinel Hash.sentinel) (Hash.digest [50] [120] Hash.sentinel Hash.sentinel)) 2)) (Option.some (Link.mk [55] (Hash.digest [55] [120] (Hash.digest [53] [120] (Hash.digest [52] [120] Hash.sentinel Hash.sentinel) (Hash.digest [54] [120] Hash.sentinel Hash.sentinel)) (Hash.digest [56] [120] Hash.sentinel (Hash.digest [57] [120] Hash.sentinel Hash.sentinel))) 3))) (OptTree.some (SparseTree.mk (Node.mk [49] [120] (Option.some [51]) (Option.some (Link.mk [48] (Hash.digest [48] [120] Hash.sentinel Hash.sentinel) 1)) (Option.some (Link.mk [50] (Hash.digest [50] [120] Hash.sentinel Hash.sentinel) 1))) (OptTree.some (SparseTree.mk (Node.mk [48] [120] (Option.some [49]) Option.none Option.none) OptTree.none OptTree.none)) (OptTree.some (SparseTree.mk (Node.mk [50] [120] (Option.some [49]) Option.none Option.none) OptTree.none OptTree.none)))) (OptTree.some (SparseTree.mk (Node.mk [55] [120] (Option.some [51]) (Option.some (Link.mk [53] (Hash.digest [53] [120] (Hash.digest [52] [120] Hash.sentinel Hash.sentinel) (Hash.digest [54] [120] Hash.sentinel Hash.sentinel)) 2)) (Option.some (Link.mk [56] (Hash.digest [56] [120] Hash.sentinel (Hash.digest [57] [120] Hash.sentinel Hash.sentinel)) 2))) (OptTree.some (SparseTree.mk (Node.mk [53] [120] (Option.some [55]) (Option.some (Link.mk [52] (Hash.digest [52] [120] Hash.sentinel Hash.sentinel) 1)) (Option.some (Link.mk [54] (Hash.digest [54] [120] Hash.sentinel Hash.sentinel) 1))) (OptTree.some (SparseTree.mk (Node.mk [52] [120] (Option.some [53]) Option.none Option.none) OptTree.none OptTree.none)) (OptTree.some (SparseTree.mk (Node.mk [54] [120] (Option.some [53]) Option.none Option.none) OptTree.none OptTree.none)))) (OptTree.some (SparseTree.mk (Node.mk [56] [120] (Option.some [55]) Option.none (Option.some (Link.mk [57] (Hash.digest [57] [120] Hash.sentinel Hash.sentinel) 1))) OptTree.none (OptTree.some (SparseTree.mk (Node.mk [57] [120] (Option.some [56]) Option.none Option.none) OptTree.none OptTree.none))))))) := by
  rfl

theorem c4_step10 :
    (SparseTree.mk (Node.mk [51] [120] Option.none (Option.some (Link.mk [49] (Hash.digest [49] [120] (Hash.digest [48] [120] Hash.sentinel Hash.sentinel) (Hash.digest [50] [120] Hash.sentinel Hash.sentinel)) 2)) (Option.some (Link.mk [55] (Hash.digest [55] [120] (Hash.digest [53] [120] (Hash.digest [52] [120] Hash.sentinel Hash.sentinel) (Hash.digest [54] [120] Hash.sentinel Hash.sentinel)) (Hash.digest [56] [120] Hash.sentinel (Hash.digest [57] [120] Hash.sentinel Hash.sentinel))) 3))) (OptTree.some (SparseTree.mk (Node.mk [49] [120] (Option.some [51]) (Option.some (Link.mk [48] (Hash.digest [48] [120] Hash.sentinel Hash.sentinel) 1)) (Option.some (Link.mk [50] (Hash.digest [50] [120] Hash.sentinel Hash.sentinel) 1))) (OptTree.some (SparseTree.mk (Node.mk [48] [120] (Option.some [49]) Option.none Option.none) OptTree.none OptTree.none)) (OptTree.some (SparseTree.mk (Node.mk [50] [120] (Option.some [49]) Option.none Option.none) OptTree.none OptTree.none)))) (OptTree.some (SparseTree.mk (Node.mk [55] [120] (Option.some [51]) (Option.some (Link.mk [53] (Hash.digest [53] [120] (Hash.digest [52] [120] Hash.sentinel Hash.sentinel) (Hash.digest [54] [120] Hash.sentinel Hash.sentinel)) 2)) (Option.some (Link.mk [56] (Hash.digest [56] [120] Hash.sentinel (Hash.digest [57] [120] Hash.sentinel Hash.sentinel)) 2))) (OptTree.some (SparseTree.mk (Node.mk [53] [120] (Option.some [55]) (Option.some (Link.mk [52] (Hash.digest [52] [120] Hash.sentinel Hash.sentinel) 1)) (Option.some (Link.mk [54] (Hash.digest [54] [120] Hash.sentinel Hash.sentinel) 1))) (OptTree.some (SparseTree.mk (Node.mk [52] [120] (Option.some [53]) Option.none Option.none) OptTree.none OptTree.none)) (OptTree.some (SparseTree.mk (Node.mk [54] [120] (Option.some [53]) Option.none Option.none) OptTree.none OptTree.none)))) (OptTree.some (SparseTree.mk (Node.mk [56] [120] (Option.some [55]) Option.none (Option.some (Link.mk [57] (Hash.digest [57] [120] Hash.sentinel Hash.sentinel) 1))) OptTree.none (OptTree.some (SparseTree.mk (Node.mk [57] [120] (Option.some [56]) Option.none Option.none) OptTree.none OptTree.none))))))).put (fun _ => Node.new [] []) [49, 48] [120]
      = Option.some (SparseTree.mk (Node.mk [51] [120] Option.none (Option.some (Link.mk [49] (Hash.digest [49] [120] (Hash.digest [48] [120] Hash.sentinel Hash.sentinel) (Hash.digest [50] [120] (Hash.digest [49, 48] [120] Hash.sentinel Hash.sentinel) Hash.sentinel)) 3)) (Option.some (Link.mk [55] (Hash.digest [55] [120] (Hash.digest [53] [120] (Hash.digest [52] [120] Hash.sentinel Hash.sentinel) (Hash.digest [54] [120] Hash.sentinel Hash.sentinel)) (Hash.digest [56] [120] Hash.sentinel (Hash.digest [57] [120] Hash.sentinel Hash.sentinel))) 3))) (OptTree.some (SparseTree.mk (Node.mk [49] [120] (Option.some [51]) (Option.some (Link.mk [48] (Hash.digest [48] [120] Hash.sentinel Hash.sentinel) 1)) (Option.some (Link.mk [50] (Hash.digest [50] [120] (Hash.digest [49, 48] [120] Hash.sentinel Hash.sentinel) Hash.sentinel) 2))) (OptTree.some (SparseTree.mk (Node.mk [48] [120] (Option.some [49]) Option.none Option.none) OptTree.none OptTree.none)) (OptTree.some (SparseTree.mk (Node.mk [50] [120] (Option.some [49]) (Option.some (Link.mk [49, 48] (Hash.digest [49, 48] [120] Hash.sentinel Hash.sentinel) 1)) Option.none) (OptTree.some (SparseTree.mk (Node.mk [49, 48] [120] (Option.some [50]) Option.none Option.none) OptTree.none OptTree.none)) OptTree.none)))) (OptTree.some (SparseTree.mk (Node.mk [55] [120] (Option.some [51]) (Option.some (Link.mk [53] (Hash.digest [53] [120] (Hash.digest [52] [120] Hash.sentinel Hash.sentinel) (Hash.digest [54] [120] Hash.sentinel Hash.sentinel)) 2)) (Option.some (Link.mk [56] (Hash.digest [56] [120] Hash.sentinel (Hash.digest [57] [120] Hash.sentinel Hash.sentinel)) 2))) (OptTree.some (SparseTree.mk (Node.mk [53] [120] (Option.some [55]) (Option.some (Link.mk [52] (Hash.digest [52] [120] Hash.sentinel Hash.sentinel) 1)) (Option.some (Link.mk [54] (Hash.digest [54] [120] Hash.sentinel Hash.sentinel) 1))) (OptTree.some (SparseTree.mk (Node.mk [52] [120] (Option.some [53]) Option.none Option.none) OptTree.none OptTree.none)) (OptTree.some (SparseTree.mk (Node.mk [54] [120] (Option.some [53]) Option.none Option.none) OptTree.none OptTree.none)))) (OptTree.some (SparseTree.mk (Node.mk [56] [120] (Option.some [55]) Option.none (Option.some (Link.mk [57] (Hash.digest [57] [120] Hash.sentinel Hash.sentinel) 1))) OptTree.none (OptTree.some (SparseTree.mk (Node.mk [57] [120] (Option.some [56]) Option.none Option.none) OptTree.none OptTree.none))))))) := by
  rfl

theorem c4_step11 :
    (SparseTree.mk (Node.mk [51] [120] Option.none (Option.some (Link.mk [49] (Hash.digest [49] [120] (Hash.digest [48] [120] Hash.sentinel Hash.sentinel) (Hash.digest [50] [120] (Hash.digest [49, 48] [120] Hash.sentinel Hash.sentinel) Hash.sentinel)) 3)) (Option.some (Link.mk [55] (Hash.digest [55] [120] (Hash.digest [53] [120] (Hash.digest [52] [120] Hash.sentinel Hash.sentinel) (Hash.digest [54] [120] Hash.sentinel Hash.sentinel)) (Hash.digest [56] [120] Hash.sentinel (Hash.digest [57] [120] Hash.sentinel Hash.sentinel))) 3))) (OptTree.some (SparseTree.mk (Node.mk [49] [120] (Option.some [51]) (Option.some (Link.mk [48] (Hash.digest [48] [120] Hash.sentinel Hash.sentinel) 1)) (Option.some (Link.mk [50] (Hash.digest [50] [120] (Hash.digest [49, 48] [120] Hash.sentinel Hash.sentinel) Hash.sentinel) 2))) (OptTree.some (SparseTree.mk (Node.mk [48] [120] (Option.some [49]) Option.none Option.none) OptTree.none OptTree.none)) (OptTree.some (SparseTree.mk (Node.mk [50] [120] (Option.some [49]) (Option.some (Link.mk [49, 48] (Hash.digest [49, 48] [120] Hash.sentinel Hash.sentinel) 1)) Option.none) (OptTree.some (SparseTree.mk (Node.mk [49, 48] [120] (Option.some [50]) Option.none Option.none) OptTree.none OptTree.none)) OptTree.none)))) (OptTree.some (SparseTree.mk (Node.mk [55] [120] (Option.some [51]) (Option.some (Link.mk [53] (Hash.digest [53] [120] (Hash.digest [52] [120] Hash.sentinel Hash.sentinel) (Hash.digest [54] [120] Hash.sentinel Hash.sentinel)) 2)) (Option.some (Link.mk [56] (Hash.digest [56] [120] Hash.sentinel (Hash.digest [57] [120] Hash.sentinel Hash.sentinel)) 2))) (OptTree.some (SparseTree.mk (Node.mk [53] [120] (Option.some [55]) (Option.some (Link.mk [52] (Hash.digest [52] [120] Hash.sentinel Hash.sentinel) 1)) (Option.some (Link.mk [54] (Hash.digest [54] [120] Hash.sentinel Hash.sentinel) 1))) (OptTree.some (SparseTree.mk (Node.mk [52] [120] (Option.some [53]) Option.none Option.none) OptTree.none OptTree.none)) (OptTree.some (SparseTree.mk (Node.mk [54] [120] (Option.some [53]) Option.none Option.none) OptTree.none OptTree.none)))) (OptTree.some (SparseTree.mk (Node.mk [56] [120] (Option.some [55]) Option.none (Option.some (Link.mk [57] (Hash.digest [57] [120] Hash.sentinel Hash.sentinel) 1))) OptTree.none (OptTree.some (SparseTree.mk (Node.mk [57] [120] (Option.some [56]) Option.none Option.none) OptTree.none OptTree.none))))))).put (fun _ => Node.new [] []) [49, 49] [120]
      = Option.some (SparseTree.mk (Node.mk [51] [120] Option.none (Option.some (Link.mk [49] (Hash.digest [49] [120] (Hash.digest [48] [120] Hash.sentinel Hash.sentinel) (Hash.digest [49, 49] [120] (Hash.digest [49, 48] [120] Hash.sentinel Hash.sentinel) (Hash.digest [50] [120] Hash.sentinel Hash.sentinel))) 3)) (Option.some (Link.mk [55] (Hash.digest [55] [120] (Hash.digest [53] [120] (Hash.digest [52] [120] Hash.sentinel Hash.sentinel) (Hash.digest [54] [120] Hash.sentinel Hash.sentinel)) (Hash.digest [56] [120] Hash.sentinel (Hash.digest [57] [120] Hash.sentinel Hash.sentinel))) 3))) (OptTree.some (SparseTree.mk (Node.mk [49] [120] (Option.some [51]) (Option.some (Link.mk [48] (Hash.digest [48] [120] Hash.sentinel Hash.sentinel) 1)) (Option.some (Link.mk [49, 49] (Hash.digest [49, 49] [120] (Hash.digest [49, 48] [120] Hash.sentinel Hash.sentinel) (Hash.digest [50] [120] Hash.sentinel Hash.sentinel)) 2))) (OptTree.some (SparseTree.mk (Node.mk [48] [120] (Option.some [49]) Option.none Option.none) OptTree.none OptTree.none)) (OptTree.some (SparseTree.mk (Node.mk [49, 49] [120] (Option.some [49]) (Option.some (Link.mk [49, 48] (Hash.digest [49, 48] [120] Hash.sentinel Hash.sentinel) 1)) (Option.some (Link.mk [50] (Hash.digest [50] [120] Hash.sentinel Hash.sentinel) 1))) (OptTree.some (SparseTree.mk (Node.mk [49, 48] [120] (Option.some [49, 49]) Option.none Option.none) OptTree.none OptTree.none)) (OptTree.some (SparseTree.mk (Node.mk [50] [120] (Option.some [49, 49]) Option.none Option.none) OptTree.none OptTree.none)))))) (OptTree.some (SparseTree.mk (Node.mk [55] [120] (Option.some [51]) (Option.some (Link.mk [53] (Hash.digest [53] [120] (Hash.digest [52] [120] Hash.sentinel Hash.sentinel) (Hash.digest [54] [120] Hash.sentinel Hash.sentinel)) 2)) (Option.some (Link.mk [56] (Hash.digest [56] [120] Hash.sentinel (Hash.digest [57] [120] Hash.sentinel Hash.sentinel)) 2))) (OptTree.some (SparseTree.mk (Node.mk [53] [120] (Option.some [55]) (Option.some (Link.mk [52] (Hash.digest [52] [120] Hash.sentinel Hash.sentinel) 1)) (Option.some (Link.mk [54] (Hash.digest [54] [120] Hash.sentinel Hash.sentinel) 1))) (OptTree.some (SparseTree.mk (Node.mk [52] [120] (Option.some [53]) Option.none Option.none) OptTree.none OptTree.none)) (OptTree.some (SparseTree.mk (Node.mk [54] [120] (Option.some [53]) Option.none Option.none) OptTree.none OptTree.none)))) (OptTree.some (SparseTree.mk (Node.mk [56] [120] (Option.some [55]) Option.none (Option.some (Link.mk [57] (Hash.digest [57] [120] Hash.sentinel Hash.sentinel) 1))) OptTree.none (OptTree.some (SparseTree.mk (Node.mk [57] [120] (Option.some [56]) Option.none Option.none) OptTree.none OptTree.none))))))) := by
  rfl

theorem c4_step12 :
    (SparseTree.mk (Node.mk [51] [120] Option.none (Option.some (Link.mk [49] (Hash.digest [49] [120] (Hash.digest [48] [120] Hash.sentinel Hash.sentinel) (Hash.digest [49, 49] [120] (Hash.digest [49, 48] [120] Hash.sentinel Hash.sentinel) (Hash.digest [50] [120] Hash.sentinel Hash.sentinel))) 3)) (Option.some (Link.mk [55] (Hash.digest [55] [120] (Hash.digest [53] [120] (Hash.digest [52] [120] Hash.sentinel Hash.sentinel) (Hash.digest [54] [120] Hash.sentinel Hash.sentinel)) (Hash.digest [56] [120] Hash.sentinel (Hash.digest [57] [120] Hash.sentinel Hash.sentinel))) 3))) (OptTree.some (SparseTree.mk (Node.mk [49] [120] (Option.some [51]) (Option.some (Link.mk [48] (Hash.digest [48] [120] Hash.sentinel Hash.sentinel) 1)) (Option.some (Link.mk [49, 49] (Hash.digest [49, 49] [120] (Hash.digest [49, 48] [120] Hash.sentinel Hash.sentinel) (Hash.digest [50] [120] Hash.sentinel Hash.sentinel)) 2))) (OptTree.some (SparseTree.mk (Node.mk [48] [120] (Option.some [49]) Option.none Option.none) OptTree.none OptTree.none)) (OptTree.some (SparseTree.mk (Node.mk [49, 49] [120] (Option.some [49]) (Option.some (Link.mk [49, 48] (Hash.digest [49, 48] [120] Hash.sentinel Hash.sentinel) 1)) (Option.some (Link.mk [50] (Hash.digest [50] [120] Hash.sentinel Hash.sentinel) 1))) (OptTree.some (SparseTree.mk (Node.mk [49, 48] [120] (Option.some [49, 49]) Option.none Option.none) OptTree.none OptTree.none)) (OptTree.some (SparseTree.mk (Node.mk [50] [120] (Option.some [49, 49]) Option.none Option.none) OptTree.none OptTree.none)))))) (OptTree.some (SparseTree.mk (Node.mk [55] [120] (Option.some [51]) (Option.some (Link.mk [53] (Hash.digest [53] [120] (Hash.digest [52] [120] Hash.sentinel Hash.sentinel) (Hash.digest [54] [120] Hash.sentinel Hash.sentinel)) 2)) (Option.some (Link.mk [56] (Hash.digest [56] [120] Hash.sentinel (Hash.digest [57] [120] Hash.sentinel Hash.sentinel)) 2))) (OptTree.some (SparseTree.mk (Node.mk [53] [120] (Option.some [55]) (Option.some (Link.mk [52] (Hash.digest [52] [120] Hash.sentinel Hash.sentinel) 1)) (Option.some (Link.mk [54] (Hash.digest [54] [120] Hash.sentinel Hash.sentinel) 1))) (OptTree.some (SparseTree.mk (Node.mk [52] [120] (Option.some [53]) Option.none Option.none) OptTree.none OptTree.none)) (OptTree.some (SparseTree.mk (Node.mk [54] [120] (Option.some [53]) Option.none Option.none) OptTree.none OptTree.none)))) (OptTree.some (SparseTree.mk (Node.mk [56] [120] (Option.some [55]) Option.none (Option.some (Link.mk [57] (Hash.digest [57] [120] Hash.sentinel Hash.sentinel) 1))) OptTree.none (OptTree.some (SparseTree.mk (Node.mk [57] [120] (Option.some [56]) Option.none Option.none) OptTree.none OptTree.none))))))).put (fun _ => Node.new [] []) [49, 50] [120]
      = Option.some (SparseTree.mk (Node.mk [51] [120] Option.none (Option.some (Link.mk [49, 49] (Hash.digest [49, 49] [120] (Hash.digest [49] [120] (Hash.digest [48] [120] Hash.sentinel Hash.sentinel) (Hash.digest [49, 48] [120] Hash.sentinel Hash.sentinel)) (Hash.digest [50] [120] (Hash.digest [49, 50] [120] Hash.sentinel Hash.sentinel) Hash.sentinel)) 3)) (Option.some (Link.mk [55] (Hash.digest [55] [120] (Hash.digest [53] [120] (Hash.digest [52] [120] Hash.sentinel Hash.sentinel) (Hash.digest [54] [120] Hash.sentinel Hash.sentinel)) (Hash.digest [56] [120] Hash.sentinel (Hash.digest [57] [120] Hash.sentinel Hash.sentinel))) 3))) (OptTree.some (SparseTree.mk (Node.mk [49, 49] [120] (Option.some [51]) (Option.some (Link.mk [49] (Hash.digest [49] [120] (Hash.digest [48] [120] Hash.sentinel Hash.sentinel) (Hash.digest [49, 48] [120] Hash.sentinel Hash.sentinel)) 2)) (Option.some (Link.mk [50] (Hash.digest [50] [120] (Hash.digest [49, 50] [120] Hash.sentinel Hash.sentinel) Hash.sentinel) 2))) (OptTree.some (SparseTree.mk (Node.mk [49] [120] (Option.some [49, 49]) (Option.some (Link.mk [48] (Hash.digest [48] [120] Hash.sentinel Hash.sentinel) 1)) (Option.some (Link.mk [49, 48] (Hash.digest [49, 48] [120] Hash.sentinel Hash.sentinel) 1))) (OptTree.some (SparseTree.mk (Node.mk [48] [120] (Option.some [49]) Option.none Option.none) OptTree.none OptTree.none)) (OptTree.some (SparseTree.mk (Node.mk [49, 48] [120] (Option.some [49]) Option.none Option.none) OptTree.none OptTree.none)))) (OptTree.some (SparseTree.mk (Node.mk [50] [120] (Option.some [49, 49]) (Option.some (Link.mk [49, 50] (Hash.digest [49, 50] [120] Hash.sentinel Hash.sentinel) 1)) Option.none) (OptTree.some (SparseTree.mk (Node.mk [49, 50] [120] (Option.some [50]) Option.none Option.none) OptTree.none OptTree.none)) OptTree.none)))) (OptTree.some (SparseTree.mk (Node.mk [55] [120] (Option.some [51]) (Option.some (Link.mk [53] (Hash.digest [53] [120] (Hash.digest [52] [120] Hash.sentinel Hash.sentinel) (Hash.digest [54] [120] Hash.sentinel Hash.sentinel)) 2)) (Option.some (Link.mk [56] (Hash.digest [56] [120] Hash.sentinel (Hash.digest [57] [120] Hash.sentinel Hash.sentinel)) 2))) (OptTree.some (SparseTree.mk (Node.mk [53] [120] (Option.some [55]) (Option.some (Link.mk [52] (Hash.digest [52] [120] Hash.sentinel Hash.sentinel) 1)) (Option.some (Link.mk [54] (Hash.digest [54] [120] Hash.sentinel Hash.sentinel) 1))) (OptTree.some (SparseTree.mk (Node.mk [52] [120] (Option.some [53]) Option.none Option.none) OptTree.none OptTree.none)) (OptTree.some (SparseTree.mk (Node.mk [54] [120] (Option.some [53]) Option.none Option.none) OptTree.none OptTree.none)))) (OptTree.some (SparseTree.mk (Node.mk [56] [120] (Option.some [55]) Option.none (Option.some (Link.mk [57] (Hash.digest [57] [120] Hash.sentinel Hash.sentinel) 1))) OptTree.none (OptTree.some (SparseTree.mk (Node.mk [57] [120] (Option.some [56]) Option.none Option.none) OptTree.none OptTree.none))))))) := by
  rfl

theorem c4_step13 :
    (SparseTree.mk (Node.mk [51] [120] Option.none (Option.some (Link.mk [49, 49] (Hash.digest [49, 49] [120] (Hash.digest [49] [120] (Hash.digest [48] [120] Hash.sentinel Hash.sentinel) (Hash.digest [49, 48] [120] Hash.sentinel Hash.sentinel)) (Hash.digest [50] [120] (Hash.digest [49, 50] [120] Hash.sentinel Hash.sentinel) Hash.sentinel)) 3)) (Option.some (Link.mk [55] (Hash.digest [55] [120] (Hash.digest [53] [120] (Hash.digest [52] [120] Hash.sentinel Hash.sentinel) (Hash.digest [54] [120] Hash.sentinel Hash.sentinel)) (Hash.digest [56] [120] Hash.sentinel (Hash.digest [57] [120] Hash.sentinel Hash.sentinel))) 3))) (OptTree.some (SparseTree.mk (Node.mk [49, 49] [120] (Option.some [51]) (Option.some (Link.mk [49] (Hash.digest [49] [120] (Hash.digest [48] [120] Hash.sentinel Hash.sentinel) (Hash.digest [49, 48] [120] Hash.sentinel Hash.sentinel)) 2)) (Option.some (Link.mk [50] (Hash.digest [50] [120] (Hash.digest [49, 50] [120] Hash.sentinel Hash.sentinel) Hash.sentinel) 2))) (OptTree.some (SparseTree.mk (Node.mk [49] [120] (Option.some [49, 49]) (Option.some (Link.mk [48] (Hash.digest [48] [120] Hash.sentinel Hash.sentinel) 1)) (Option.some (Link.mk [49, 48] (Hash.digest [49, 48] [120] Hash.sentinel Hash.sentinel) 1))) (OptTree.some (SparseTree.mk (Node.mk [48] [120] (Option.some [49]) Option.none Option.none) OptTree.none OptTree.none)) (OptTree.some (SparseTree.mk (Node.mk [49, 48] [120] (Option.some [49]) Option.none Option.none) OptTree.none OptTree.none)))) (OptTree.some (SparseTree.mk (Node.mk [50] [120] (Option.some [49, 49]) (Option.some (Link.mk [49, 50] (Hash.digest [49, 50] [120] Hash.sentinel Hash.sentinel) 1)) Option.none) (OptTree.some (SparseTree.mk (Node.mk [49, 50] [120] (Option.some [50]) Option.none Option.none) OptTree.none OptTree.none)) OptTree.none)))) (OptTree.some (SparseTree.mk (Node.mk [55] [120] (Option.some [51]) (Option.some (Link.mk [53] (Hash.digest [53] [120] (Hash.digest [52] [120] Hash.sentinel Hash.sentinel) (Hash.digest [54] [120] Hash.sentinel Hash.sentinel)) 2)) (Option.some (Link.mk [56] (Hash.digest [56] [120] Hash.sentinel (Hash.digest [57] [120] Hash.sentinel Hash.sentinel)) 2))) (OptTree.some (SparseTree.mk (Node.mk [53] [120] (Option.some [55]) (Option.some (Link.mk [52] (Hash.digest [52] [120] Hash.sentinel Hash.sentinel) 1)) (Option.some (Link.mk [54] (Hash.digest [54] [120] Hash.sentinel Hash.sentinel) 1))) (OptTree.some (SparseTree.mk (Node.mk [52] [120] (Option.some [53]) Option.none Option.none) OptTree.none OptTree.none)) (OptTree.some (SparseTree.mk (Node.mk [54] [120] (Option.some [53]) Option.none Option.none) OptTree.none OptTree.none)))) (OptTree.some (SparseTree.mk (Node.mk [56] [120] (Option.some [55]) Option.none (Option.some (Link.mk [57] (Hash.digest [57] [120] Hash.sentinel Hash.sentinel) 1))) OptTree.none (OptTree.some (SparseTree.mk (Node.mk [57] [120] (Option.some [56]) Option.none Option.none) OptTree.none OptTree.none))))))).put (fun _ => Node.new [] []) [49, 51] [120]
      = Option.some (SparseTree.mk (Node.mk [51] [120] Option.none (Option.some (Link.mk [49, 49] (Hash.digest [49, 49] [120] (Hash.digest [49] [120] (Hash.digest [48] [120] Hash.sentinel Hash.sentinel) (Hash.digest [49, 48] [120] Hash.sentinel Hash.sentinel)) (Hash.digest [49, 51] [120] (Hash.digest [49, 50] [120] Hash.sentinel Hash.sentinel) (Hash.digest [50] [120] Hash.sentinel Hash.sentinel))) 3)) (Option.some (Link.mk [55] (Hash.digest [55] [120] (Hash.digest [53] [120] (Hash.digest [52] [120] Hash.sentinel Hash.sentinel) (Hash.digest [54] [120] Hash.sentinel Hash.sentinel)) (Hash.digest [56] [120] Hash.sentinel (Hash.digest [57] [120] Hash.sentinel Hash.sentinel))) 3))) (OptTree.some (SparseTree.mk (Node.mk [49, 49] [120] (Option.some [51]) (Option.some (Link.mk [49] (Hash.digest [49] [120] (Hash.digest [48] [120] Hash.sentinel Hash.sentinel) (Hash.digest [49, 48] [120] Hash.sentinel Hash.sentinel)) 2)) (Option.some (Link.mk [49, 51] (Hash.digest [49, 51] [120] (Hash.digest [49, 50] [120] Hash.sentinel Hash.sentinel) (Hash.digest [50] [120] Hash.sentinel Hash.sentinel)) 2))) (OptTree.some (SparseTree.mk (Node.mk [49] [120] (Option.some [49, 49]) (Option.some (Link.mk [48] (Hash.digest [48] [120] Hash.sentinel Hash.sentinel) 1)) (Option.some (Link.mk [49, 48] (Hash.digest [49, 48] [120] Hash.sentinel Hash.sentinel) 1))) (OptTree.some (SparseTree.mk (Node.mk [48] [120] (Option.some [49]) Option.none Option.none) OptTree.none OptTree.none)) (OptTree.some (SparseTree.mk (Node.mk [49, 48] [120] (Option.some [49]) Option.none Option.none) OptTree.none OptTree.none)))) (OptTree.some (SparseTree.mk (Node.mk [49, 51] [120] (Option.some [49, 49]) (Option.some (Link.mk [49, 50] (Hash.digest [49, 50] [120] Hash.sentinel Hash.sentinel) 1)) (Option.some (Link.mk [50] (Hash.digest [50] [120] Hash.sentinel Hash.sentinel) 1))) (OptTree.some (SparseTree.mk (Node.mk [49, 50] [120] (Option.some [49, 51]) Option.none Option.none) OptTree.none OptTree.none)) (OptTree.some (SparseTree.mk (Node.mk [50] [120] (Option.some [49, 51]) Option.none Option.none) OptTree.none OptTree.none)))))) (OptTree.some (SparseTree.mk (Node.mk [55] [120] (Option.some [51]) (Option.some (Link.mk [53] (Hash.digest [53] [120] (Hash.digest [52] [120] Hash.sentinel Hash.sentinel) (Hash.digest [54] [120] Hash.sentinel Hash.sentinel)) 2)) (Option.some (Link.mk [56] (Hash.digest [56] [120] Hash.sentinel (Hash.digest [57] [120] Hash.sentinel Hash.sentinel)) 2))) (OptTree.some (SparseTree.mk (Node.mk [53] [120] (Option.some [55]) (Option.some (Link.mk [52] (Hash.digest [52] [120] Hash.sentinel Hash.sentinel) 1)) (Option.some (Link.mk [54] (Hash.digest [54] [120] Hash.sentinel Hash.sentinel) 1))) (OptTree.some (SparseTree.mk (Node.mk [52] [120] (Option.some [53]) Option.none Option.none) OptTree.none OptTree.none)) (OptTree.some (SparseTree.mk (Node.mk [54] [120] (Option.some [53]) Option.none Option.none) OptTree.none OptTree.none)))) (OptTree.some (SparseTree.mk (Node.mk [56] [120] (Option.some [55]) Option.none (Option.some (Link.mk [57] (Hash.digest [57] [120] Hash.sentinel Hash.sentinel) 1))) OptTree.none (OptTree.some (SparseTree.mk (Node.mk [57] [120] (Option.some [56]) Option.none Option.none) OptTree.none OptTree.none))))))) := by
  rfl

theorem c4_step14 :
    (SparseTree.mk (Node.mk [51] [120] Option.none (Option.some (Link.mk [49, 49] (Hash.digest [49, 49] [120] (Hash.digest [49] [120] (Hash.digest [48] [120] Hash.sentinel Hash.sentinel) (Hash.digest [49, 48] [120] Hash.sentinel Hash.sentinel)) (Hash.digest [49, 51] [120] (Hash.digest [49, 50] [120] Hash.sentinel Hash.sentinel) (Hash.digest [50] [120] Hash.sentinel Hash.sentinel))) 3)) (Option.some (Link.mk [55] (Hash.digest [55] [120] (Hash.digest [53] [120] (Hash.digest [52] [120] Hash.sentinel Hash.sentinel) (Hash.digest [54] [120] Hash.sentinel Hash.sentinel)) (Hash.digest [56] [120] Hash.sentinel (Hash.digest [57] [120] Hash.sentinel Hash.sentinel))) 3))) (OptTree.some (SparseTree.mk (Node.mk [49, 49] [120] (Option.some [51]) (Option.some (Link.mk [49] (Hash.digest [49] [120] (Hash.digest [48] [120] Hash.sentinel Hash.sentinel) (Hash.digest [49, 48] [120] Hash.sentinel Hash.sentinel)) 2)) (Option.some (Link.mk [49, 51] (Hash.digest [49, 51] [120] (Hash.digest [49, 50] [120] Hash.sentinel Hash.sentinel) (Hash.digest [50] [120] Hash.sentinel Hash.sentinel)) 2))) (OptTree.some (SparseTree.mk (Node.mk [49] [120] (Option.some [49, 49]) (Option.some (Link.mk [48] (Hash.digest [48] [120] Hash.sentinel Hash.sentinel) 1)) (Option.some (Link.mk [49, 48] (Hash.digest [49, 48] [120] Hash.sentinel Hash.sentinel) 1))) (OptTree.some (SparseTree.mk (Node.mk [48] [120] (Option.some [49]) Option.none Option.none) OptTree.none OptTree.none)) (OptTree.some (SparseTree.mk (Node.mk [49, 48] [120] (Option.some [49]) Option.none Option.none) OptTree.none OptTree.none)))) (OptTree.some (SparseTree.mk (Node.mk [49, 51] [120] (Option.some [49, 49]) (Option.some (Link.mk [49, 50] (Hash.digest [49, 50] [120] Hash.sentinel Hash.sentinel) 1)) (Option.some (Link.mk [50] (Hash.digest [50] [120] Hash.sentinel Hash.sentinel) 1))) (OptTree.some (SparseTree.mk (Node.mk [49, 50] [120] (Option.some [49, 51]) Option.none Option.none) OptTree.none OptTree.none)) (OptTree.some (SparseTree.mk (Node.mk [50] [120] (Option.some [49, 51]) Option.none Option.none) OptTree.none OptTree.none)))))) (OptTree.some (SparseTree.mk (Node.mk [55] [120] (Option.some [51]) (Option.some (Link.mk [53] (Hash.digest [53] [120] (Hash.digest [52] [120] Hash.sentinel Hash.sentinel) (Hash.digest [54] [120] Hash.sentinel Hash.sentinel)) 2)) (Option.some (Link.mk [56] (Hash.digest [56] [120] Hash.sentinel (Hash.digest [57] [120] Hash.sentinel Hash.sentinel)) 2))) (OptTree.some (SparseTree.mk (Node.mk [53] [120] (Option.some [55]) (Option.some (Link.mk [52] (Hash.digest [52] [120] Hash.sentinel Hash.sentinel) 1)) (Option.some (Link.mk [54] (Hash.digest [54] [120] Hash.sentinel Hash.sentinel) 1))) (OptTree.some (SparseTree.mk (Node.mk [52] [120] (Option.some [53]) Option.none Option.none) OptTree.none OptTree.none)) (OptTree.some (SparseTree.mk (Node.mk [54] [120] (Option.some [53]) Option.none Option.none) OptTree.none OptTree.none)))) (OptTree.some (SparseTree.mk (Node.mk [56] [120] (Option.some [55]) Option.none (Option.some (Link.mk [57] (Hash.digest [57] [120] Hash.sentinel Hash.sentinel) 1))) OptTree.none (OptTree.some (SparseTree.mk (Node.mk [57] [120] (Option.some [56]) Option.none Option.none) OptTree.none OptTree.none))))))).put (fun _ => Node.new [] []) [49, 52] [120]
      = Option.some (SparseTree.mk (Node.mk [51] [120] Option.none (Option.some (Link.mk [49, 49] (Hash.digest [49, 49] [120] (Hash.digest [49] [120] (Hash.digest [48] [120] Hash.sentinel Hash.sentinel) (Hash.digest [49, 48] [120] Hash.sentinel Hash.sentinel)) (Hash.digest [49, 51] [120] (Hash.digest [49, 50] [120] Hash.sentinel Hash.sentinel) (Hash.digest [50] [120] (Hash.digest [49, 52] [120] Hash.sentinel Hash.sentinel) Hash.sentinel))) 4)) (Option.some (Link.mk [55] (Hash.digest [55] [120] (Hash.digest [53] [120] (Hash.digest [52] [120] Hash.sentinel Hash.sentinel) (Hash.digest [54] [120] Hash.sentinel Hash.sentinel)) (Hash.digest [56] [120] Hash.sentinel (Hash.digest [57] [120] Hash.sentinel Hash.sentinel))) 3))) (OptTree.some (SparseTree.mk (Node.mk [49, 49] [120] (Option.some [51]) (Option.some (Link.mk [49] (Hash.digest [49] [120] (Hash.digest [48] [120] Hash.sentinel Hash.sentinel) (Hash.digest [49, 48] [120] Hash.sentinel Hash.sentinel)) 2)) (Option.some (Link.mk [49, 51] (Hash.digest [49, 51] [120] (Hash.digest [49, 50] [120] Hash.sentinel Hash.sentinel) (Hash.digest [50] [120] (Hash.digest [49, 52] [120] Hash.sentinel Hash.sentinel) Hash.sentinel)) 3))) (OptTree.some (SparseTree.mk (Node.mk [49] [120] (Option.some [49, 49]) (Option.some (Link.mk [48] (Hash.digest [48] [120] Hash.sentinel Hash.sentinel) 1)) (Option.some (Link.mk [49, 48] (Hash.digest [49, 48] [120] Hash.sentinel Hash.sentinel) 1))) (OptTree.some (SparseTree.mk (Node.mk [48] [120] (Option.some [49]) Option.none Option.none) OptTree.none OptTree.none)) (OptTree.some (SparseTree.mk (Node.mk [49, 48] [120] (Option.some [49]) Option.none Option.none) OptTree.none OptTree.none)))) (OptTree.some (SparseTree.mk (Node.mk [49, 51] [120] (Option.some [49, 49]) (Option.some (Link.mk [49, 50] (Hash.digest [49, 50] [120] Hash.sentinel Hash.sentinel) 1)) (Option.some (Link.mk [50] (Hash.digest [50] [120] (Hash.digest [49, 52] [120] Hash.sentinel Hash.sentinel) Hash.sentinel) 2))) (OptTree.some (SparseTree.mk (Node.mk [49, 50] [120] (Option.some [49, 51]) Option.none Option.none) OptTree.none OptTree.none)) (OptTree.some (SparseTree.mk (Node.mk [50] [120] (Option.some [49, 51]) (Option.some (Link.mk [49, 52] (Hash.digest [49, 52] [120] Hash.sentinel Hash.sentinel) 1)) Option.none) (OptTree.some (SparseTree.mk (Node.mk [49, 52] [120] (Option.some [50]) Option.none Option.none) OptTree.none OptTree.none)) OptTree.none)))))) (OptTree.some (SparseTree.mk (Node.mk [55] [120] (Option.some [51]) (Option.some (Link.mk [53] (Hash.digest [53] [120] (Hash.digest [52] [120] Hash.sentinel Hash.sentinel) (Hash.digest [54] [120] Hash.sentinel Hash.sentinel)) 2)) (Option.some (Link.mk [56] (Hash.digest [56] [120] Hash.sentinel (Hash.digest [57] [120] Hash.sentinel Hash.sentinel)) 2))) (OptTree.some (SparseTree.mk (Node.mk [53] [120] (Option.some [55]) (Option.some (Link.mk [52] (Hash.digest [52] [120] Hash.sentinel Hash.sentinel) 1)) (Option.some (Link.mk [54] (Hash.digest [54] [120] Hash.sentinel Hash.sentinel) 1))) (OptTree.some (SparseTree.mk (Node.mk [52] [120] (Option.some [53]) Option.none Option.none) OptTree.none OptTree.none)) (OptTree.some (SparseTree.mk (Node.mk [54] [120] (Option.some [53]) Option.none Option.none) OptTree.none OptTree.none)))) (OptTree.some (SparseTree.mk (Node.mk [56] [120] (Option.some [55]) Option.none (Option.some (Link.mk [57] (Hash.digest [57] [120] Hash.sentinel Hash.sentinel) 1))) OptTree.none (OptTree.some (SparseTree.mk (Node.mk [57] [120] (Option.some [56]) Option.none Option.none) OptTree.none OptTree.none))))))) := by
  rfl

theorem c4_step15 :
    (SparseTree.mk (Node.mk [51] [120] Option.none (Option.some (Link.mk [49, 49] (Hash.digest [49, 49] [120] (Hash.digest [49] [120] (Hash.digest [48] [120] Hash.sentinel Hash.sentinel) (Hash.digest [49, 48] [120] Hash.sentinel Hash.sentinel)) (Hash.digest [49, 51] [120] (Hash.digest [49, 50] [120] Hash.sentinel Hash.sentinel) (Hash.digest [50] [120] (Hash.digest [49, 52] [120] Hash.sentinel Hash.sentinel) Hash.sentinel))) 4)) (Option.some (Link.mk [55] (Hash.digest [55] [120] (Hash.digest [53] [120] (Hash.digest [52] [120] Hash.sentinel Hash.sentinel) (Hash.digest [54] [120] Hash.sentinel Hash.sentinel)) (Hash.digest [56] [120] Hash.sentinel (Hash.digest [57] [120] Hash.sentinel Hash.sentinel))) 3))) (OptTree.some (SparseTree.mk (Node.mk [49, 49] [120] (Option.some [51]) (Option.some (Link.mk [49] (Hash.digest [49] [120] (Hash.digest [48] [120] Hash.sentinel Hash.sentinel) (Hash.digest [49, 48] [120] Hash.sentinel Hash.sentinel)) 2)) (Option.some (Link.mk [49, 51] (Hash.digest [49, 51] [120] (Hash.digest [49, 50] [120] Hash.sentinel Hash.sentinel) (Hash.digest [50] [120] (Hash.digest [49, 52] [120] Hash.sentinel Hash.sentinel) Hash.sentinel)) 3))) (OptTree.some (SparseTree.mk (Node.mk [49] [120] (Option.some [49, 49]) (Option.some (Link.mk [48] (Hash.digest [48] [120] Hash.sentinel Hash.sentinel) 1)) (Option.some (Link.mk [49, 48] (Hash.digest [49, 48] [120] Hash.sentinel Hash.sentinel) 1))) (OptTree.some (SparseTree.mk (Node.mk [48] [120] (Option.some [49]) Option.none Option.none) OptTree.none OptTree.none)) (OptTree.some (SparseTree.mk (Node.mk [49, 48] [120] (Option.some [49]) Option.none Option.none) OptTree.none OptTree.none)))) (OptTree.some (SparseTree.mk (Node.mk [49, 51] [120] (Option.some [49, 49]) (Option.some (Link.mk [49, 50] (Hash.digest [49, 50] [120] Hash.sentinel Hash.sentinel) 1)) (Option.some (Link.mk [50] (Hash.digest [50] [120] (Hash.digest [49, 52] [120] Hash.sentinel Hash.sentinel) Hash.sentinel) 2))) (OptTree.some (SparseTree.mk (Node.mk [49, 50] [120] (Option.some [49, 51]) Option.none Option.none) OptTree.none OptTree.none)) (OptTree.some (SparseTree.mk (Node.mk [50] [120] (Option.some [49, 51]) (Option.some (Link.mk [49, 52] (Hash.digest [49, 52] [120] Hash.sentinel Hash.sentinel) 1)) Option.none) (OptTree.some (SparseTree.mk (Node.mk [49, 52] [120] (Option.some [50]) Option.none Option.none) OptTree.none OptTree.none)) OptTree.none)))))) (OptTree.some (SparseTree.mk (Node.mk [55] [120] (Option.some [51]) (Option.some (Link.mk [53] (Hash.digest [53] [120] (Hash.digest [52] [120] Hash.sentinel Hash.sentinel) (Hash.digest [54] [120] Hash.sentinel Hash.sentinel)) 2)) (Option.some (Link.mk [56] (Hash.digest [56] [120] Hash.sentinel (Hash.digest [57] [120] Hash.sentinel Hash.sentinel)) 2))) (OptTree.some (SparseTree.mk (Node.mk [53] [120] (Option.some [55]) (Option.some (Link.mk [52] (Hash.digest [52] [120] Hash.sentinel Hash.sentinel) 1)) (Option.some (Link.mk [54] (Hash.digest [54] [120] Hash.sentinel Hash.sentinel) 1))) (OptTree.some (SparseTree.mk (Node.mk [52] [120] (Option.some [53]) Option.none Option.none) OptTree.none OptTree.none)) (OptTree.some (SparseTree.mk (Node.mk [54] [120] (Option.some [53]) Option.none Option.none) OptTree.none OptTree.none)))) (OptTree.some (SparseTree.mk (Node.mk [56] [120] (Option.some [55]) Option.none (Option.some (Link.mk [57] (Hash.digest [57] [120] Hash.sentinel Hash.sentinel) 1))) OptTree.none (OptTree.some (SparseTree.mk (Node.mk [57] [120] (Option.some [56]) Option.none Option.none) OptTree.none OptTree.none))))))).put (fun _ => Node.new [] []) [49, 53] [120]
      = Option.some (SparseTree.mk (Node.mk [51] [120] Option.none (Option.some (Link.mk [49, 49] (Hash.digest [49, 49] [120] (Hash.digest [49] [120] (Hash.digest [48] [120] Hash.sentinel Hash.sentinel) (Hash.digest [49, 48] [120] Hash.sentinel Hash.sentinel)) (Hash.digest [49, 51] [120] (Hash.digest [49, 50] [120] Hash.sentinel Hash.sentinel) (Hash.digest [49, 53] [120] (Hash.digest [49, 52] [120] Hash.sentinel Hash.sentinel) (Hash.digest [50] [120] Hash.sentinel Hash.sentinel)))) 4)) (Option.some (Link.mk [55] (Hash.digest [55] [120] (Hash.digest [53] [120] (Hash.digest [52] [120] Hash.sentinel Hash.sentinel) (Hash.digest [54] [120] Hash.sentinel Hash.sentinel)) (Hash.digest [56] [120] Hash.sentinel (Hash.digest [57] [120] Hash.sentinel Hash.sentinel))) 3))) (OptTree.some (SparseTree.mk (Node.mk [49, 49] [120] (Option.some [51]) (Option.some (Link.mk [49] (Hash.digest [49] [120] (Hash.digest [48] [120] Hash.sentinel Hash.sentinel) (Hash.digest [49, 48] [120] Hash.sentinel Hash.sentinel)) 2)) (Option.some (Link.mk [49, 51] (Hash.digest [49, 51] [120] (Hash.digest [49, 50] [120] Hash.sentinel Hash.sentinel) (Hash.digest [49, 53] [120] (Hash.digest [49, 52] [120] Hash.sentinel Hash.sentinel) (Hash.digest [50] [120] Hash.sentinel Hash.sentinel))) 3))) (OptTree.some (SparseTree.mk (Node.mk [49] [120] (Option.some [49, 49]) (Option.some (Link.mk [48] (Hash.digest [48] [120] Hash.sentinel Hash.sentinel) 1)) (Option.some (Link.mk [49, 48] (Hash.digest [49, 48] [120] Hash.sentinel Hash.sentinel) 1))) (OptTree.some (SparseTree.mk (Node.mk [48] [120] (Option.some [49]) Option.none Option.none) OptTree.none OptTree.none)) (OptTree.some (SparseTree.mk (Node.mk [49, 48] [120] (Option.some [49]) Option.none Option.none) OptTree.none OptTree.none)))) (OptTree.some (SparseTree.mk (Node.mk [49, 51] [120] (Option.some [49, 49]) (Option.some (Link.mk [49, 50] (Hash.digest [49, 50] [120] Hash.sentinel Hash.sentinel) 1)) (Option.some (Link.mk [49, 53] (Hash.digest [49, 53] [120] (Hash.digest [49, 52] [120] Hash.sentinel Hash.sentinel) (Hash.digest [50] [120] Hash.sentinel Hash.sentinel)) 2))) (OptTree.some (SparseTree.mk (Node.mk [49, 50] [120] (Option.some [49, 51]) Option.none Option.none) OptTree.none OptTree.none)) (OptTree.some (SparseTree.mk (Node.mk [49, 53] [120] (Option.some [49, 51]) (Option.some (Link.mk [49, 52] (Hash.digest [49, 52] [120] Hash.sentinel Hash.sentinel) 1)) (Option.some (Link.mk [50] (Hash.digest [50] [120] Hash.sentinel Hash.sentinel) 1))) (OptTree.some (SparseTree.mk (Node.mk [49, 52] [120] (Option.some [49, 53]) Option.none Option.none) OptTree.none OptTree.none)) (OptTree.some (SparseTree.mk (Node.mk [50] [120] (Option.some [49, 53]) Option.none Option.none) OptTree.none OptTree.none)))))))) (OptTree.some (SparseTree.mk (Node.mk [55] [120] (Option.some [51]) (Option.some (Link.mk [53] (Hash.digest [53] [120] (Hash.digest [52] [120] Hash.sentinel Hash.sentinel) (Hash.digest [54] [120] Hash.sentinel Hash.sentinel)) 2)) (Option.some (Link.mk [56] (Hash.digest [56] [120] Hash.sentinel (Hash.digest [57] [120] Hash.sentinel Hash.sentinel)) 2))) (OptTree.some (SparseTree.mk (Node.mk [53] [120] (Option.some [55]) (Option.some (Link.mk [52] (Hash.digest [52] [120] Hash.sentinel Hash.sentinel) 1)) (Option.some (Link.mk [54] (Hash.digest [54] [120] Hash.sentinel Hash.sentinel) 1))) (OptTree.some (SparseTree.mk (Node.mk [52] [120] (Option.some [53]) Option.none Option.none) OptTree.none OptTree.none)) (OptTree.some (SparseTree.mk (Node.mk [54] [120] (Option.some [53]) Option.none Option.none) OptTree.none OptTree.none)))) (OptTree.some (SparseTree.mk (Node.mk [56] [120] (Option.some [55]) Option.none (Option.some (Link.mk [57] (Hash.digest [57] [120] Hash.sentinel Hash.sentinel) 1))) OptTree.none (OptTree.some (SparseTree.mk (Node.mk [57] [120] (Option.some [56]) Option.none Option.none) OptTree.none OptTree.none))))))) := by
  rfl

theorem c4_step16 :
    (SparseTree.mk (Node.mk [51] [120] Option.none (Option.some (Link.mk [49, 49] (Hash.digest [49, 49] [120] (Hash.digest [49] [120] (Hash.digest [48] [120] Hash.sentinel Hash.sentinel) (Hash.digest [49, 48] [120] Hash.sentinel Hash.sentinel)) (Hash.digest [49, 51] [120] (Hash.digest [49, 50] [120] Hash.sentinel Hash.sentinel) (Hash.digest [49, 53] [120] (Hash.digest [49, 52] [120] Hash.sentinel Hash.sentinel) (Hash.digest [50] [120] Hash.sentinel Hash.sentinel)))) 4)) (Option.some (Link.mk [55] (Hash.digest [55] [120] (Hash.digest [53] [120] (Hash.digest [52] [120] Hash.sentinel Hash.sentinel) (Hash.digest [54] [120] Hash.sentinel Hash.sentinel)) (Hash.digest [56] [120] Hash.sentinel (Hash.digest [57] [120] Hash.sentinel Hash.sentinel))) 3))) (OptTree.some (SparseTree.mk (Node.mk [49, 49] [120] (Option.some [51]) (Option.some (Link.mk [49] (Hash.digest [49] [120] (Hash.digest [48] [120] Hash.sentinel Hash.sentinel) (Hash.digest [49, 48] [120] Hash.sentinel Hash.sentinel)) 2)) (Option.some (Link.mk [49, 51] (Hash.digest [49, 51] [120] (Hash.digest [49, 50] [120] Hash.sentinel Hash.sentinel) (Hash.digest [49, 53] [120] (Hash.digest [49, 52] [120] Hash.sentinel Hash.sentinel) (Hash.digest [50] [120] Hash.sentinel Hash.sentinel))) 3))) (OptTree.some (SparseTree.mk (Node.mk [49] [120] (Option.some [49, 49]) (Option.some (Link.mk [48] (Hash.digest [48] [120] Hash.sentinel Hash.sentinel) 1)) (Option.some (Link.mk [49, 48] (Hash.digest [49, 48] [120] Hash.sentinel Hash.sentinel) 1))) (OptTree.some (SparseTree.mk (Node.mk [48] [120] (Option.some [49]) Option.none Option.none) OptTree.none OptTree.none)) (OptTree.some (SparseTree.mk (Node.mk [49, 48] [120] (Option.some [49]) Option.none Option.none) OptTree.none OptTree.none)))) (OptTree.some (SparseTree.mk (Node.mk [49, 51] [120] (Option.some [49, 49]) (Option.some (Link.mk [49, 50] (Hash.digest [49, 50] [120] Hash.sentinel Hash.sentinel) 1)) (Option.some (Link.mk [49, 53] (Hash.digest [49, 53] [120] (Hash.digest [49, 52] [120] Hash.sentinel Hash.sentinel) (Hash.digest [50] [120] Hash.sentinel Hash.sentinel)) 2))) (OptTree.some (SparseTree.mk (Node.mk [49, 50] [120] (Option.some [49, 51]) Option.none Option.none) OptTree.none OptTree.none)) (OptTree.some (SparseTree.mk (Node.mk [49, 53] [120] (Option.some [49, 51]) (Option.some (Link.mk [49, 52] (Hash.digest [49, 52] [120] Hash.sentinel Hash.sentinel) 1)) (Option.some (Link.mk [50] (Hash.digest [50] [120] Hash.sentinel Hash.sentinel) 1))) (OptTree.some (SparseTree.mk (Node.mk [49, 52] [120] (Option.some [49, 53]) Option.none Option.none) OptTree.none OptTree.none)) (OptTree.some (SparseTree.mk (Node.mk [50] [120] (Option.some [49, 53]) Option.none Option.none) OptTree.none OptTree.none)))))))) (OptTree.some (SparseTree.mk (Node.mk [55] [120] (Option.some [51]) (Option.some (Link.mk [53] (Hash.digest [53] [120] (Hash.digest [52] [120] Hash.sentinel Hash.sentinel) (Hash.digest [54] [120] Hash.sentinel Hash.sentinel)) 2)) (Option.some (Link.mk [56] (Hash.digest [56] [120] Hash.sentinel (Hash.digest [57] [120] Hash.sentinel Hash.sentinel)) 2))) (OptTree.some (SparseTree.mk (Node.mk [53] [120] (Option.some [55]) (Option.some (Link.mk [52] (Hash.digest [52] [120] Hash.sentinel Hash.sentinel) 1)) (Option.some (Link.mk [54] (Hash.digest [54] [120] Hash.sentinel Hash.sentinel) 1))) (OptTree.some (SparseTree.mk (Node.mk [52] [120] (Option.some [53]) Option.none Option.none) OptTree.none OptTree.none)) (OptTree.some (SparseTree.mk (Node.mk [54] [120] (Option.some [53]) Option.none Option.none) OptTree.none OptTree.none)))) (OptTree.some (SparseTree.mk (Node.mk [56] [120] (Option.some [55]) Option.none (Option.some (Link.mk [57] (Hash.digest [57] [120] Hash.sentinel Hash.sentinel) 1))) OptTree.none (OptTree.some (SparseTree.mk (Node.mk [57] [120] (Option.some [56]) Option.none Option.none) OptTree.none OptTree.none))))))).put (fun _ => Node.new [] []) [49, 54] [120]
      = Option.some (SparseTree.mk (Node.mk [51] [120] Option.none (Option.some (Link.mk [49, 49] (Hash.digest [49, 49] [120] (Hash.digest [49] [120] (Hash.digest [48] [120] Hash.sentinel Hash.sentinel) (Hash.digest [49, 48] [120] Hash.sentinel Hash.sentinel)) (Hash.digest [49, 53] [120] (Hash.digest [49, 51] [120] (Hash.digest [49, 50] [120] Hash.sentinel Hash.sentinel) (Hash.digest [49, 52] [120] Hash.sentinel Hash.sentinel)) (Hash.digest [50] [120] (Hash.digest [49, 54] [120] Hash.sentinel Hash.sentinel) Hash.sentinel))) 4)) (Option.some (Link.mk [55] (Hash.digest [55] [120] (Hash.digest [53] [120] (Hash.digest [52] [120] Hash.sentinel Hash.sentinel) (Hash.digest [54] [120] Hash.sentinel Hash.sentinel)) (Hash.digest [56] [120] Hash.sentinel (Hash.digest [57] [120] Hash.sentinel Hash.sentinel))) 3))) (OptTree.some (SparseTree.mk (Node.mk [49, 49] [120] (Option.some [51]) (Option.some (Link.mk [49] (Hash.digest [49] [120] (Hash.digest [48] [120] Hash.sentinel Hash.sentinel) (Hash.digest [49, 48] [120] Hash.sentinel Hash.sentinel)) 2)) (Option.some (Link.mk [49, 53] (Hash.digest [49, 53] [120] (Hash.digest [49, 51] [120] (Hash.digest [49, 50] [120] Hash.sentinel Hash.sentinel) (Hash.digest [49, 52] [120] Hash.sentinel Hash.sentinel)) (Hash.digest [50] [120] (Hash.digest [49, 54] [120] Hash.sentinel Hash.sentinel) Hash.sentinel)) 3))) (OptTree.some (SparseTree.mk (Node.mk [49] [120] (Option.some [49, 49]) (Option.some (Link.mk [48] (Hash.digest [48] [120] Hash.sentinel Hash.sentinel) 1)) (Option.some (Link.mk [49, 48] (Hash.digest [49, 48] [120] Hash.sentinel Hash.sentinel) 1))) (OptTree.some (SparseTree.mk (Node.mk [48] [120] (Option.some [49]) Option.none Option.none) OptTree.none OptTree.none)) (OptTree.some (SparseTree.mk (Node.mk [49, 48] [120] (Option.some [49]) Option.none Option.none) OptTree.none OptTree.none)))) (OptTree.some (SparseTree.mk (Node.mk [49, 53] [120] (Option.some [49, 49]) (Option.some (Link.mk [49, 51] (Hash.digest [49, 51] [120] (Hash.digest [49, 50] [120] Hash.sentinel Hash.sentinel) (Hash.digest [49, 52] [120] Hash.sentinel Hash.sentinel)) 2)) (Option.some (Link.mk [50] (Hash.digest [50] [120] (Hash.digest [49, 54] [120] Hash.sentinel Hash.sentinel) Hash.sentinel) 2))) (OptTree.some (SparseTree.mk (Node.mk [49, 51] [120] (Option.some [49, 53]) (Option.some (Link.mk [49, 50] (Hash.digest [49, 50] [120] Hash.sentinel Hash.sentinel) 1)) (Option.some (Link.mk [49, 52] (Hash.digest [49, 52] [120] Hash.sentinel Hash.sentinel) 1))) (OptTree.some (SparseTree.mk (Node.mk [49, 50] [120] (Option.some [49, 51]) Option.none Option.none) OptTree.none OptTree.none)) (OptTree.some (SparseTree.mk (Node.mk [49, 52] [120] (Option.some [49, 51]) Option.none Option.none) OptTree.none OptTree.none)))) (OptTree.some (SparseTree.mk (Node.mk [50] [120] (Option.some [49, 53]) (Option.some (Link.mk [49, 54] (Hash.digest [49, 54] [120] Hash.sentinel Hash.sentinel) 1)) Option.none) (OptTree.some (SparseTree.mk (Node.mk [49, 54] [120] (Option.some [50]) Option.none Option.none) OptTree.none OptTree.none)) OptTree.none)))))) (OptTree.some (SparseTree.mk (Node.mk [55] [120] (Option.some [51]) (Option.some (Link.mk [53] (Hash.digest [53] [120] (Hash.digest [52] [120] Hash.sentinel Hash.sentinel) (Hash.digest [54] [120] Hash.sentinel Hash.sentinel)) 2)) (Option.some (Link.mk [56] (Hash.digest [56] [120] Hash.sentinel (Hash.digest [57] [120] Hash.sentinel Hash.sentinel)) 2))) (OptTree.some (SparseTree.mk (Node.mk [53] [120] (Option.some [55]) (Option.some (Link.mk [52] (Hash.digest [52] [120] Hash.sentinel Hash.sentinel) 1)) (Option.some (Link.mk [54] (Hash.digest [54] [120] Hash.sentinel Hash.sentinel) 1))) (OptTree.some (SparseTree.mk (Node.mk [52] [120] (Option.some [53]) Option.none Option.none) OptTree.none OptTree.none)) (OptTree.some (SparseTree.mk (Node.mk [54] [120] (Option.some [53]) Option.none Option.none) OptTree.none OptTree.none)))) (OptTree.some (SparseTree.mk (Node.mk [56] [120] (Option.some [55]) Option.none (Option.some (Link.mk [57] (Hash.digest [57] [120] Hash.sentinel Hash.sentinel) 1))) OptTree.none (OptTree.some (SparseTree.mk (Node.mk [57] [120] (Option.some [56]) Option.none Option.none) OptTree.none OptTree.none))))))) := by
  rfl

theorem c4_step17 :
    (SparseTree.mk (Node.mk [51] [120] Option.none (Option.some (Link.mk [49, 49] (Hash.digest [49, 49] [120] (Hash.digest [49] [120] (Hash.digest [48] [120] Hash.sentinel Hash.sentinel) (Hash.digest [49, 48] [120] Hash.sentinel Hash.sentinel)) (Hash.digest [49, 53] [120] (Hash.digest [49, 51] [120] (Hash.digest [49, 50] [120] Hash.sentinel Hash.sentinel) (Hash.digest [49, 52] [120] Hash.sentinel Hash.sentinel)) (Hash.digest [50] [120] (Hash.digest [49, 54] [120] Hash.sentinel Hash.sentinel) Hash.sentinel))) 4)) (Option.some (Link.mk [55] (Hash.digest [55] [120] (Hash.digest [53] [120] (Hash.digest [52] [120] Hash.sentinel Hash.sentinel) (Hash.digest [54] [120] Hash.sentinel Hash.sentinel)) (Hash.digest [56] [120] Hash.sentinel (Hash.digest [57] [120] Hash.sentinel Hash.sentinel))) 3))) (OptTree.some (SparseTree.mk (Node.mk [49, 49] [120] (Option.some [51]) (Option.some (Link.mk [49] (Hash.digest [49] [120] (Hash.digest [48] [120] Hash.sentinel Hash.sentinel) (Hash.digest [49, 48] [120] Hash.sentinel Hash.sentinel)) 2)) (Option.some (Link.mk [49, 53] (Hash.digest [49, 53] [120] (Hash.digest [49, 51] [120] (Hash.digest [49, 50] [120] Hash.sentinel Hash.sentinel) (Hash.digest [49, 52] [120] Hash.sentinel Hash.sentinel)) (Hash.digest [50] [120] (Hash.digest [49, 54] [120] Hash.sentinel Hash.sentinel) Hash.sentinel)) 3))) (OptTree.some (SparseTree.mk (Node.mk [49] [120] (Option.some [49, 49]) (Option.some (Link.mk [48] (Hash.digest [48] [120] Hash.sentinel Hash.sentinel) 1)) (Option.some (Link.mk [49, 48] (Hash.digest [49, 48] [120] Hash.sentinel Hash.sentinel) 1))) (OptTree.some (SparseTree.mk (Node.mk [48] [120] (Option.some [49]) Option.none Option.none) OptTree.none OptTree.none)) (OptTree.some (SparseTree.mk (Node.mk [49, 48] [120] (Option.some [49]) Option.none Option.none) OptTree.none OptTree.none)))) (OptTree.some (SparseTree.mk (Node.mk [49, 53] [120] (Option.some [49, 49]) (Option.some (Link.mk [49, 51] (Hash.digest [49, 51] [120] (Hash.digest [49, 50] [120] Hash.sentinel Hash.sentinel) (Hash.digest [49, 52] [120] Hash.sentinel Hash.sentinel)) 2)) (Option.some (Link.mk [50] (Hash.digest [50] [120] (Hash.digest [49, 54] [120] Hash.sentinel Hash.sentinel) Hash.sentinel) 2))) (OptTree.some (SparseTree.mk (Node.mk [49, 51] [120] (Option.some [49, 53]) (Option.some (Link.mk [49, 50] (Hash.digest [49, 50] [120] Hash.sentinel Hash.sentinel) 1)) (Option.some (Link.mk [49, 52] (Hash.digest [49, 52] [120] Hash.sentinel Hash.sentinel) 1))) (OptTree.some (SparseTree.mk (Node.mk [49, 50] [120] (Option.some [49, 51]) Option.none Option.none) OptTree.none OptTree.none)) (OptTree.some (SparseTree.mk (Node.mk [49, 52] [120] (Option.some [49, 51]) Option.none Option.none) OptTree.none OptTree.none)))) (OptTree.some (SparseTree.mk (Node.mk [50] [120] (Option.some [49, 53]) (Option.some (Link.mk [49, 54] (Hash.digest [49, 54] [120] Hash.sentinel Hash.sentinel) 1)) Option.none) (OptTree.some (SparseTree.mk (Node.mk [49, 54] [120] (Option.some [50]) Option.none Option.none) OptTree.none OptTree.none)) OptTree.none)))))) (OptTree.some (SparseTree.mk (Node.mk [55] [120] (Option.some [51]) (Option.some (Link.mk [53] (Hash.digest [53] [120] (Hash.digest [52] [120] Hash.sentinel Hash.sentinel) (Hash.digest [54] [120] Hash.sentinel Hash.sentinel)) 2)) (Option.some (Link.mk [56] (Hash.digest [56] [120] Hash.sentinel (Hash.digest [57] [120] Hash.sentinel Hash.sentinel)) 2))) (OptTree.some (SparseTree.mk (Node.mk [53] [120] (Option.some [55]) (Option.some (Link.mk [52] (Hash.digest [52] [120] Hash.sentinel Hash.sentinel) 1)) (Option.some (Link.mk [54] (Hash.digest [54] [120] Hash.sentinel Hash.sentinel) 1))) (OptTree.some (SparseTree.mk (Node.mk [52] [120] (Option.some [53]) Option.none Option.none) OptTree.none OptTree.none)) (OptTree.some (SparseTree.mk (Node.mk [54] [120] (Option.some [53]) Option.none Option.none) OptTree.none OptTree.none)))) (OptTree.some (SparseTree.mk (Node.mk [56] [120] (Option.some [55]) Option.none (Option.some (Link.mk [57] (Hash.digest [57] [120] Hash.sentinel Hash.sentinel) 1))) OptTree.none (OptTree.some (SparseTree.mk (Node.mk [57] [120] (Option.some [56]) Option.none Option.none) OptTree.none OptTree.none))))))).put (fun _ => Node.new [] []) [49, 55] [120]
      = Option.some (SparseTree.mk (Node.mk [51] [120] Option.none (Option.some (Link.mk [49, 49] (Hash.digest [49, 49] [120] (Hash.digest [49] [120] (Hash.digest [48] [120] Hash.sentinel Hash.sentinel) (Hash.digest [49, 48] [120] Hash.sentinel Hash.sentinel)) (Hash.digest [49, 53] [120] (Hash.digest [49, 51] [120] (Hash.digest [49, 50] [120] Hash.sentinel Hash.sentinel) (Hash.digest [49, 52] [120] Hash.sentinel Hash.sentinel)) (Hash.digest [49, 55] [120] (Hash.digest [49, 54] [120] Hash.sentinel Hash.sentinel) (Hash.digest [50] [120] Hash.sentinel Hash.sentinel)))) 4)) (Option.some (Link.mk [55] (Hash.digest [55] [120] (Hash.digest [53] [120] (Hash.digest [52] [120] Hash.sentinel Hash.sentinel) (Hash.digest [54] [120] Hash.sentinel Hash.sentinel)) (Hash.digest [56] [120] Hash.sentinel (Hash.digest [57] [120] Hash.sentinel Hash.sentinel))) 3))) (OptTree.some (SparseTree.mk (Node.mk [49, 49] [120] (Option.some [51]) (Option.some (Link.mk [49] (Hash.digest [49] [120] (Hash.digest [48] [120] Hash.sentinel Hash.sentinel) (Hash.digest [49, 48] [120] Hash.sentinel Hash.sentinel)) 2)) (Option.some (Link.mk [49, 53] (Hash.digest [49, 53] [120] (Hash.digest [49, 51] [120] (Hash.digest [49, 50] [120] Hash.sentinel Hash.sentinel) (Hash.digest [49, 52] [120] Hash.sentinel Hash.sentinel)) (Hash.digest [49, 55] [120] (Hash.digest [49, 54] [120] Hash.sentinel Hash.sentinel) (Hash.digest [50] [120] Hash.sentinel Hash.sentinel))) 3))) (OptTree.some (SparseTree.mk (Node.mk [49] [120] (Option.some [49, 49]) (Option.some (Link.mk [48] (Hash.digest [48] [120] Hash.sentinel Hash.sentinel) 1)) (Option.some (Link.mk [49, 48] (Hash.digest [49, 48] [120] Hash.sentinel Hash.sentinel) 1))) (OptTree.some (SparseTree.mk (Node.mk [48] [120] (Option.some [49]) Option.none Option.none) OptTree.none OptTree.none)) (OptTree.some (SparseTree.mk (Node.mk [49, 48] [120] (Option.some [49]) Option.none Option.none) OptTree.none OptTree.none)))) (OptTree.some (SparseTree.mk (Node.mk [49, 53] [120] (Option.some [49, 49]) (Option.some (Link.mk [49, 51] (Hash.digest [49, 51] [120] (Hash.digest [49, 50] [120] Hash.sentinel Hash.sentinel) (Hash.digest [49, 52] [120] Hash.sentinel Hash.sentinel)) 2)) (Option.some (Link.mk [49, 55] (Hash.digest [49, 55] [120] (Hash.digest [49, 54] [120] Hash.sentinel Hash.sentinel) (Hash.digest [50] [120] Hash.sentinel Hash.sentinel)) 2))) (OptTree.some (SparseTree.mk (Node.mk [49, 51] [120] (Option.some [49, 53]) (Option.some (Link.mk [49, 50] (Hash.digest [49, 50] [120] Hash.sentinel Hash.sentinel) 1)) (Option.some (Link.mk [49, 52] (Hash.digest [49, 52] [120] Hash.sentinel Hash.sentinel) 1))) (OptTree.some (SparseTree.mk (Node.mk [49, 50] [120] (Option.some [49, 51]) Option.none Option.none) OptTree.none OptTree.none)) (OptTree.some (SparseTree.mk (Node.mk [49, 52] [120] (Option.some [49, 51]) Option.none Option.none) OptTree.none OptTree.none)))) (OptTree.some (SparseTree.mk (Node.mk [49, 55] [120] (Option.some [49, 53]) (Option.some (Link.mk [49, 54] (Hash.digest [49, 54] [120] Hash.sentinel Hash.sentinel) 1)) (Option.some (Link.mk [50] (Hash.digest [50] [120] Hash.sentinel Hash.sentinel) 1))) (OptTree.some (SparseTree.mk (Node.mk [49, 54] [120] (Option.some [49, 55]) Option.none Option.none) OptTree.none OptTree.none)) (OptTree.some (SparseTree.mk (Node.mk [50] [120] (Option.some [49, 55]) Option.none Option.none) OptTree.none OptTree.none)))))))) (OptTree.some (SparseTree.mk (Node.mk [55] [120] (Option.some [51]) (Option.some (Link.mk [53] (Hash.digest [53] [120] (Hash.digest [52] [120] Hash.sentinel Hash.sentinel) (Hash.digest [54] [120] Hash.sentinel Hash.sentinel)) 2)) (Option.some (Link.mk [56] (Hash.digest [56] [120] Hash.sentinel (Hash.digest [57] [120] Hash.sentinel Hash.sentinel)) 2))) (OptTree.some (SparseTree.mk (Node.mk [53] [120] (Option.some [55]) (Option.some (Link.mk [52] (Hash.digest [52] [120] Hash.sentinel Hash.sentinel) 1)) (Option.some (Link.mk [54] (Hash.digest [54] [120] Hash.sentinel Hash.sentinel) 1))) (OptTree.some (SparseTree.mk (Node.mk [52] [120] (Option.some [53]) Option.none Option.none) OptTree.none OptTree.none)) (OptTree.some (SparseTree.mk (Node.mk [54] [120] (Option.some [53]) Option.none Option.none) OptTree.none OptTree.none)))) (OptTree.some (SparseTree.mk (Node.mk [56] [120] (Option.some [55]) Option.none (Option.some (Link.mk [57] (Hash.digest [57] [120] Hash.sentinel Hash.sentinel) 1))) OptTree.none (OptTree.some (SparseTree.mk (Node.mk [57] [120] (Option.some [56]) Option.none Option.none) OptTree.none OptTree.none))))))) := by
  rfl

theorem c4_step18 :
    (SparseTree.mk (Node.mk [51] [120] Option.none (Option.some (Link.mk [49, 49] (Hash.digest [49, 49] [120] (Hash.digest [49] [120] (Hash.digest [48] [120] Hash.sentinel Hash.sentinel) (Hash.digest [49, 48] [120] Hash.sentinel Hash.sentinel)) (Hash.digest [49, 53] [120] (Hash.digest [49, 51] [120] (Hash.digest [49, 50] [120] Hash.sentinel Hash.sentinel) (Hash.digest [49, 52] [120] Hash.sentinel Hash.sentinel)) (Hash.digest [49, 55] [120] (Hash.digest [49, 54] [120] Hash.sentinel Hash.sentinel) (Hash.digest [50] [120] Hash.sentinel Hash.sentinel)))) 4)) (Option.some (Link.mk [55] (Hash.digest [55] [120] (Hash.digest [53] [120] (Hash.digest [52] [120] Hash.sentinel Hash.sentinel) (Hash.digest [54] [120] Hash.sentinel Hash.sentinel)) (Hash.digest [56] [120] Hash.sentinel (Hash.digest [57] [120] Hash.sentinel Hash.sentinel))) 3))) (OptTree.some (SparseTree.mk (Node.mk [49, 49] [120] (Option.some [51]) (Option.some (Link.mk [49] (Hash.digest [49] [120] (Hash.digest [48] [120] Hash.sentinel Hash.sentinel) (Hash.digest [49, 48] [120] Hash.sentinel Hash.sentinel)) 2)) (Option.some (Link.mk [49, 53] (Hash.digest [49, 53] [120] (Hash.digest [49, 51] [120] (Hash.digest [49, 50] [120] Hash.sentinel Hash.sentinel) (Hash.digest [49, 52] [120] Hash.sentinel Hash.sentinel)) (Hash.digest [49, 55] [120] (Hash.digest [49, 54] [120] Hash.sentinel Hash.sentinel) (Hash.digest [50] [120] Hash.sentinel Hash.sentinel))) 3))) (OptTree.some (SparseTree.mk (Node.mk [49] [120] (Option.some [49, 49]) (Option.some (Link.mk [48] (Hash.digest [48] [120] Hash.sentinel Hash.sentinel) 1)) (Option.some (Link.mk [49, 48] (Hash.digest [49, 48] [120] Hash.sentinel Hash.sentinel) 1))) (OptTree.some (SparseTree.mk (Node.mk [48] [120] (Option.some [49]) Option.none Option.none) OptTree.none OptTree.none)) (OptTree.some (SparseTree.mk (Node.mk [49, 48] [120] (Option.some [49]) Option.none Option.none) OptTree.none OptTree.none)))) (OptTree.some (SparseTree.mk (Node.mk [49, 53] [120] (Option.some [49, 49]) (Option.some (Link.mk [49, 51] (Hash.digest [49, 51] [120] (Hash.digest [49, 50] [120] Hash.sentinel Hash.sentinel) (Hash.digest [49, 52] [120] Hash.sentinel Hash.sentinel)) 2)) (Option.some (Link.mk [49, 55] (Hash.digest [49, 55] [120] (Hash.digest [49, 54] [120] Hash.sentinel Hash.sentinel) (Hash.digest [50] [120] Hash.sentinel Hash.sentinel)) 2))) (OptTree.some (SparseTree.mk (Node.mk [49, 51] [120] (Option.some [49, 53]) (Option.some (Link.mk [49, 50] (Hash.digest [49, 50] [120] Hash.sentinel Hash.sentinel) 1)) (Option.some (Link.mk [49, 52] (Hash.digest [49, 52] [120] Hash.sentinel Hash.sentinel) 1))) (OptTree.some (SparseTree.mk (Node.mk [49, 50] [120] (Option.some [49, 51]) Option.none Option.none) OptTree.none OptTree.none)) (OptTree.some (SparseTree.mk (Node.mk [49, 52] [120] (Option.some [49, 51]) Option.none Option.none) OptTree.none OptTree.none)))) (OptTree.some (SparseTree.mk (Node.mk [49, 55] [120] (Option.some [49, 53]) (Option.some (Link.mk [49, 54] (Hash.digest [49, 54] [120] Hash.sentinel Hash.sentinel) 1)) (Option.some (Link.mk [50] (Hash.digest [50] [120] Hash.sentinel Hash.sentinel) 1))) (OptTree.some (SparseTree.mk (Node.mk [49, 54] [120] (Option.some [49, 55]) Option.none Option.none) OptTree.none OptTree.none)) (OptTree.some (SparseTree.mk (Node.mk [50] [120] (Option.some [49, 55]) Option.none Option.none) OptTree.none OptTree.none)))))))) (OptTree.some (SparseTree.mk (Node.mk [55] [120] (Option.some [51]) (Option.some (Link.mk [53] (Hash.digest [53] [120] (Hash.digest [52] [120] Hash.sentinel Hash.sentinel) (Hash.digest [54] [120] Hash.sentinel Hash.sentinel)) 2)) (Option.some (Link.mk [56] (Hash.digest [56] [120] Hash.sentinel (Hash.digest [57] [120] Hash.sentinel Hash.sentinel)) 2))) (OptTree.some (SparseTree.mk (Node.mk [53] [120] (Option.some [55]) (Option.some (Link.mk [52] (Hash.digest [52] [120] Hash.sentinel Hash.sentinel) 1)) (Option.some (Link.mk [54] (Hash.digest [54] [120] Hash.sentinel Hash.sentinel) 1))) (OptTree.some (SparseTree.mk (Node.mk [52] [120] (Option.some [53]) Option.none Option.none) OptTree.none OptTree.none)) (OptTree.some (SparseTree.mk (Node.mk [54] [120] (Option.some [53]) Option.none Option.none) OptTree.none OptTree.none)))) (OptTree.some (SparseTree.mk (Node.mk [56] [120] (Option.some [55]) Option.none (Option.some (Link.mk [57] (Hash.digest [57] [120] Hash.sentinel Hash.sentinel) 1))) OptTree.none (OptTree.some (SparseTree.mk (Node.mk [57] [120] (Option.some [56]) Option.none Option.none) OptTree.none OptTree.none))))))).put (fun _ => Node.new [] []) [49, 56] [120]
      = Option.some (SparseTree.mk (Node.mk [51] [120] Option.none (Option.some (Link.mk [49, 53] (Hash.digest [49, 53] [120] (Hash.digest [49, 49] [120] (Hash.digest [49] [120] (Hash.digest [48] [120] Hash.sentinel Hash.sentinel) (Hash.digest [49, 48] [120] Hash.sentinel Hash.sentinel)) (Hash.digest [49, 51] [120] (Hash.digest [49, 50] [120] Hash.sentinel Hash.sentinel) (Hash.digest [49, 52] [120] Hash.sentinel Hash.sentinel))) (Hash.digest [49, 55] [120] (Hash.digest [49, 54] [120] Hash.sentinel Hash.sentinel) (Hash.digest [50] [120] (Hash.digest [49, 56] [120] Hash.sentinel Hash.sentinel) Hash.sentinel))) 4)) (Option.some (Link.mk [55] (Hash.digest [55] [120] (Hash.digest [53] [120] (Hash.digest [52] [120] Hash.sentinel Hash.sentinel) (Hash.digest [54] [120] Hash.sentinel Hash.sentinel)) (Hash.digest [56] [120] Hash.sentinel (Hash.digest [57] [120] Hash.sentinel Hash.sentinel))) 3))) (OptTree.some (SparseTree.mk (Node.mk [49, 53] [120] (Option.some [51]) (Option.some (Link.mk [49, 49] (Hash.digest [49, 49] [120] (Hash.digest [49] [120] (Hash.digest [48] [120] Hash.sentinel Hash.sentinel) (Hash.digest [49, 48] [120] Hash.sentinel Hash.sentinel)) (Hash.digest [49, 51] [120] (Hash.digest [49, 50] [120] Hash.sentinel Hash.sentinel) (Hash.digest [49, 52] [120] Hash.sentinel Hash.sentinel))) 3)) (Option.some (Link.mk [49, 55] (Hash.digest [49, 55] [120] (Hash.digest [49, 54] [120] Hash.sentinel Hash.sentinel) (Hash.digest [50] [120] (Hash.digest [49, 56] [120] Hash.sentinel Hash.sentinel) Hash.sentinel)) 3))) (OptTree.some (SparseTree.mk (Node.mk [49, 49] [120] (Option.some [49, 53]) (Option.some (Link.mk [49] (Hash.digest [49] [120] (Hash.digest [48] [120] Hash.sentinel Hash.sentinel) (Hash.digest [49, 48] [120] Hash.sentinel Hash.sentinel)) 2)) (Option.some (Link.mk [49, 51] (Hash.digest [49, 51] [120] (Hash.digest [49, 50] [120] Hash.sentinel Hash.sentinel) (Hash.digest [49, 52] [120] Hash.sentinel Hash.sentinel)) 2))) (OptTree.some (SparseTree.mk (Node.mk [49] [120] (Option.some [49, 49]) (Option.some (Link.mk [48] (Hash.digest [48] [120] Hash.sentinel Hash.sentinel) 1)) (Option.some (Link.mk [49, 48] (Hash.digest [49, 48] [120] Hash.sentinel Hash.sentinel) 1))) (OptTree.some (SparseTree.mk (Node.mk [48] [120] (Option.some [49]) Option.none Option.none) OptTree.none OptTree.none)) (OptTree.some (SparseTree.mk (Node.mk [49, 48] [120] (Option.some [49]) Option.none Option.none) OptTree.none OptTree.none)))) (OptTree.some (SparseTree.mk (Node.mk [49, 51] [120] (Option.some [49, 49]) (Option.some (Link.mk [49, 50] (Hash.digest [49, 50] [120] Hash.sentinel Hash.sentinel) 1)) (Option.some (Link.mk [49, 52] (Hash.digest [49, 52] [120] Hash.sentinel Hash.sentinel) 1))) (OptTree.some (SparseTree.mk (Node.mk [49, 50] [120] (Option.some [49, 51]) Option.none Option.none) OptTree.none OptTree.none)) (OptTree.some (SparseTree.mk (Node.mk [49, 52] [120] (Option.some [49, 51]) Option.none Option.none) OptTree.none OptTree.none)))))) (OptTree.some (SparseTree.mk (Node.mk [49, 55] [120] (Option.some [49, 53]) (Option.some (Link.mk [49, 54] (Hash.digest [49, 54] [120] Hash.sentinel Hash.sentinel) 1)) (Option.some (Link.mk [50] (Hash.digest [50] [120] (Hash.digest [49, 56] [120] Hash.sentinel Hash.sentinel) Hash.sentinel) 2))) (OptTree.some (SparseTree.mk (Node.mk [49, 54] [120] (Option.some [49, 55]) Option.none Option.none) OptTree.none OptTree.none)) (OptTree.some (SparseTree.mk (Node.mk [50] [120] (Option.some [49, 55]) (Option.some (Link.mk [49, 56] (Hash.digest [49, 56] [120] Hash.sentinel Hash.sentinel) 1)) Option.none) (OptTree.some (SparseTree.mk (Node.mk [49, 56] [120] (Option.some [50]) Option.none Option.none) OptTree.none OptTree.none)) OptTree.none)))))) (OptTree.some (SparseTree.mk (Node.mk [55] [120] (Option.some [51]) (Option.some (Link.mk [53] (Hash.digest [53] [120] (Hash.digest [52] [120] Hash.sentinel Hash.sentinel) (Hash.digest [54] [120] Hash.sentinel Hash.sentinel)) 2)) (Option.some (Link.mk [56] (Hash.digest [56] [120] Hash.sentinel (Hash.digest [57] [120] Hash.sentinel Hash.sentinel)) 2))) (OptTree.some (SparseTree.mk (Node.mk [53] [120] (Option.some [55]) (Option.some (Link.mk [52] (Hash.digest [52] [120] Hash.sentinel Hash.sentinel) 1)) (Option.some (Link.mk [54] (Hash.digest [54] [120] Hash.sentinel Hash.sentinel) 1))) (OptTree.some (SparseTree.mk (Node.mk [52] [120] (Option.some [53]) Option.none Option.none) OptTree.none OptTree.none)) (OptTree.some (SparseTree.mk (Node.mk [54] [120] (Option.some [53]) Option.none Option.none) OptTree.none OptTree.none)))) (OptTree.some (SparseTree.mk (Node.mk [56] [120] (Option.some [55]) Option.none (Option.some (Link.mk [57] (Hash.digest [57] [120] Hash.sentinel Hash.sentinel) 1))) OptTree.none (OptTree.some (SparseTree.mk (Node.mk [57] [120] (Option.some [56]) Option.none Option.none) OptTree.none OptTree.none))))))) := by
  rfl

theorem c4_step19 :
    (SparseTree.mk (Node.mk [51] [120] Option.none (Option.some (Link.mk [49, 53] (Hash.digest [49, 53] [120] (Hash.digest [49, 49] [120] (Hash.digest [49] [120] (Hash.digest [48] [120] Hash.sentinel Hash.sentinel) (Hash.digest [49, 48] [120] Hash.sentinel Hash.sentinel)) (Hash.digest [49, 51] [120] (Hash.digest [49, 50] [120] Hash.sentinel Hash.sentinel) (Hash.digest [49, 52] [120] Hash.sentinel Hash.sentinel))) (Hash.digest [49, 55] [120] (Hash.digest [49, 54] [120] Hash.sentinel Hash.sentinel) (Hash.digest [50] [120] (Hash.digest [49, 56] [120] Hash.sentinel Hash.sentinel) Hash.sentinel))) 4)) (Option.some (Link.mk [55] (Hash.digest [55] [120] (Hash.digest [53] [120] (Hash.digest [52] [120] Hash.sentinel Hash.sentinel) (Hash.digest [54] [120] Hash.sentinel Hash.sentinel)) (Hash.digest [56] [120] Hash.sentinel (Hash.digest [57] [120] Hash.sentinel Hash.sentinel))) 3))) (OptTree.some (SparseTree.mk (Node.mk [49, 53] [120] (Option.some [51]) (Option.some (Link.mk [49, 49] (Hash.digest [49, 49] [120] (Hash.digest [49] [120] (Hash.digest [48] [120] Hash.sentinel Hash.sentinel) (Hash.digest [49, 48] [120] Hash.sentinel Hash.sentinel)) (Hash.digest [49, 51] [120] (Hash.digest [49, 50] [120] Hash.sentinel Hash.sentinel) (Hash.digest [49, 52] [120] Hash.sentinel Hash.sentinel))) 3)) (Option.some (Link.mk [49, 55] (Hash.digest [49, 55] [120] (Hash.digest [49, 54] [120] Hash.sentinel Hash.sentinel) (Hash.digest [50] [120] (Hash.digest [49, 56] [120] Hash.sentinel Hash.sentinel) Hash.sentinel)) 3))) (OptTree.some (SparseTree.mk (Node.mk [49, 49] [120] (Option.some [49, 53]) (Option.some (Link.mk [49] (Hash.digest [49] [120] (Hash.digest [48] [120] Hash.sentinel Hash.sentinel) (Hash.digest [49, 48] [120] Hash.sentinel Hash.sentinel)) 2)) (Option.some (Link.mk [49, 51] (Hash.digest [49, 51] [120] (Hash.digest [49, 50] [120] Hash.sentinel Hash.sentinel) (Hash.digest [49, 52] [120] Hash.sentinel Hash.sentinel)) 2))) (OptTree.some (SparseTree.mk (Node.mk [49] [120] (Option.some [49, 49]) (Option.some (Link.mk [48] (Hash.digest [48] [120] Hash.sentinel Hash.sentinel) 1)) (Option.some (Link.mk [49, 48] (Hash.digest [49, 48] [120] Hash.sentinel Hash.sentinel) 1))) (OptTree.some (SparseTree.mk (Node.mk [48] [120] (Option.some [49]) Option.none Option.none) OptTree.none OptTree.none)) (OptTree.some (SparseTree.mk (Node.mk [49, 48] [120] (Option.some [49]) Option.none Option.none) OptTree.none OptTree.none)))) (OptTree.some (SparseTree.mk (Node.mk [49, 51] [120] (Option.some [49, 49]) (Option.some (Link.mk [49, 50] (Hash.digest [49, 50] [120] Hash.sentinel Hash.sentinel) 1)) (Option.some (Link.mk [49, 52] (Hash.digest [49, 52] [120] Hash.sentinel Hash.sentinel) 1))) (OptTree.some (SparseTree.mk (Node.mk [49, 50] [120] (Option.some [49, 51]) Option.none Option.none) OptTree.none OptTree.none)) (OptTree.some (SparseTree.mk (Node.mk [49, 52] [120] (Option.some [49, 51]) Option.none Option.none) OptTree.none OptTree.none)))))) (OptTree.some (SparseTree.mk (Node.mk [49, 55] [120] (Option.some [49, 53]) (Option.some (Link.mk [49, 54] (Hash.digest [49, 54] [120] Hash.sentinel Hash.sentinel) 1)) (Option.some (Link.mk [50] (Hash.digest [50] [120] (Hash.digest [49, 56] [120] Hash.sentinel Hash.sentinel) Hash.sentinel) 2))) (OptTree.some (SparseTree.mk (Node.mk [49, 54] [120] (Option.some [49, 55]) Option.none Option.none) OptTree.none OptTree.none)) (OptTree.some (SparseTree.mk (Node.mk [50] [120] (Option.some [49, 55]) (Option.some (Link.mk [49, 56] (Hash.digest [49, 56] [120] Hash.sentinel Hash.sentinel) 1)) Option.none) (OptTree.some (SparseTree.mk (Node.mk [49, 56] [120] (Option.some [50]) Option.none Option.none) OptTree.none OptTree.none)) OptTree.none)))))) (OptTree.some (SparseTree.mk (Node.mk [55] [120] (Option.some [51]) (Option.some (Link.mk [53] (Hash.digest [53] [120] (Hash.digest [52] [120] Hash.sentinel Hash.sentinel) (Hash.digest [54] [120] Hash.sentinel Hash.sentinel)) 2)) (Option.some (Link.mk [56] (Hash.digest [56] [120] Hash.sentinel (Hash.digest [57] [120] Hash.sentinel Hash.sentinel)) 2))) (OptTree.some (SparseTree.mk (Node.mk [53] [120] (Option.some [55]) (Option.some (Link.mk [52] (Hash.digest [52] [120] Hash.sentinel Hash.sentinel) 1)) (Option.some (Link.mk [54] (Hash.digest [54] [120] Hash.sentinel Hash.sentinel) 1))) (OptTree.some (SparseTree.mk (Node.mk [52] [120] (Option.some [53]) Option.none Option.none) OptTree.none OptTree.none)) (OptTree.some (SparseTree.mk (Node.mk [54] [120] (Option.some [53]) Option.none Option.none) OptTree.none OptTree.none)))) (OptTree.some (SparseTree.mk (Node.mk [56] [120] (Option.some [55]) Option.none (Option.some (Link.mk [57] (Hash.digest [57] [120] Hash.sentinel Hash.sentinel) 1))) OptTree.none (OptTree.some (SparseTree.mk (Node.mk [57] [120] (Option.some [56]) Option.none Option.none) OptTree.none OptTree.none))))))).put (fun _ => Node.new [] []) [49, 57] [120]
      = Option.some (SparseTree.mk (Node.mk [51] [120] Option.none (Option.some (Link.mk [49, 53] (Hash.digest [49, 53] [120] (Hash.digest [49, 49] [120] (Hash.digest [49] [120] (Hash.digest [48] [120] Hash.sentinel Hash.sentinel) (Hash.digest [49, 48] [120] Hash.sentinel Hash.sentinel)) (Hash.digest [49, 51] [120] (Hash.digest [49, 50] [120] Hash.sentinel Hash.sentinel) (Hash.digest [49, 52] [120] Hash.sentinel Hash.sentinel))) (Hash.digest [49, 55] [120] (Hash.digest [49, 54] [120] Hash.sentinel Hash.sentinel) (Hash.digest [49, 57] [120] (Hash.digest [49, 56] [120] Hash.sentinel Hash.sentinel) (Hash.digest [50] [120] Hash.sentinel Hash.sentinel)))) 4)) (Option.some (Link.mk [55] (Hash.digest [55] [120] (Hash.digest [53] [120] (Hash.digest [52] [120] Hash.sentinel Hash.sentinel) (Hash.digest [54] [120] Hash.sentinel Hash.sentinel)) (Hash.digest [56] [120] Hash.sentinel (Hash.digest [57] [120] Hash.sentinel Hash.sentinel))) 3))) (OptTree.some (SparseTree.mk (Node.mk [49, 53] [120] (Option.some [51]) (Option.some (Link.mk [49, 49] (Hash.digest [49, 49] [120] (Hash.digest [49] [120] (Hash.digest [48] [120] Hash.sentinel Hash.sentinel) (Hash.digest [49, 48] [120] Hash.sentinel Hash.sentinel)) (Hash.digest [49, 51] [120] (Hash.digest [49, 50] [120] Hash.sentinel Hash.sentinel) (Hash.digest [49, 52] [120] Hash.sentinel Hash.sentinel))) 3)) (Option.some (Link.mk [49, 55] (Hash.digest [49, 55] [120] (Hash.digest [49, 54] [120] Hash.sentinel Hash.sentinel) (Hash.digest [49, 57] [120] (Hash.digest [49, 56] [120] Hash.sentinel Hash.sentinel) (Hash.digest [50] [120] Hash.sentinel Hash.sentinel))) 3))) (OptTree.some (SparseTree.mk (Node.mk [49, 49] [120] (Option.some [49, 53]) (Option.some (Link.mk [49] (Hash.digest [49] [120] (Hash.digest [48] [120] Hash.sentinel Hash.sentinel) (Hash.digest [49, 48] [120] Hash.sentinel Hash.sentinel)) 2)) (Option.some (Link.mk [49, 51] (Hash.digest [49, 51] [120] (Hash.digest [49, 50] [120] Hash.sentinel Hash.sentinel) (Hash.digest [49, 52] [120] Hash.sentinel Hash.sentinel)) 2))) (OptTree.some (SparseTree.mk (Node.mk [49] [120] (Option.some [49, 49]) (Option.some (Link.mk [48] (Hash.digest [48] [120] Hash.sentinel Hash.sentinel) 1)) (Option.some (Link.mk [49, 48] (Hash.digest [49, 48] [120] Hash.sentinel Hash.sentinel) 1))) (OptTree.some (SparseTree.mk (Node.mk [48] [120] (Option.some [49]) Option.none Option.none) OptTree.none OptTree.none)) (OptTree.some (SparseTree.mk (Node.mk [49, 48] [120] (Option.some [49]) Option.none Option.none) OptTree.none OptTree.none)))) (OptTree.some (SparseTree.mk (Node.mk [49, 51] [120] (Option.some [49, 49]) (Option.some (Link.mk [49, 50] (Hash.digest [49, 50] [120] Hash.sentinel Hash.sentinel) 1)) (Option.some (Link.mk [49, 52] (Hash.digest [49, 52] [120] Hash.sentinel Hash.sentinel) 1))) (OptTree.some (SparseTree.mk (Node.mk [49, 50] [120] (Option.some [49, 51]) Option.none Option.none) OptTree.none OptTree.none)) (OptTree.some (SparseTree.mk (Node.mk [49, 52] [120] (Option.some [49, 51]) Option.none Option.none) OptTree.none OptTree.none)))))) (OptTree.some (SparseTree.mk (Node.mk [49, 55] [120] (Option.some [49, 53]) (Option.some (Link.mk [49, 54] (Hash.digest [49, 54] [120] Hash.sentinel Hash.sentinel) 1)) (Option.some (Link.mk [49, 57] (Hash.digest [49, 57] [120] (Hash.digest [49, 56] [120] Hash.sentinel Hash.sentinel) (Hash.digest [50] [120] Hash.sentinel Hash.sentinel)) 2))) (OptTree.some (SparseTree.mk (Node.mk [49, 54] [120] (Option.some [49, 55]) Option.none Option.none) OptTree.none OptTree.none)) (OptTree.some (SparseTree.mk (Node.mk [49, 57] [120] (Option.some [49, 55]) (Option.some (Link.mk [49, 56] (Hash.digest [49, 56] [120] Hash.sentinel Hash.sentinel) 1)) (Option.some (Link.mk [50] (Hash.digest [50] [120] Hash.sentinel Hash.sentinel) 1))) (OptTree.some (SparseTree.mk (Node.mk [49, 56] [120] (Option.some [49, 57]) Option.none Option.none) OptTree.none OptTree.none)) (OptTree.some (SparseTree.mk (Node.mk [50] [120] (Option.some [49, 57]) Option.none Option.none) OptTree.none OptTree.none)))))))) (OptTree.some (SparseTree.mk (Node.mk [55] [120] (Option.some [51]) (Option.some (Link.mk [53] (Hash.digest [53] [120] (Hash.digest [52] [120] Hash.sentinel Hash.sentinel) (Hash.digest [54] [120] Hash.sentinel Hash.sentinel)) 2)) (Option.some (Link.mk [56] (Hash.digest [56] [120] Hash.sentinel (Hash.digest [57] [120] Hash.sentinel Hash.sentinel)) 2))) (OptTree.some (SparseTree.mk (Node.mk [53] [120] (Option.some [55]) (Option.some (Link.mk [52] (Hash.digest [52] [120] Hash.sentinel Hash.sentinel) 1)) (Option.some (Link.mk [54] (Hash.digest [54] [120] Hash.sentinel Hash.sentinel) 1))) (OptTree.some (SparseTree.mk (Node.mk [52] [120] (Option.some [53]) Option.none Option.none) OptTree.none OptTree.none)) (OptTree.some (SparseTree.mk (Node.mk [54] [120] (Option.some [53]) Option.none Option.none) OptTree.none OptTree.none)))) (OptTree.some (SparseTree.mk (Node.mk [56] [120] (Option.some [55]) Option.none (Option.some (Link.mk [57] (Hash.digest [57] [120] Hash.sentinel Hash.sentinel) 1))) OptTree.none (OptTree.some (SparseTree.mk (Node.mk [57] [120] (Option.some [56]) Option.none Option.none) OptTree.none OptTree.none))))))) := by
  rfl

/-- C4: Starting from a singleton tree holding key "0" (byte 48) with value
"x" (byte 120) and then calling `put` with keys "1" through "19" as
decimal-string byte sequences, each with value "x", in increasing numeric
order, the resulting tree has root key "3" (byte 51), overall height 5,
left-subtree height 4 and right-subtree height 3 (heights as stored in the
links, with a leaf of height 1, exactly as the repository's `simple_put` test
checks them). -/
theorem c4_concrete :
    ((SparseTree.new (Node.new [48] [120])).putList (fun _ => Node.new [] [])
        [([49], [120]), ([50], [120]), ([51], [120]), ([52], [120]),
         ([53], [120]), ([54], [120]), ([55], [120]), ([56], [120]),
         ([57], [120]), ([49, 48], [120]), ([49, 49], [120]), ([49, 50], [120]),
         ([49, 51], [120]), ([49, 52], [120]), ([49, 53], [120]),
         ([49, 54], [120]), ([49, 55], [120]), ([49, 56], [120]),
         ([49, 57], [120])]).map
      (fun t => (t.nodeOf.key, t.nodeOf.height, t.nodeOf.child_height true,
        t.nodeOf.child_height false))
      = Option.some ([51], 5, 4, 3) := by
  rw [show SparseTree.new (Node.new [48] [120]) = (SparseTree.mk (Node.mk [48] [120] Option.none Option.none Option.none) OptTree.none OptTree.none) from rfl]
  rw [putList_cons_some _ _ _ _ _ _ c4_step1,
    putList_cons_some _ _ _ _ _ _ c4_step2,
    putList_cons_some _ _ _ _ _ _ c4_step3,
    putList_cons_some _ _ _ _ _ _ c4_step4,
    putList_cons_some _ _ _ _ _ _ c4_step5,
    putList_cons_some _ _ _ _ _ _ c4_step6,
    putList_cons_some _ _ _ _ _ _ c4_step7,
    putList_cons_some _ _ _ _ _ _ c4_step8,
    putList_cons_some _ _ _ _ _ _ c4_step9,
    putList_cons_some _ _ _ _ _ _ c4_step10,
    putList_cons_some _ _ _ _ _ _ c4_step11,
    putList_cons_some _ _ _ _ _ _ c4_step12,
    putList_cons_some _ _ _ _ _ _ c4_step13,
    putList_cons_some _ _ _ _ _ _ c4_step14,
    putList_cons_some _ _ _ _ _ _ c4_step15,
    putList_cons_some _ _ _ _ _ _ c4_step16,
    putList_cons_some _ _ _ _ _ _ c4_step17,
    putList_cons_some _ _ _ _ _ _ c4_step18,
    putList_cons_some _ _ _ _ _ _ c4_step19]
  rfl

/-! ## Shape only: facts about `scrub` -/

theorem scrub_mk (n : Node) (l r : OptTree) :
    (SparseTree.mk n l r).scrub = SparseTree.mk n.scrub l.scrub r.scrub := rfl

theorem scrub_some (t : SparseTree) :
    (OptTree.some t).scrub = OptTree.some t.scrub := rfl

theorem nscrub_parts {a b : Node} (h : a.scrub = b.scrub) :
    a.key = b.key ∧ a.parent_key = b.parent_key ∧
      Option.map Link.scrub a.left_link = Option.map Link.scrub b.left_link ∧
      Option.map Link.scrub a.right_link = Option.map Link.scrub b.right_link := by
  simp only [Node.scrub, Node.mk.injEq] at h
  exact ⟨h.1, h.2.2.1, h.2.2.2.1, h.2.2.2.2⟩

theorem olink_height_congr : ∀ {a b : Option Link},
    Option.map Link.scrub a = Option.map Link.scrub b →
    a.elim 0 Link.height = b.elim 0 Link.height
  | Option.none, Option.none, _ => rfl
  | Option.none, Option.some _, h => Option.noConfusion h
  | Option.some _, Option.none, h => Option.noConfusion h
  | Option.some x, Option.some y, h => by
    have h' : Option.some (Link.scrub x) = Option.some (Link.scrub y) := h
    simp only [Option.some.injEq, Link.scrub, Link.mk.injEq] at h'
    simp only [Option.elim]
    exact h'.2.2

theorem nscrub_child_height {a b : Node} (h : a.scrub = b.scrub) (s : Bool) :
    a.child_height s = b.child_height s := by
  obtain ⟨_, _, hl, hr⟩ := nscrub_parts h
  cases s with
  | true => exact olink_height_congr hl
  | false => exact olink_height_congr hr

theorem nscrub_height {a b : Node} (h : a.scrub = b.scrub) :
    a.height = b.height := by
  rw [Node.height, Node.height, nscrub_child_height h true,
    nscrub_child_height h false]

theorem nscrub_bf {a b : Node} (h : a.scrub = b.scrub) :
    a.balance_factor = b.balance_factor := by
  rw [Node.balance_factor, Node.balance_factor, nscrub_child_height h true,
    nscrub_child_height h false]

theorem tscrub_parts : ∀ {t t' : SparseTree}, t.scrub = t'.scrub →
    t.nodeOf.scrub = t'.nodeOf.scrub ∧
      (t.childOf true).scrub = (t'.childOf true).scrub ∧
      (t.childOf false).scrub = (t'.childOf false).scrub
  | .mk n l r, .mk n' l' r', h => by
    simp only [scrub_mk, SparseTree.mk.injEq] at h
    exact ⟨h.1, h.2.1, h.2.2⟩

theorem as_link_scrub (m : Node) :
    Link.scrub m.as_link = Link.mk m.key Hash.sentinel m.height := rfl

theorem linkOf_scrub_congr : ∀ {c c' : OptTree}, c.scrub = c'.scrub →
    Option.map Link.scrub c.linkOf = Option.map Link.scrub c'.linkOf
  | .none, .none, _ => rfl
  | .none, .some _, h => by simp [OptTree.scrub] at h
  | .some _, .none, h => by simp [OptTree.scrub] at h
  | .some t, .some t', h => by
    simp only [OptTree.scrub, OptTree.some.injEq] at h
    obtain ⟨hn, _, _⟩ := tscrub_parts h
    show Option.some (Link.scrub t.nodeOf.as_link)
        = Option.some (Link.scrub t'.nodeOf.as_link)
    rw [as_link_scrub, as_link_scrub, (nscrub_parts hn).1, nscrub_height hn]

mutual
theorem scrub_realHeight : ∀ t : SparseTree, t.scrub.realHeight = t.realHeight
  | .mk n l r => by
    rw [scrub_mk, realHeight_mk, realHeight_mk, scrub_realHeightO l,
      scrub_realHeightO r]
theorem scrub_realHeightO : ∀ c : OptTree, c.scrub.realHeight = c.realHeight
  | .none => rfl
  | .some t => by
    rw [scrub_some, realHeight_some, realHeight_some, scrub_realHeight t]
end

theorem scrubO_height_congr {c c' : OptTree} (h : c.scrub = c'.scrub) :
    c.realHeight = c'.realHeight := by
  rw [← scrub_realHeightO c, ← scrub_realHeightO c', h]

theorem linkOf_height_congr {c c' : OptTree} (h : c.scrub = c'.scrub) :
    c.linkOf.elim 0 Link.height = c'.linkOf.elim 0 Link.height :=
  olink_height_congr (linkOf_scrub_congr h)

theorem scrub_set_parent (t : SparseTree) (p : Option Bytes) :
    (t.set_parent p).scrub
      = SparseTree.mk { t.nodeOf.scrub with parent_key := p }
          (t.childOf true).scrub (t.childOf false).scrub := by
  cases t with
  | mk n l r =>
    rw [show (SparseTree.mk n l r).set_parent p
        = SparseTree.mk (n.set_parent p) l r from rfl, scrub_mk]
    rfl

theorem setParentO_scrub_congr {c c' : OptTree} (h : c.scrub = c'.scrub)
    (p : Option Bytes) : (c.setParentO p).scrub = (c'.setParentO p).scrub := by
  cases c with
  | none =>
    cases c' with
    | none => rfl
    | some t => exact absurd h (by simp [OptTree.scrub])
  | some t =>
    cases c' with
    | none => exact absurd h (by simp [OptTree.scrub])
    | some t' =>
      simp only [OptTree.scrub, OptTree.some.injEq] at h
      obtain ⟨hn, h1, h2⟩ := tscrub_parts h
      simp only [OptTree.setParentO, OptTree.scrub, OptTree.some.injEq]
      rw [scrub_set_parent, scrub_set_parent, hn, h1, h2]

theorem mgc_hydOk (g : GetNodeFn) (t : SparseTree) (s : Bool)
    (h : t.hydOk = true) : t.maybe_get_child g s = (t.childOf s, t) := by
  cases t with
  | mk n l r =>
    obtain ⟨hl, hr, _, _⟩ := (hydOk_parts n l r).mp h
    cases s with
    | true =>
      cases l with
      | none =>
        simp only [OptTree.linkOf] at hl
        exact mgc_none g _ true (by simpa [SparseTree.nodeOf, Node.child_link])
      | some c =>
        simp only [OptTree.linkOf, SparseTree.nodeOf] at hl
        exact mgc_some g _ true c c.nodeOf.as_link
          (by simpa [SparseTree.nodeOf, Node.child_link]) rfl
    | false =>
      cases r with
      | none =>
        simp only [OptTree.linkOf] at hr
        exact mgc_none g _ false (by simpa [SparseTree.nodeOf, Node.child_link])
      | some c =>
        simp only [OptTree.linkOf, SparseTree.nodeOf] at hr
        exact mgc_some g _ false c c.nodeOf.as_link
          (by simpa [SparseTree.nodeOf, Node.child_link]) rfl

theorem rotate_none (g : GetNodeFn) (t : SparseTree) (s : Bool)
    (hlink : t.nodeOf.child_link s = Option.none)
    (hfield : t.childOf s = .none) :
    t.rotate g s = Option.none := by
  rw [SparseTree.rotate, mgc_none g t s hlink]
  simp only [hfield]

theorem rotate_hydOk (g : GetNodeFn) (s : Bool) (t t' : SparseTree)
    (hhyd : t.hydOk = true) (hrot : t.rotate g s = Option.some t') :
    t'.hydOk = true := by
  cases t with
  | mk n l r =>
    obtain ⟨hl, hr, hlhyd, hrhyd⟩ := (hydOk_parts n l r).mp hhyd
    cases s with
    | true =>
      cases l with
      | none =>
        have hl' : n.left_link = Option.none := by
          simpa [OptTree.linkOf] using hl
        rw [rotate_none g (SparseTree.mk n OptTree.none r) true
          (by simpa [SparseTree.nodeOf, Node.child_link] using hl') rfl] at hrot
        exact Option.noConfusion hrot
      | some c =>
        cases c with
        | mk ln ll lr =>
          simp only [OptTree.hydOk] at hlhyd
          obtain ⟨lnl, lnr, llhyd, lrhyd⟩ := (hydOk_parts ln ll lr).mp hlhyd
          rw [rotate_true_eq g n ln ll lr r lnr] at hrot
          injection hrot with h'
          subst h'
          rw [hydOk_parts]
          refine ⟨rfl, rfl, llhyd, ?_⟩
          simp only [OptTree.hydOk]
          rw [hydOk_parts]
          exact ⟨by simp [linkOf_setParentO], rfl,
            by simpa [hydOk_setParentO] using lrhyd, hrhyd⟩
    | false =>
      cases r with
      | none =>
        have hr' : n.right_link = Option.none := by
          simpa [OptTree.linkOf] using hr
        rw [rotate_none g (SparseTree.mk n l OptTree.none) false
          (by simpa [SparseTree.nodeOf, Node.child_link] using hr') rfl] at hrot
        exact Option.noConfusion hrot
      | some c =>
        cases c with
        | mk rn rl rr =>
          simp only [OptTree.hydOk] at hrhyd
          obtain ⟨rnl, rnr, rlhyd, rrhyd⟩ := (hydOk_parts rn rl rr).mp hrhyd
          rw [rotate_false_eq g n rn l rl rr rnl] at hrot
          injection hrot with h'
          subst h'
          rw [hydOk_parts]
          refine ⟨rfl, rfl, ?_, rrhyd⟩
          simp only [OptTree.hydOk]
          rw [hydOk_parts]
          exact ⟨rfl, by simp [linkOf_setParentO], hlhyd,
            by simpa [hydOk_setParentO] using rlhyd⟩

theorem rotate_scrub_congr (g : GetNodeFn) (s : Bool) (a b : SparseTree)
    (ha : a.hydOk = true) (hb : b.hydOk = true) (hab : a.scrub = b.scrub) :
    Option.map SparseTree.scrub (a.rotate g s)
      = Option.map SparseTree.scrub (b.rotate g s) := by
  cases a with
  | mk n l r =>
    cases b with
    | mk n' l' r' =>
      obtain ⟨hn, hcl, hcr⟩ := tscrub_parts hab
      simp only [SparseTree.nodeOf, SparseTree.childOf] at hn hcl hcr
      obtain ⟨hl, hr, hlhyd, hrhyd⟩ := (hydOk_parts n l r).mp ha
      obtain ⟨hl', hr', hlhyd', hrhyd'⟩ := (hydOk_parts n' l' r').mp hb
      cases s with
      | true =>
        cases l with
        | none =>
          cases l' with
          | none =>
            rw [rotate_none g (SparseTree.mk n OptTree.none r) true
                (by simpa [SparseTree.nodeOf, Node.child_link,
                  OptTree.linkOf] using hl) rfl,
              rotate_none g (SparseTree.mk n' OptTree.none r') true
                (by simpa [SparseTree.nodeOf, Node.child_link,
                  OptTree.linkOf] using hl') rfl]
          | some c' => exact absurd hcl (by simp [OptTree.scrub])
        | some c =>
          cases l' with
          | none => exact absurd hcl (by simp [OptTree.scrub])
          | some c' =>
            cases c with
            | mk ln ll lr =>
              cases c' with
              | mk ln' ll' lr' =>
                simp only [OptTree.scrub, OptTree.some.injEq] at hcl
                obtain ⟨hcn, hll, hlr⟩ := tscrub_parts hcl
                simp only [SparseTree.nodeOf, SparseTree.childOf] at hcn hll hlr
                simp only [OptTree.hydOk] at hlhyd hlhyd'
                obtain ⟨lnl, lnr, llhyd, lrhyd⟩ := (hydOk_parts ln ll lr).mp hlhyd
                obtain ⟨lnl', lnr', llhyd', lrhyd'⟩ :=
                  (hydOk_parts ln' ll' lr').mp hlhyd'
                rw [rotate_true_eq g n ln ll lr r lnr,
                  rotate_true_eq g n' ln' ll' lr' r' lnr']
                show Option.some (SparseTree.scrub _)
                    = Option.some (SparseTree.scrub _)
                rw [show (SparseTree.mk
                    { ln with
                      parent_key := n.parent_key
                      left_link := ll.linkOf
                      right_link := Option.some (Node.as_link { n with
                        parent_key := Option.some ln.key
                        left_link := lr.linkOf
                        right_link := r.linkOf }) }
                    ll
                    (.some (SparseTree.mk
                      { n with
                        parent_key := Option.some ln.key
                        left_link := lr.linkOf
                        right_link := r.linkOf }
                      (lr.setParentO (Option.some n.key))
                      r))).scrub
                  = SparseTree.mk
                      (Node.mk ln.key [] n.parent_key
                        (Option.map Link.scrub ll.linkOf)
                        (Option.some (Link.mk n.key Hash.sentinel
                          (1 + max (lr.linkOf.elim 0 Link.height)
                            (r.linkOf.elim 0 Link.height)))))
                      ll.scrub
                      (OptTree.some (SparseTree.mk
                        (Node.mk n.key [] (Option.some ln.key)
                          (Option.map Link.scrub lr.linkOf)
                          (Option.map Link.scrub r.linkOf))
                        ((lr.setParentO (Option.some n.key)).scrub)
                        r.scrub)) from rfl]
                rw [show (SparseTree.mk
                    { ln' with
                      parent_key := n'.parent_key
                      left_link := ll'.linkOf
                      right_link := Option.some (Node.as_link { n' with
                        parent_key := Option.some ln'.key
                        left_link := lr'.linkOf
                        right_link := r'.linkOf }) }
                    ll'
                    (.some (SparseTree.mk
                      { n' with
                        parent_key := Option.some ln'.key
                        left_link := lr'.linkOf
                        right_link := r'.linkOf }
                      (lr'.setParentO (Option.some n'.key))
                      r'))).scrub
                  = SparseTree.mk
                      (Node.mk ln'.key [] n'.parent_key
                        (Option.map Link.scrub ll'.linkOf)
                        (Option.some (Link.mk n'.key Hash.sentinel
                          (1 + max (lr'.linkOf.elim 0 Link.height)
                            (r'.linkOf.elim 0 Link.height)))))
                      ll'.scrub
                      (OptTree.some (SparseTree.mk
                        (Node.mk n'.key [] (Option.some ln'.key)
                          (Option.map Link.scrub lr'.linkOf)
                          (Option.map Link.scrub r'.linkOf))
                        ((lr'.setParentO (Option.some n'.key)).scrub)
                        r'.scrub)) from rfl]
                rw [(nscrub_parts hcn).1, (nscrub_parts hn).1,
                  (nscrub_parts hn).2.1, linkOf_scrub_congr hll,
                  linkOf_scrub_congr hlr, linkOf_scrub_congr hcr,
                  linkOf_height_congr hlr, linkOf_height_congr hcr,
                  hll, hcr, setParentO_scrub_congr hlr]
      | false =>
        cases r with
        | none =>
          cases r' with
          | none =>
            rw [rotate_none g (SparseTree.mk n l OptTree.none) false
                (by simpa [SparseTree.nodeOf, Node.child_link,
                  OptTree.linkOf] using hr) rfl,
              rotate_none g (SparseTree.mk n' l' OptTree.none) false
                (by simpa [SparseTree.nodeOf, Node.child_link,
                  OptTree.linkOf] using hr') rfl]
          | some c' => exact absurd hcr (by simp [OptTree.scrub])
        | some c =>
          cases r' with
          | none => exact absurd hcr (by simp [OptTree.scrub])
          | some c' =>
            cases c with
            | mk rn rl rr =>
              cases c' with
              | mk rn' rl' rr' =>
                simp only [OptTree.scrub, OptTree.some.injEq] at hcr
                obtain ⟨hrn, hrl, hrr⟩ := tscrub_parts hcr
                simp only [SparseTree.nodeOf, SparseTree.childOf] at hrn hrl hrr
                simp only [OptTree.hydOk] at hrhyd hrhyd'
                obtain ⟨rnl, rnr, rlhyd, rrhyd⟩ := (hydOk_parts rn rl rr).mp hrhyd
                obtain ⟨rnl', rnr', rlhyd', rrhyd'⟩ :=
                  (hydOk_parts rn' rl' rr').mp hrhyd'
                rw [rotate_false_eq g n rn l rl rr rnl,
                  rotate_false_eq g n' rn' l' rl' rr' rnl']
                show Option.some (SparseTree.scrub _)
                    = Option.some (SparseTree.scrub _)
                rw [show (SparseTree.mk
                    { rn with
                      parent_key := n.parent_key
                      left_link := Option.some (Node.as_link { n with
                        parent_key := Option.some rn.key
                        left_link := l.linkOf
                        right_link := rl.linkOf })
                      right_link := rr.linkOf }
                    (.some (SparseTree.mk
                      { n with
                        parent_key := Option.some rn.key
                        left_link := l.linkOf
                        right_link := rl.linkOf }
                      l
                      (rl.setParentO (Option.some n.key))))
                    rr).scrub
                  = SparseTree.mk
                      (Node.mk rn.key [] n.parent_key
                        (Option.some (Link.mk n.key Hash.sentinel
                          (1 + max (l.linkOf.elim 0 Link.height)
                            (rl.linkOf.elim 0 Link.height))))
                        (Option.map Link.scrub rr.linkOf))
                      (OptTree.some (SparseTree.mk
                        (Node.mk n.key [] (Option.some rn.key)
                          (Option.map Link.scrub l.linkOf)
                          (Option.map Link.scrub rl.linkOf))
                        l.scrub
                        ((rl.setParentO (Option.some n.key)).scrub)))
                      rr.scrub from rfl]
                rw [show (SparseTree.mk
                    { rn' with
                      parent_key := n'.parent_key
                      left_link := Option.some (Node.as_link { n' with
                        parent_key := Option.some rn'.key
                        left_link := l'.linkOf
                        right_link := rl'.linkOf })
                      right_link := rr'.linkOf }
                    (.some (SparseTree.mk
                      { n' with
                        parent_key := Option.some rn'.key
                        left_link := l'.linkOf
                        right_link := rl'.linkOf }
                      l'
                      (rl'.setParentO (Option.some n'.key))))
                    rr').scrub
                  = SparseTree.mk
                      (Node.mk rn'.key [] n'.parent_key
                        (Option.some (Link.mk n'.key Hash.sentinel
                          (1 + max (l'.linkOf.elim 0 Link.height)
                            (rl'.linkOf.elim 0 Link.height))))
                        (Option.map Link.scrub rr'.linkOf))
                      (OptTree.some (SparseTree.mk
                        (Node.mk n'.key [] (Option.some rn'.key)
                          (Option.map Link.scrub l'.linkOf)
                          (Option.map Link.scrub rl'.linkOf))
                        l'.scrub
                        ((rl'.setParentO (Option.some n'.key)).scrub)))
                      rr'.scrub from rfl]
                rw [(nscrub_parts hrn).1, (nscrub_parts hn).1,
                  (nscrub_parts hn).2.1, linkOf_scrub_congr hrl,
                  linkOf_scrub_congr hrr, linkOf_scrub_congr hcl,
                  linkOf_height_congr hrl, linkOf_height_congr hcl,
                  hrr, hcl, setParentO_scrub_congr hrl]

theorem rebalance_step_none (g : GetNodeFn) (t t₁ : SparseTree)
    (hbf : ¬ t.nodeOf.balance_factor.natAbs ≤ 1)
    (hmgc : t.maybe_get_child g (decide (t.nodeOf.balance_factor < 0))
      = (.none, t₁)) :
    t.maybe_rebalance g = Option.none := by
  simp only [SparseTree.maybe_rebalance, if_neg hbf]
  rw [hmgc]

theorem rebalance_stepL_single (g : GetNodeFn) (t t₁ child : SparseTree)
    (hbf : ¬ t.nodeOf.balance_factor.natAbs ≤ 1)
    (hneg : t.nodeOf.balance_factor < 0)
    (hmgc : t.maybe_get_child g true = (.some child, t₁))
    (hcbf : ¬ child.nodeOf.balance_factor > 0) :
    t.maybe_rebalance g = t₁.rotate g true := by
  simp only [SparseTree.maybe_rebalance, if_neg hbf, decide_eq_true hneg]
  rw [hmgc]
  simp only [cond_true, decide_eq_false hcbf, Bool.false_eq_true, if_false]

theorem rebalance_stepL_double (g : GetNodeFn) (t t₁ child : SparseTree)
    (hbf : ¬ t.nodeOf.balance_factor.natAbs ≤ 1)
    (hneg : t.nodeOf.balance_factor < 0)
    (hmgc : t.maybe_get_child g true = (.some child, t₁))
    (hcbf : child.nodeOf.balance_factor > 0) :
    t.maybe_rebalance g = match child.rotate g false with
      | Option.none => Option.none
      | Option.some child₂ =>
        ((t₁.setChildField true (.some child₂)).update_link true).rotate g true := by
  simp only [SparseTree.maybe_rebalance, if_neg hbf, decide_eq_true hneg]
  rw [hmgc]
  simp only [cond_true, decide_eq_true hcbf, if_true, Bool.not_true]

theorem rebalance_stepR_single (g : GetNodeFn) (t t₁ child : SparseTree)
    (hbf : ¬ t.nodeOf.balance_factor.natAbs ≤ 1)
    (hneg : ¬ t.nodeOf.balance_factor < 0)
    (hmgc : t.maybe_get_child g false = (.some child, t₁))
    (hcbf : ¬ child.nodeOf.balance_factor < 0) :
    t.maybe_rebalance g = t₁.rotate g false := by
  simp only [SparseTree.maybe_rebalance, if_neg hbf, decide_eq_false hneg]
  rw [hmgc]
  simp only [cond_false, decide_eq_false hcbf, Bool.false_eq_true, if_false]

theorem rebalance_stepR_double (g : GetNodeFn) (t t₁ child : SparseTree)
    (hbf : ¬ t.nodeOf.balance_factor.natAbs ≤ 1)
    (hneg : ¬ t.nodeOf.balance_factor < 0)
    (hmgc : t.maybe_get_child g false = (.some child, t₁))
    (hcbf : child.nodeOf.balance_factor < 0) :
    t.maybe_rebalance g = match child.rotate g true with
      | Option.none => Option.none
      | Option.some child₂ =>
        ((t₁.setChildField false (.some child₂)).update_link false).rotate g false := by
  simp only [SparseTree.maybe_rebalance, if_neg hbf, decide_eq_false hneg]
  rw [hmgc]
  simp only [cond_false, decide_eq_true hcbf, if_true, Bool.not_false]

theorem asLink_scrub_congr {c c' : SparseTree} (h : c.scrub = c'.scrub) :
    Link.scrub c.nodeOf.as_link = Link.scrub c'.nodeOf.as_link := by
  rw [as_link_scrub, as_link_scrub, (nscrub_parts (tscrub_parts h).1).1,
    nscrub_height (tscrub_parts h).1]

theorem upd_left_eq (n : Node) (l r : OptTree) (c₂ : SparseTree) :
    ((SparseTree.mk n l r).setChildField true (.some c₂)).update_link true
      = SparseTree.mk { n with left_link := Option.some c₂.nodeOf.as_link }
          (.some c₂) r := rfl

theorem upd_right_eq (n : Node) (l r : OptTree) (c₂ : SparseTree) :
    ((SparseTree.mk n l r).setChildField false (.some c₂)).update_link false
      = SparseTree.mk { n with right_link := Option.some c₂.nodeOf.as_link }
          l (.some c₂) := rfl

theorem rebalance_scrub_congr (g : GetNodeFn) (a b : SparseTree)
    (ha : a.hydOk = true) (hb : b.hydOk = true) (hab : a.scrub = b.scrub) :
    Option.map SparseTree.scrub (a.maybe_rebalance g)
      = Option.map SparseTree.scrub (b.maybe_rebalance g) := by
  have hbf : a.nodeOf.balance_factor = b.nodeOf.balance_factor :=
    nscrub_bf (tscrub_parts hab).1
  by_cases habs : a.nodeOf.balance_factor.natAbs ≤ 1
  · rw [rebalance_noop g a habs, rebalance_noop g b (by rw [← hbf]; exact habs)]
    show Option.some a.scrub = Option.some b.scrub
    rw [hab]
  · have habs' : ¬ b.nodeOf.balance_factor.natAbs ≤ 1 := by
      rw [← hbf]; exact habs
    cases a with
    | mk n l r =>
      cases b with
      | mk n' l' r' =>
        obtain ⟨hn, hcl, hcr⟩ := tscrub_parts hab
        simp only [SparseTree.nodeOf, SparseTree.childOf] at hn hcl hcr
        obtain ⟨hl, hr, hlhyd, hrhyd⟩ := (hydOk_parts n l r).mp ha
        obtain ⟨hl', hr', hlhyd', hrhyd'⟩ := (hydOk_parts n' l' r').mp hb
        by_cases hneg : (SparseTree.mk n l r).nodeOf.balance_factor < 0
        · have hneg' : (SparseTree.mk n' l' r').nodeOf.balance_factor < 0 := by
            rw [← hbf]; exact hneg
          cases l with
          | none =>
            have hln' : l' = OptTree.none := by
              cases l' with
              | none => rfl
              | some c' => exact absurd hcl (by simp [OptTree.scrub])
            subst hln'
            rw [rebalance_step_none g _ _ habs
                (by rw [decide_eq_true hneg, mgc_hydOk g _ true ha]; rfl),
              rebalance_step_none g _ _ habs'
                (by rw [decide_eq_true hneg', mgc_hydOk g _ true hb]; rfl)]
          | some c =>
            cases l' with
            | none => exact absurd hcl (by simp [OptTree.scrub])
            | some c' =>
              simp only [OptTree.scrub, OptTree.some.injEq] at hcl
              simp only [OptTree.hydOk] at hlhyd hlhyd'
              have hcbf : c.nodeOf.balance_factor = c'.nodeOf.balance_factor :=
                nscrub_bf (tscrub_parts hcl).1
              by_cases hdbl : c.nodeOf.balance_factor > 0
              · rw [rebalance_stepL_double g _ _ c habs hneg
                    (by rw [mgc_hydOk g _ true ha]; rfl) hdbl,
                  rebalance_stepL_double g _ _ c' habs' hneg'
                    (by rw [mgc_hydOk g _ true hb]; rfl)
                    (by rw [← hcbf]; exact hdbl)]
                have hrot := rotate_scrub_congr g false c c' hlhyd hlhyd' hcl
                cases hra : c.rotate g false with
                | none =>
                  rw [hra] at hrot
                  cases hrb : c'.rotate g false with
                  | none => rfl
                  | some d =>
                    rw [hrb] at hrot
                    exact Option.noConfusion hrot
                | some c₂ =>
                  rw [hra] at hrot
                  cases hrb : c'.rotate g false with
                  | none =>
                    rw [hrb] at hrot
                    exact Option.noConfusion hrot
                  | some c₂' =>
                    rw [hrb] at hrot
                    have hc₂ : c₂.scrub = c₂'.scrub := by
                      have := hrot
                      simp only [Option.map_some'] at this
                      exact Option.some.inj this
                    show Option.map SparseTree.scrub
                        ((((SparseTree.mk n (OptTree.some c) r).setChildField
                          true (OptTree.some c₂)).update_link true).rotate g true)
                      = Option.map SparseTree.scrub
                        ((((SparseTree.mk n' (OptTree.some c') r').setChildField
                          true (OptTree.some c₂')).update_link true).rotate g true)
                    rw [upd_left_eq, upd_left_eq]
                    refine rotate_scrub_congr g true _ _ ?_ ?_ ?_
                    · rw [hydOk_parts]
                      exact ⟨rfl, hr, by
                        simpa [OptTree.hydOk] using
                          rotate_hydOk g false c c₂ hlhyd hra, hrhyd⟩
                    · rw [hydOk_parts]
                      exact ⟨rfl, hr', by
                        simpa [OptTree.hydOk] using
                          rotate_hydOk g false c' c₂' hlhyd' hrb, hrhyd'⟩
                    · rw [scrub_mk, scrub_mk]
                      rw [show Node.scrub { n with
                          left_link := Option.some c₂.nodeOf.as_link }
                        = Node.mk n.key [] n.parent_key
                            (Option.some (Link.scrub c₂.nodeOf.as_link))
                            (Option.map Link.scrub n.right_link) from rfl]
                      rw [show Node.scrub { n' with
                          left_link := Option.some c₂'.nodeOf.as_link }
                        = Node.mk n'.key [] n'.parent_key
                            (Option.some (Link.scrub c₂'.nodeOf.as_link))
                            (Option.map Link.scrub n'.right_link) from rfl]
                      rw [(nscrub_parts hn).1, (nscrub_parts hn).2.1,
                        (nscrub_parts hn).2.2.2, asLink_scrub_congr hc₂,
                        scrub_some, scrub_some, hc₂, hcr]
              · rw [rebalance_stepL_single g _ _ c habs hneg
                    (by rw [mgc_hydOk g _ true ha]; rfl) hdbl,
                  rebalance_stepL_single g _ _ c' habs' hneg'
                    (by rw [mgc_hydOk g _ true hb]; rfl)
                    (by rw [← hcbf]; exact hdbl)]
                exact rotate_scrub_congr g true _ _ ha hb hab
        · have hneg' : ¬ (SparseTree.mk n' l' r').nodeOf.balance_factor < 0 := by
            rw [← hbf]; exact hneg
          cases r with
          | none =>
            have hrn' : r' = OptTree.none := by
              cases r' with
              | none => rfl
              | some c' => exact absurd hcr (by simp [OptTree.scrub])
            subst hrn'
            rw [rebalance_step_none g _ _ habs
                (by rw [decide_eq_false hneg, mgc_hydOk g _ false ha]; rfl),
              rebalance_step_none g _ _ habs'
                (by rw [decide_eq_false hneg', mgc_hydOk g _ false hb]; rfl)]
          | some c =>
            cases r' with
            | none => exact absurd hcr (by simp [OptTree.scrub])
            | some c' =>
              simp only [OptTree.scrub, OptTree.some.injEq] at hcr
              simp only [OptTree.hydOk] at hrhyd hrhyd'
              have hcbf : c.nodeOf.balance_factor = c'.nodeOf.balance_factor :=
                nscrub_bf (tscrub_parts hcr).1
              by_cases hdbl : c.nodeOf.balance_factor < 0
              · rw [rebalance_stepR_double g _ _ c habs hneg
                    (by rw [mgc_hydOk g _ false ha]; rfl) hdbl,
                  rebalance_stepR_double g _ _ c' habs' hneg'
                    (by rw [mgc_hydOk g _ false hb]; rfl)
                    (by rw [← hcbf]; exact hdbl)]
                have hrot := rotate_scrub_congr g true c c' hrhyd hrhyd' hcr
                cases hra : c.rotate g true with
                | none =>
                  rw [hra] at hrot
                  cases hrb : c'.rotate g true with
                  | none => rfl
                  | some d =>
                    rw [hrb] at hrot
                    exact Option.noConfusion hrot
                | some c₂ =>
                  rw [hra] at hrot
                  cases hrb : c'.rotate g true with
                  | none =>
                    rw [hrb] at hrot
                    exact Option.noConfusion hrot
                  | some c₂' =>
                    rw [hrb] at hrot
                    have hc₂ : c₂.scrub = c₂'.scrub := by
                      have := hrot
                      simp only [Option.map_some'] at this
                      exact Option.some.inj this
                    show Option.map SparseTree.scrub
                        ((((SparseTree.mk n l (OptTree.some c)).setChildField
                          false (OptTree.some c₂)).update_link false).rotate g false)
                      = Option.map SparseTree.scrub
                        ((((SparseTree.mk n' l' (OptTree.some c')).setChildField
                          false (OptTree.some c₂')).update_link false).rotate g false)
                    rw [upd_right_eq, upd_right_eq]
                    refine rotate_scrub_congr g false _ _ ?_ ?_ ?_
                    · rw [hydOk_parts]
                      exact ⟨hl, rfl, hlhyd, by
                        simpa [OptTree.hydOk] using
                          rotate_hydOk g true c c₂ hrhyd hra⟩
                    · rw [hydOk_parts]
                      exact ⟨hl', rfl, hlhyd', by
                        simpa [OptTree.hydOk] using
                          rotate_hydOk g true c' c₂' hrhyd' hrb⟩
                    · rw [scrub_mk, scrub_mk]
                      rw [show Node.scrub { n with
                          right_link := Option.some c₂.nodeOf.as_link }
                        = Node.mk n.key [] n.parent_key
                            (Option.map Link.scrub n.left_link)
                            (Option.some (Link.scrub c₂.nodeOf.as_link)) from rfl]
                      rw [show Node.scrub { n' with
                          right_link := Option.some c₂'.nodeOf.as_link }
                        = Node.mk n'.key [] n'.parent_key
                            (Option.map Link.scrub n'.left_link)
                            (Option.some (Link.scrub c₂'.nodeOf.as_link)) from rfl]
                      rw [(nscrub_parts hn).1, (nscrub_parts hn).2.1,
                        (nscrub_parts hn).2.2.1, asLink_scrub_congr hc₂,
                        scrub_some, scrub_some, hc₂, hcl]
              · rw [rebalance_stepR_single g _ _ c habs hneg
                    (by rw [mgc_hydOk g _ false ha]; rfl) hdbl,
                  rebalance_stepR_single g _ _ c' habs' hneg'
                    (by rw [mgc_hydOk g _ false hb]; rfl)
                    (by rw [← hcbf]; exact hdbl)]
                exact rotate_scrub_congr g false _ _ ha hb hab

theorem putF_value_indep (g : GetNodeFn) : ∀ (fuel : Nat) (t : SparseTree)
    (k v v' : Bytes) (lo hi pk : Option Bytes),
    t.hydOk = true → t.balancedOk = true → t.bstOk lo hi = true →
    t.parentOk pk = true → btwnB lo hi k = true → t.realHeight < fuel →
    Option.map SparseTree.scrub (t.putF g fuel k v)
      = Option.map SparseTree.scrub (t.putF g fuel k v') := by
  intro fuel
  induction fuel with
  | zero => intro t k v v' lo hi pk _ _ _ _ _ hfuel; omega
  | succ fuel ih =>
    intro t k v v' lo hi pk hhyd hbal hbst hpar hbtw hfuel
    cases t with
    | mk n l r =>
      obtain ⟨hl, hr, hlhyd, hrhyd⟩ := (hydOk_parts n l r).mp hhyd
      obtain ⟨hbf_le, hball, hbalr⟩ := (balancedOk_parts n l r).mp hbal
      obtain ⟨hbtw_n, hbstl, hbstr⟩ := (bstOk_parts lo hi n l r).mp hbst
      obtain ⟨hpk, hparl, hparr⟩ := (parentOk_parts pk n l r).mp hpar
      by_cases hk : n.key = k
      · rw [putF_eq_key g fuel (SparseTree.mk n l r) k v hk,
          putF_eq_key g fuel (SparseTree.mk n l r) k v' hk]
        rfl
      · cases hL : bytesLt k n.key with
        | true =>
          cases l with
          | none =>
            simp only [OptTree.linkOf] at hl
            have hmgc : (SparseTree.mk n OptTree.none r).maybe_get_child g
                (bytesLt k (SparseTree.mk n OptTree.none r).nodeOf.key)
                = (.none, SparseTree.mk n OptTree.none r) := by
              rw [show (SparseTree.mk n OptTree.none r).nodeOf = n from rfl, hL]
              exact mgc_none g _ true
                (by simp [SparseTree.nodeOf, Node.child_link, hl])
            rw [putF_attach g fuel (SparseTree.mk n OptTree.none r)
                (SparseTree.mk n OptTree.none r) k v hk hmgc,
              putF_attach g fuel (SparseTree.mk n OptTree.none r)
                (SparseTree.mk n OptTree.none r) k v' hk hmgc]
            rw [show bytesLt k (SparseTree.mk n OptTree.none r).nodeOf.key = true
              from hL]
            have hinst : ∀ w : Bytes,
                (SparseTree.mk n OptTree.none r).set_child true
                  (.some (SparseTree.new (Node.new k w)))
                = SparseTree.mk
                    { n with left_link := Option.some (Node.new k w).as_link }
                    (.some (SparseTree.mk
                      ((Node.new k w).set_parent (Option.some n.key))
                      OptTree.none OptTree.none)) r := fun w => rfl
            rw [hinst v, hinst v']
            refine rebalance_scrub_congr g _ _ ?_ ?_ ?_
            · rw [hydOk_parts]
              exact ⟨rfl, by simpa using hr, by
                simp only [OptTree.hydOk]
                rw [hydOk_parts]
                exact ⟨rfl, rfl, rfl, rfl⟩, hrhyd⟩
            · rw [hydOk_parts]
              exact ⟨rfl, by simpa using hr, by
                simp only [OptTree.hydOk]
                rw [hydOk_parts]
                exact ⟨rfl, rfl, rfl, rfl⟩, hrhyd⟩
            · rfl
          | some c =>
            simp only [OptTree.linkOf, SparseTree.nodeOf] at hl
            simp only [OptTree.hydOk] at hlhyd
            simp only [OptTree.balancedOk] at hball
            simp only [OptTree.bstOk] at hbstl
            simp only [OptTree.parentOk] at hparl
            have hmgc : (SparseTree.mk n (.some c) r).maybe_get_child g
                (bytesLt k (SparseTree.mk n (.some c) r).nodeOf.key)
                = (.some c, SparseTree.mk n (.some c) r) := by
              rw [show (SparseTree.mk n (.some c) r).nodeOf = n from rfl, hL]
              exact mgc_some g _ true c c.nodeOf.as_link
                (by simp [SparseTree.nodeOf, Node.child_link, hl]) rfl
            rw [putF_descend g fuel (SparseTree.mk n (.some c) r)
                (SparseTree.mk n (.some c) r) c k v hk hmgc,
              putF_descend g fuel (SparseTree.mk n (.some c) r)
                (SparseTree.mk n (.some c) r) c k v' hk hmgc]
            rw [show bytesLt k (SparseTree.mk n (.some c) r).nodeOf.key = true
              from hL]
            have hcfuel : c.realHeight < fuel := by
              have e1 : (SparseTree.mk n (.some c) r).realHeight
                  = 1 + max c.realHeight r.realHeight := by
                rw [realHeight_mk, realHeight_some]
              omega
            have hbtwc := btwnB_shrink_hi hbtw hL
            obtain ⟨c₂, hputc, hc₂hyd, _, _, _, _, _⟩ :=
              putF_spec g fuel c k v lo (Option.some n.key) (Option.some n.key)
                hlhyd hball hbstl hparl hbtwc hcfuel
            obtain ⟨c₂', hputc', hc₂hyd', _, _, _, _, _⟩ :=
              putF_spec g fuel c k v' lo (Option.some n.key) (Option.some n.key)
                hlhyd hball hbstl hparl hbtwc hcfuel
            have hIH := ih c k v v' lo (Option.some n.key) (Option.some n.key)
              hlhyd hball hbstl hparl hbtwc hcfuel
            rw [hputc, hputc'] at hIH
            have hc₂ : c₂.scrub = c₂'.scrub := by
              simp only [Option.map_some'] at hIH
              exact Option.some.inj hIH
            rw [hputc, hputc']
            simp only [Option.some_bind]
            rw [show ((SparseTree.mk n (.some c) r).setChildField true
                (.some c₂)).update_link true
                = SparseTree.mk
                    { n with left_link := Option.some c₂.nodeOf.as_link }
                    (.some c₂) r from rfl,
              show ((SparseTree.mk n (.some c) r).setChildField true
                (.some c₂')).update_link true
                = SparseTree.mk
                    { n with left_link := Option.some c₂'.nodeOf.as_link }
                    (.some c₂') r from rfl]
            refine rebalance_scrub_congr g _ _ ?_ ?_ ?_
            · rw [hydOk_parts]
              exact ⟨rfl, by simpa using hr,
                by simpa [OptTree.hydOk] using hc₂hyd, hrhyd⟩
            · rw [hydOk_parts]
              exact ⟨rfl, by simpa using hr,
                by simpa [OptTree.hydOk] using hc₂hyd', hrhyd⟩
            · rw [scrub_mk, scrub_mk]
              rw [show Node.scrub { n with
                  left_link := Option.some c₂.nodeOf.as_link }
                = Node.mk n.key [] n.parent_key
                    (Option.some (Link.scrub c₂.nodeOf.as_link))
                    (Option.map Link.scrub n.right_link) from rfl,
                show Node.scrub { n with
                  left_link := Option.some c₂'.nodeOf.as_link }
                = Node.mk n.key [] n.parent_key
                    (Option.some (Link.scrub c₂'.nodeOf.as_link))
                    (Option.map Link.scrub n.right_link) from rfl]
              rw [asLink_scrub_congr hc₂, scrub_some, scrub_some, hc₂]
        | false =>
          have hknk : k ≠ n.key := fun e => hk e.symm
          have hgt : bytesLt n.key k = true := bytesLt_total hL hknk
          cases r with
          | none =>
            simp only [OptTree.linkOf] at hr
            have hmgc : (SparseTree.mk n l OptTree.none).maybe_get_child g
                (bytesLt k (SparseTree.mk n l OptTree.none).nodeOf.key)
                = (.none, SparseTree.mk n l OptTree.none) := by
              rw [show (SparseTree.mk n l OptTree.none).nodeOf = n from rfl, hL]
              exact mgc_none g _ false
                (by simp [SparseTree.nodeOf, Node.child_link, hr])
            rw [putF_attach g fuel (SparseTree.mk n l OptTree.none)
                (SparseTree.mk n l OptTree.none) k v hk hmgc,
              putF_attach g fuel (SparseTree.mk n l OptTree.none)
                (SparseTree.mk n l OptTree.none) k v' hk hmgc]
            rw [show bytesLt k (SparseTree.mk n l OptTree.none).nodeOf.key = false
              from hL]
            have hinst : ∀ w : Bytes,
                (SparseTree.mk n l OptTree.none).set_child false
                  (.some (SparseTree.new (Node.new k w)))
                = SparseTree.mk
                    { n with right_link := Option.some (Node.new k w).as_link }
                    l (.some (SparseTree.mk
                      ((Node.new k w).set_parent (Option.some n.key))
                      OptTree.none OptTree.none)) := fun w => rfl
            rw [hinst v, hinst v']
            refine rebalance_scrub_congr g _ _ ?_ ?_ ?_
            · rw [hydOk_parts]
              exact ⟨by simpa using hl, rfl, hlhyd, by
                simp only [OptTree.hydOk]
                rw [hydOk_parts]
                exact ⟨rfl, rfl, rfl, rfl⟩⟩
            · rw [hydOk_parts]
              exact ⟨by simpa using hl, rfl, hlhyd, by
                simp only [OptTree.hydOk]
                rw [hydOk_parts]
                exact ⟨rfl, rfl, rfl, rfl⟩⟩
            · rfl
          | some c =>
            simp only [OptTree.linkOf, SparseTree.nodeOf] at hr
            simp only [OptTree.hydOk] at hrhyd
            simp only [OptTree.balancedOk] at hbalr
            simp only [OptTree.bstOk] at hbstr
            simp only [OptTree.parentOk] at hparr
            have hmgc : (SparseTree.mk n l (.some c)).maybe_get_child g
                (bytesLt k (SparseTree.mk n l (.some c)).nodeOf.key)
                = (.some c, SparseTree.mk n l (.some c)) := by
              rw [show (SparseTree.mk n l (.some c)).nodeOf = n from rfl, hL]
              exact mgc_some g _ false c c.nodeOf.as_link
                (by simp [SparseTree.nodeOf, Node.child_link, hr]) rfl
            rw [putF_descend g fuel (SparseTree.mk n l (.some c))
                (SparseTree.mk n l (.some c)) c k v hk hmgc,
              putF_descend g fuel (SparseTree.mk n l (.some c))
                (SparseTree.mk n l (.some c)) c k v' hk hmgc]
            rw [show bytesLt k (SparseTree.mk n l (.some c)).nodeOf.key = false
              from hL]
            have hcfuel : c.realHeight < fuel := by
              have e1 : (SparseTree.mk n l (.some c)).realHeight
                  = 1 + max l.realHeight c.realHeight := by
                rw [realHeight_mk, realHeight_some]
              omega
            have hbtwc := btwnB_shrink_lo hbtw hgt
            obtain ⟨c₂, hputc, hc₂hyd, _, _, _, _, _⟩ :=
              putF_spec g fuel c k v (Option.some n.key) hi (Option.some n.key)
                hrhyd hbalr hbstr hparr hbtwc hcfuel
            obtain ⟨c₂', hputc', hc₂hyd', _, _, _, _, _⟩ :=
              putF_spec g fuel c k v' (Option.some n.key) hi (Option.some n.key)
                hrhyd hbalr hbstr hparr hbtwc hcfuel
            have hIH := ih c k v v' (Option.some n.key) hi (Option.some n.key)
              hrhyd hbalr hbstr hparr hbtwc hcfuel
            rw [hputc, hputc'] at hIH
            have hc₂ : c₂.scrub = c₂'.scrub := by
              simp only [Option.map_some'] at hIH
              exact Option.some.inj hIH
            rw [hputc, hputc']
            simp only [Option.some_bind]
            rw [show ((SparseTree.mk n l (.some c)).setChildField false
                (.some c₂)).update_link false
                = SparseTree.mk
                    { n with right_link := Option.some c₂.nodeOf.as_link }
                    l (.some c₂) from rfl,
              show ((SparseTree.mk n l (.some c)).setChildField false
                (.some c₂')).update_link false
                = SparseTree.mk
                    { n with right_link := Option.some c₂'.nodeOf.as_link }
                    l (.some c₂') from rfl]
            refine rebalance_scrub_congr g _ _ ?_ ?_ ?_
            · rw [hydOk_parts]
              exact ⟨by simpa using hl, rfl, hlhyd,
                by simpa [OptTree.hydOk] using hc₂hyd⟩
            · rw [hydOk_parts]
              exact ⟨by simpa using hl, rfl, hlhyd,
                by simpa [OptTree.hydOk] using hc₂hyd'⟩
            · rw [scrub_mk, scrub_mk]
              rw [show Node.scrub { n with
                  right_link := Option.some c₂.nodeOf.as_link }
                = Node.mk n.key [] n.parent_key
                    (Option.map Link.scrub n.left_link)
                    (Option.some (Link.scrub c₂.nodeOf.as_link)) from rfl,
                show Node.scrub { n with
                  right_link := Option.some c₂'.nodeOf.as_link }
                = Node.mk n.key [] n.parent_key
                    (Option.map Link.scrub n.left_link)
                    (Option.some (Link.scrub c₂'.nodeOf.as_link)) from rfl]
              rw [asLink_scrub_congr hc₂, scrub_some, scrub_some, hc₂]

theorem lookupA_append_some {k w : Bytes} : ∀ (xs ys : List (Bytes × Bytes)),
    lookupA k xs = Option.some w → lookupA k (xs ++ ys) = Option.some w
  | [], _, h => by simp [lookupA] at h
  | (k', v') :: xs, ys, h => by
    by_cases he : k = k'
    · simp only [List.cons_append, lookupA, if_pos he] at h ⊢
      exact h
    · simp only [List.cons_append, lookupA, if_neg he] at h ⊢
      exact lookupA_append_some xs ys h

theorem lookupA_append_none {k : Bytes} : ∀ (xs ys : List (Bytes × Bytes)),
    lookupA k xs = Option.none → lookupA k (xs ++ ys) = lookupA k ys
  | [], _, _ => rfl
  | (k', v') :: xs, ys, h => by
    by_cases he : k = k'
    · simp only [lookupA, if_pos he] at h
      exact absurd h (by simp)
    · simp only [List.cons_append, lookupA, if_neg he] at h ⊢
      exact lookupA_append_none xs ys h

theorem lookupA_miss {k : Bytes} : ∀ (L : List (Bytes × Bytes)),
    (∀ p ∈ L, ¬ p.1 = k) → lookupA k L = Option.none
  | [], _ => rfl
  | (k', v') :: L, h => by
    have hk : ¬ k = k' := fun e =>
      h (k', v') (by simp) e.symm
    simp only [lookupA, if_neg hk]
    exact lookupA_miss L (fun p hp => h p (by simp [hp]))

theorem putF_refresh (g : GetNodeFn) : ∀ (fuel : Nat) (t : SparseTree)
    (k v w : Bytes) (lo hi pk : Option Bytes),
    t.hydOk = true → t.balancedOk = true → t.bstOk lo hi = true →
    t.parentOk pk = true → btwnB lo hi k = true → t.realHeight < fuel →
    lookupA k t.entries = Option.some w →
    Option.map SparseTree.scrub (t.putF g fuel k v) = Option.some t.scrub := by
  intro fuel
  induction fuel with
  | zero => intro t k v w lo hi pk _ _ _ _ _ hfuel _; omega
  | succ fuel ih =>
    intro t k v w lo hi pk hhyd hbal hbst hpar hbtw hfuel hlook
    cases t with
    | mk n l r =>
      obtain ⟨hl, hr, hlhyd, hrhyd⟩ := (hydOk_parts n l r).mp hhyd
      obtain ⟨hbf_le, hball, hbalr⟩ := (balancedOk_parts n l r).mp hbal
      obtain ⟨hbtw_n, hbstl, hbstr⟩ := (bstOk_parts lo hi n l r).mp hbst
      obtain ⟨hpk, hparl, hparr⟩ := (parentOk_parts pk n l r).mp hpar
      by_cases hk : n.key = k
      · rw [putF_eq_key g fuel (SparseTree.mk n l r) k v hk]
        rfl
      · rw [entries_mk] at hlook
        cases hL : bytesLt k n.key with
        | true =>
          have hmiss : lookupA k ((n.key, n.value) :: r.entries)
              = Option.none := by
            refine lookupA_miss _ ?_
            intro p hp
            rcases List.mem_cons.mp hp with hp | hp
            · rw [hp]
              exact fun e => hk e
            · have hb := bst_entries_boundO r (Option.some n.key) hi hbstr p hp
              have h1 : bytesLt n.key p.1 = true := btwnB_lo hb rfl
              have h2 : bytesLt k p.1 = true := bytesLt_trans hL h1
              exact fun e => absurd e.symm (bytesLt_ne h2)
          cases l with
          | none =>
            rw [show (OptTree.none : OptTree).entries = [] from rfl] at hlook
            rw [List.nil_append, hmiss] at hlook
            exact absurd hlook (by simp)
          | some c =>
            rw [show (OptTree.some c).entries = c.entries from rfl] at hlook
            cases hcl : lookupA k c.entries with
            | none =>
              rw [lookupA_append_none _ _ hcl, hmiss] at hlook
              exact absurd hlook (by simp)
            | some w' =>
              simp only [OptTree.linkOf, SparseTree.nodeOf] at hl
              simp only [OptTree.hydOk] at hlhyd
              simp only [OptTree.balancedOk] at hball
              simp only [OptTree.bstOk] at hbstl
              simp only [OptTree.parentOk] at hparl
              have hmgc : (SparseTree.mk n (.some c) r).maybe_get_child g
                  (bytesLt k (SparseTree.mk n (.some c) r).nodeOf.key)
                  = (.some c, SparseTree.mk n (.some c) r) := by
                rw [show (SparseTree.mk n (.some c) r).nodeOf = n from rfl, hL]
                exact mgc_some g _ true c c.nodeOf.as_link
                  (by simp [SparseTree.nodeOf, Node.child_link, hl]) rfl
              rw [putF_descend g fuel (SparseTree.mk n (.some c) r)
                  (SparseTree.mk n (.some c) r) c k v hk hmgc]
              rw [show bytesLt k (SparseTree.mk n (.some c) r).nodeOf.key = true
                from hL]
              have hcfuel : c.realHeight < fuel := by
                have e1 : (SparseTree.mk n (.some c) r).realHeight
                    = 1 + max c.realHeight r.realHeight := by
                  rw [realHeight_mk, realHeight_some]
                omega
              have hbtwc := btwnB_shrink_hi hbtw hL
              obtain ⟨c₂, hputc, hc₂hyd, _, _, _, _, _⟩ :=
                putF_spec g fuel c k v lo (Option.some n.key)
                  (Option.some n.key) hlhyd hball hbstl hparl hbtwc hcfuel
              have hIH := ih c k v w' lo (Option.some n.key)
                (Option.some n.key) hlhyd hball hbstl hparl hbtwc hcfuel hcl
              rw [hputc] at hIH
              have hc₂ : c₂.scrub = c.scrub := by
                simp only [Option.map_some'] at hIH
                exact Option.some.inj hIH
              rw [hputc]
              simp only [Option.some_bind]
              rw [upd_left_eq]
              have hh : c₂.realHeight = c.realHeight := by
                rw [← scrub_realHeight c₂, ← scrub_realHeight c, hc₂]
              have hyd₂ : (SparseTree.mk
                  { n with left_link := Option.some c₂.nodeOf.as_link }
                  (.some c₂) r).hydOk = true := by
                rw [hydOk_parts]
                exact ⟨rfl, by simpa using hr,
                  by simpa [OptTree.hydOk] using hc₂hyd, hrhyd⟩
              have hbfn : (SparseTree.mk
                  { n with left_link := Option.some c₂.nodeOf.as_link }
                  (.some c₂) r).nodeOf.balance_factor.natAbs ≤ 1 := by
                rw [hydOk_bf _ hyd₂]
                show (((r.realHeight : Int))
                  - ((OptTree.some c₂).realHeight : Int)).natAbs ≤ 1
                rw [realHeight_some, hh]
                simpa [realHeight_some] using hbf_le
              rw [rebalance_noop g _ hbfn]
              simp only [Option.map_some', Option.some.injEq]
              rw [scrub_mk, scrub_mk, scrub_some, scrub_some, hc₂,
                show Node.scrub { n with
                    left_link := Option.some c₂.nodeOf.as_link }
                  = Node.mk n.key [] n.parent_key
                      (Option.some (Link.scrub c₂.nodeOf.as_link))
                      (Option.map Link.scrub n.right_link) from rfl,
                show Node.scrub n
                  = Node.mk n.key [] n.parent_key
                      (Option.map Link.scrub n.left_link)
                      (Option.map Link.scrub n.right_link) from rfl,
                hl, asLink_scrub_congr hc₂, Option.map_some']
              rfl
        | false =>
          have hknk : k ≠ n.key := fun e => hk e.symm
          have hgt : bytesLt n.key k = true := bytesLt_total hL hknk
          have hmissl : lookupA k l.entries = Option.none := by
            refine lookupA_miss _ ?_
            intro p hp
            have hb := bst_entries_boundO l lo (Option.some n.key) hbstl p hp
            have h1 : bytesLt p.1 n.key = true := btwnB_hi hb rfl
            have h2 : bytesLt p.1 k = true := bytesLt_trans h1 hgt
            exact bytesLt_ne h2
          rw [lookupA_append_none _ _ hmissl] at hlook
          rw [show lookupA k ((n.key, n.value) :: r.entries)
              = lookupA k r.entries from by
            simp only [lookupA, if_neg hknk]] at hlook
          cases r with
          | none =>
            rw [show (OptTree.none : OptTree).entries = [] from rfl] at hlook
            exact absurd hlook (by simp [lookupA])
          | some c =>
            rw [show (OptTree.some c).entries = c.entries from rfl] at hlook
            simp only [OptTree.linkOf, SparseTree.nodeOf] at hr
            simp only [OptTree.hydOk] at hrhyd
            simp only [OptTree.balancedOk] at hbalr
            simp only [OptTree.bstOk] at hbstr
            simp only [OptTree.parentOk] at hparr
            have hmgc : (SparseTree.mk n l (.some c)).maybe_get_child g
                (bytesLt k (SparseTree.mk n l (.some c)).nodeOf.key)
                = (.some c, SparseTree.mk n l (.some c)) := by
              rw [show (SparseTree.mk n l (.some c)).nodeOf = n from rfl, hL]
              exact mgc_some g _ false c c.nodeOf.as_link
                (by simp [SparseTree.nodeOf, Node.child_link, hr]) rfl
            rw [putF_descend g fuel (SparseTree.mk n l (.some c))
                (SparseTree.mk n l (.some c)) c k v hk hmgc]
            rw [show bytesLt k (SparseTree.mk n l (.some c)).nodeOf.key = false
              from hL]
            have hcfuel : c.realHeight < fuel := by
              have e1 : (SparseTree.mk n l (.some c)).realHeight
                  = 1 + max l.realHeight c.realHeight := by
                rw [realHeight_mk, realHeight_some]
              omega
            have hbtwc := btwnB_shrink_lo hbtw hgt
            obtain ⟨c₂, hputc, hc₂hyd, _, _, _, _, _⟩ :=
              putF_spec g fuel c k v (Option.some n.key) hi
                (Option.some n.key) hrhyd hbalr hbstr hparr hbtwc hcfuel
            have hIH := ih c k v w (Option.some n.key) hi
              (Option.some n.key) hrhyd hbalr hbstr hparr hbtwc hcfuel hlook
            rw [hputc] at hIH
            have hc₂ : c₂.scrub = c.scrub := by
              simp only [Option.map_some'] at hIH
              exact Option.some.inj hIH
            rw [hputc]
            simp only [Option.some_bind]
            rw [upd_right_eq]
            have hh : c₂.realHeight = c.realHeight := by
              rw [← scrub_realHeight c₂, ← scrub_realHeight c, hc₂]
            have hyd₂ : (SparseTree.mk
                { n with right_link := Option.some c₂.nodeOf.as_link }
                l (.some c₂)).hydOk = true := by
              rw [hydOk_parts]
              exact ⟨by simpa using hl, rfl, hlhyd,
                by simpa [OptTree.hydOk] using hc₂hyd⟩
            have hbfn : (SparseTree.mk
                { n with right_link := Option.some c₂.nodeOf.as_link }
                l (.some c₂)).nodeOf.balance_factor.natAbs ≤ 1 := by
              rw [hydOk_bf _ hyd₂]
              show ((((OptTree.some c₂).realHeight : Int))
                - ((l.realHeight : Int))).natAbs ≤ 1
              rw [realHeight_some, hh]
              simpa [realHeight_some] using hbf_le
            rw [rebalance_noop g _ hbfn]
            simp only [Option.map_some', Option.some.injEq]
            rw [scrub_mk, scrub_mk, scrub_some, scrub_some, hc₂,
              show Node.scrub { n with
                  right_link := Option.some c₂.nodeOf.as_link }
                = Node.mk n.key [] n.parent_key
                    (Option.map Link.scrub n.left_link)
                    (Option.some (Link.scrub c₂.nodeOf.as_link)) from rfl,
              show Node.scrub n
                = Node.mk n.key [] n.parent_key
                    (Option.map Link.scrub n.left_link)
                    (Option.map Link.scrub n.right_link) from rfl,
              hr, asLink_scrub_congr hc₂, Option.map_some']
            rfl

/-- C6: For every SparseTree `t` (satisfying the `put` invariants), every key
`k` and values `v₁`, `v₂`: performing `put(k, v₁)` then `put(k, v₂)` on `t`
yields a tree with the same shape — the same nodes (keys) in the same
positions, witnessed by equality of the value- and hash-erased trees — as
performing `put(k, v₂)` alone on `t`, and in the resulting tree the entry for
`k` has value `v₂`. -/
theorem c6_overwrite_same_shape (g : GetNodeFn) (t : SparseTree)
    (k v₁ v₂ : Bytes) (lo hi pk : Option Bytes)
    (hg : t.goodB lo hi pk = true) (hk : btwnB lo hi k = true) :
    ∃ t₁ t₁₂ t₂,
      t.put g k v₁ = Option.some t₁ ∧
      t₁.put g k v₂ = Option.some t₁₂ ∧
      t.put g k v₂ = Option.some t₂ ∧
      t₁₂.scrub = t₂.scrub ∧
      lookupA k t₁₂.entries = Option.some v₂ := by
  obtain ⟨h1, h2, h3, h4⟩ := (goodB_parts lo hi pk t).mp hg
  obtain ⟨t₁, he₁, hg₁, hent₁⟩ := put_spec g t k v₁ lo hi pk hg hk
  obtain ⟨t₂, he₂, hg₂, hent₂⟩ := put_spec g t k v₂ lo hi pk hg hk
  obtain ⟨t₁₂, he₁₂, hg₁₂, hent₁₂⟩ := put_spec g t₁ k v₂ lo hi pk hg₁ hk
  refine ⟨t₁, t₁₂, t₂, he₁, he₁₂, he₂, ?_, ?_⟩
  · obtain ⟨g1, g2, g3, g4⟩ := (goodB_parts lo hi pk t₁).mp hg₁
    have hlook₁ : lookupA k t₁.entries = Option.some v₁ := by
      rw [hent₁]
      exact lookupA_insertAssoc k v₁ t.entries
    have href := putF_refresh g (t₁.realHeight + 1) t₁ k v₂ v₁ lo hi pk
      g1 g2 g3 g4 hk (Nat.lt_succ_self _) hlook₁
    rw [show t₁.putF g (t₁.realHeight + 1) k v₂ = t₁.put g k v₂ from rfl,
      he₁₂] at href
    have h112 : t₁₂.scrub = t₁.scrub := by
      simp only [Option.map_some'] at href
      exact Option.some.inj href
    have hvi := putF_value_indep g (t.realHeight + 1) t k v₁ v₂ lo hi pk
      h1 h2 h3 h4 hk (Nat.lt_succ_self _)
    rw [show t.putF g (t.realHeight + 1) k v₁ = t.put g k v₁ from rfl,
      show t.putF g (t.realHeight + 1) k v₂ = t.put g k v₂ from rfl,
      he₁, he₂] at hvi
    have h12 : t₁.scrub = t₂.scrub := by
      simp only [Option.map_some'] at hvi
      exact Option.some.inj hvi
    rw [h112, h12]
  · rw [hent₁₂]
    exact lookupA_insertAssoc k v₂ t₁.entries

theorem c6_witness :
    (SparseTree.new (Node.new [1] [10])).goodB Option.none Option.none
        Option.none = true ∧
      btwnB Option.none Option.none [2] = true ∧
      ∃ t₁ t₁₂ t₂,
        (SparseTree.new (Node.new [1] [10])).put (fun _ => Node.new [] [])
            [2] [20] = Option.some t₁ ∧
        t₁.put (fun _ => Node.new [] []) [2] [21] = Option.some t₁₂ ∧
        (SparseTree.new (Node.new [1] [10])).put (fun _ => Node.new [] [])
            [2] [21] = Option.some t₂ ∧
        t₁₂.scrub = t₂.scrub ∧
        lookupA [2] t₁₂.entries = Option.some [21] :=
  ⟨rfl, rfl, c6_overwrite_same_shape (fun _ => Node.new [] [])
    (SparseTree.new (Node.new [1] [10])) [2] [20] [21]
    Option.none Option.none Option.none rfl rfl⟩
